import Mathlib

/-!
# Verification of the py1090 BaseStation message codec

A shallow embedding of `py1090/message.py`: the `Message` record, its
`parse_string` decoder and `to_string` encoder, together with the scalar
helpers `_parse_datetime`, `_parse_bool`, `_dump_datetime`, `_dump_bool`
and `_dump_or_none`.

Python strings are modelled as Lean `String`s (worked with through their
`List Char` contents); Python `int` as `Int`; Python `float` as `ℚ`
(exact rational arithmetic: every literal the decoder accepts denotes a
decimal rational, and the encoder's `str`/`'{:.5f}'.format` are modelled
as exact decimal rendering); `datetime.datetime` as a record of numeric
components; raised exceptions (`IndexError` from out-of-range subscripts,
`ValueError` from failed conversions) as `Except PyError`.

Deliberate simplifications of CPython behaviour, none of which a claim
touches: `int()`/`float()` underscore separators, `float` infinities and
NaN, non-ASCII case mapping, and binary floating point rounding (the
rational model renders decimals exactly).
-/

namespace Py1090

/-- Python errors raised by the decoder: `IndexError` from a subscript past
the end of the split field list, `ValueError` from a failed conversion
(the offending raw text is carried along). -/
inductive PyError where
  | indexError (i : Nat)
  | valueError (s : String)
deriving Repr, DecidableEq

/-! ## Character-level string utilities -/

/-- The whitespace characters stripped by Python's `str.strip()`. -/
def isPySpace (c : Char) : Bool :=
  c = ' ' || c = '\t' || c = '\n' || c = '\r' || c = '\x0b' || c = '\x0c'

/-- `str.strip()`: drop leading and trailing whitespace. -/
def pyStripChars (cs : List Char) : List Char :=
  ((cs.dropWhile isPySpace).reverse.dropWhile isPySpace).reverse

/-- Helper for `splitChars`. -/
def splitCharsAux (sep : Char) : List Char → List Char → List (List Char)
  | [], acc => [acc.reverse]
  | c :: rest, acc =>
    if c = sep then acc.reverse :: splitCharsAux sep rest []
    else splitCharsAux sep rest (c :: acc)

/-- `str.split(sep)` for a single-character separator: always returns at
least one piece, one more piece per separator occurrence. -/
def splitChars (sep : Char) (cs : List Char) : List (List Char) :=
  splitCharsAux sep cs []

/-- `str.upper()` (ASCII case mapping). -/
def pyUpper (s : String) : String := String.mk (s.data.map Char.toUpper)

/-- `str.lower()` (ASCII case mapping). -/
def pyLower (s : String) : String := String.mk (s.data.map Char.toLower)

/-- Decimal value of a digit character list (digits are validated by the
callers before this is applied). -/
def digitsVal (cs : List Char) : Nat :=
  cs.foldl (fun a c => 10 * a + (c.toNat - 48)) 0

/-- A non-empty all-digit character list, read as a natural number. -/
def parseNatChars (cs : List Char) : Option Nat :=
  if cs ≠ [] ∧ cs.all Char.isDigit then some (digitsVal cs) else none

/-- Python `int(str)`: surrounding whitespace, an optional sign, then a
non-empty digit string. -/
def pyInt (s : String) : Except PyError Int :=
  match pyStripChars s.data with
  | '-' :: rest =>
    match parseNatChars rest with
    | some n => .ok (-(n : Int))
    | none => .error (.valueError s)
  | '+' :: rest =>
    match parseNatChars rest with
    | some n => .ok (n : Int)
    | none => .error (.valueError s)
  | cs =>
    match parseNatChars cs with
    | some n => .ok (n : Int)
    | none => .error (.valueError s)

/-- Split a character list at the first character satisfying `p`;
`none` when no character satisfies it. -/
def splitFirst (p : Char → Bool) : List Char → Option (List Char × List Char)
  | [] => none
  | c :: rest =>
    if p c then some ([], rest)
    else
      match splitFirst p rest with
      | some (a, b) => some (c :: a, b)
      | none => none

/-- An optional leading sign: returns (isNegative, remainder). -/
def parseSign : List Char → Bool × List Char
  | '-' :: rest => (true, rest)
  | '+' :: rest => (false, rest)
  | cs => (false, cs)

/-- The unsigned mantissa of a Python float literal: digits with at most
one decimal point and at least one digit overall. -/
def parseMantissa (cs : List Char) : Option ℚ :=
  match splitFirst (fun c => c = '.') cs with
  | none => (parseNatChars cs).map (fun n => (n : ℚ))
  | some (ip, fp) =>
    if ip.all Char.isDigit ∧ fp.all Char.isDigit ∧ (ip ≠ [] ∨ fp ≠ []) then
      some ((digitsVal ip : ℚ) + (digitsVal fp : ℚ) / 10 ^ fp.length)
    else none

/-- A signed Python float literal with an optional decimal exponent. -/
def parseFloatCore (cs : List Char) : Option ℚ :=
  let (neg, cs1) := parseSign cs
  match splitFirst (fun c => c = 'e' || c = 'E') cs1 with
  | none => (parseMantissa cs1).map (fun m => if neg then -m else m)
  | some (mant, expPart) =>
    let (eneg, ds) := parseSign expPart
    match parseMantissa mant, parseNatChars ds with
    | some mv, some e =>
      let q := mv * (if eneg then ((10 : ℚ) ^ e)⁻¹ else (10 : ℚ) ^ e)
      some (if neg then -q else q)
    | _, _ => none

/-- Python `float(str)` on finite decimal literals (modelled exactly over ℚ). -/
def pyFloat (s : String) : Except PyError ℚ :=
  match parseFloatCore (pyStripChars s.data) with
  | some q => .ok q
  | none => .error (.valueError s)

/-- Split at the LAST occurrence of `sep`: `some (before, after)`, or
`none` when `sep` does not occur. -/
def rpartitionChar (sep : Char) (cs : List Char) : Option (List Char × List Char) :=
  match splitFirst (fun c => c = sep) cs.reverse with
  | none => none
  | some (revTail, revHead) => some (revHead.reverse, revTail.reverse)

/-- `str.rpartition('.')`: (head, separator, tail); when no dot occurs the
whole string lands in the tail and head and separator are empty. -/
def pyRPartitionDot (cs : List Char) : List Char × String × List Char :=
  match rpartitionChar '.' cs with
  | some (h, t) => (h, ".", t)
  | none => ([], "", cs)

/-- Python `int(float)` truncation toward zero. -/
def pyTrunc (q : ℚ) : Int := if 0 ≤ q then ⌊q⌋ else ⌈q⌉

/-! ## datetime -/

/-- The components of a Python `datetime.datetime` (date plus time of day,
with microsecond resolution), as combined by `_parse_datetime`. -/
structure PyDatetime where
  year : Nat
  month : Nat
  day : Nat
  hour : Nat
  minute : Nat
  second : Nat
  microsecond : Nat
deriving Repr, DecidableEq

/-- Days in a month of the proleptic Gregorian calendar. -/
def daysInMonth (y m : Nat) : Nat :=
  if m = 2 then (if (y % 4 = 0 ∧ y % 100 ≠ 0) ∨ y % 400 = 0 then 29 else 28)
  else if m = 4 ∨ m = 6 ∨ m = 9 ∨ m = 11 then 30 else 31

/-- `datetime.strptime(s, '%Y/%m/%d')`: four year digits, one or two month
and day digits, slash separators, a valid calendar date with year ≥ 1. -/
def strptimeDate (s : String) : Except PyError (Nat × Nat × Nat) :=
  match splitChars '/' s.data with
  | [ys, ms, ds] =>
    match parseNatChars ys, parseNatChars ms, parseNatChars ds with
    | some y, some m, some d =>
      if ys.length = 4 ∧ 1 ≤ y ∧ ms.length ≤ 2 ∧ 1 ≤ m ∧ m ≤ 12
          ∧ ds.length ≤ 2 ∧ 1 ≤ d ∧ d ≤ daysInMonth y m then
        .ok (y, m, d)
      else .error (.valueError s)
    | _, _, _ => .error (.valueError s)
  | _ => .error (.valueError s)

/-- `datetime.strptime(s, '%H:%M:%S')`: one or two digits per component,
colon separators, hour ≤ 23, minute ≤ 59, second ≤ 59.  (The `%S` pattern
also matches the leap-second texts 60 and 61, but `datetime.strptime`
then fails constructing the `datetime`; the net acceptance is the same.) -/
def strptimeTime (s : String) : Except PyError (Nat × Nat × Nat) :=
  match splitChars ':' s.data with
  | [hs, ms, ss] =>
    match parseNatChars hs, parseNatChars ms, parseNatChars ss with
    | some h, some mi, some se =>
      if hs.length ≤ 2 ∧ h ≤ 23 ∧ ms.length ≤ 2 ∧ mi ≤ 59
          ∧ ss.length ≤ 2 ∧ se ≤ 59 then
        .ok (h, mi, se)
      else .error (.valueError s)
    | _, _, _ => .error (.valueError s)
  | _ => .error (.valueError s)

/-- `_parse_datetime(datestr, timestr)`: parse the date, split the time at
its last dot, parse the whole-second part, convert the fractional part
through `float` to microseconds (`time.replace` validates the range),
and combine. -/
def parse_datetime (datestr timestr : String) : Except PyError PyDatetime := do
  let (y, mo, d) ← strptimeDate datestr
  let (head, sep, millis) := pyRPartitionDot timestr.data
  let (h, mi, se) ← strptimeTime (String.mk head)
  let secs ← pyFloat (sep ++ String.mk millis)
  let micro := pyTrunc (secs * 1000000)
  if 0 ≤ micro ∧ micro ≤ 999999 then
    pure ⟨y, mo, d, h, mi, se, micro.toNat⟩
  else .error (.valueError timestr)

/-- `_parse_bool`: case-insensitive truth vocabulary.  Text outside both
vocabularies falls off the end of the `if/elif` and yields `None`. -/
def parse_bool (s : String) : Option Bool :=
  if pyLower s = "true" ∨ pyLower s = "y" ∨ pyLower s = "yes"
      ∨ pyLower s = "on" ∨ pyLower s = "1" then some true
  else if pyLower s = "false" ∨ pyLower s = "n" ∨ pyLower s = "no"
      ∨ pyLower s = "off" ∨ pyLower s = "0" then some false
  else none

/-! ## Decimal rendering helpers used by the encoder -/

/-- Decimal digits of a natural number (no padding), most significant first. -/
def natDigits (n : Nat) : List Char :=
  if h : n < 10 then [Char.ofNat (48 + n)]
  else natDigits (n / 10) ++ [Char.ofNat (48 + n % 10)]
decreasing_by exact Nat.div_lt_self (by omega) (by omega)

/-- Python `str(int)`. -/
def intRepr (z : Int) : List Char :=
  if z < 0 then '-' :: natDigits z.natAbs else natDigits z.natAbs

/-- Exactly `k` decimal digits of `m % 10^k`, zero-padded on the left. -/
def padDigits : Nat → Nat → List Char
  | 0, _ => []
  | k + 1, m => padDigits k (m / 10) ++ [Char.ofNat (48 + m % 10)]

/-- The `%Y/%m/%d` half of `_dump_datetime` (`%Y` prints the year
unpadded, as on glibc; month and day zero-pad to two digits). -/
def dumpDate (t : PyDatetime) : List Char :=
  natDigits t.year ++ '/' :: padDigits 2 t.month ++ '/' :: padDigits 2 t.day

/-- The `%H:%M:%S` half of `_dump_datetime` plus the dot and the
millisecond count `'{:03d}'.format(microsecond // 1000)`. -/
def dumpTime (t : PyDatetime) : List Char :=
  padDigits 2 t.hour ++ ':' :: padDigits 2 t.minute ++ ':' :: padDigits 2 t.second
    ++ '.' :: padDigits 3 (t.microsecond / 1000)

/-- `_dump_datetime`: `strftime('%Y/%m/%d,%H:%M:%S')` plus a dot and the
millisecond count — note the comma in the middle: one timestamp spans two
comma-separated columns of the line. -/
def dump_datetime (t : PyDatetime) : String :=
  String.mk (dumpDate t ++ ',' :: dumpTime t)

/-- `_dump_bool`: `'1'` for True, `'0'` otherwise. -/
def dump_bool (b : Bool) : String := if b then "1" else "0"

/-- The multiplicity of `p` in `n` (zero for `p < 2` or `n = 0`). -/
def factorExp (p n : Nat) : Nat :=
  if h : 2 ≤ p ∧ 0 < n ∧ n % p = 0 then factorExp p (n / p) + 1 else 0
decreasing_by exact Nat.div_lt_self h.2.1 (by omega)

/-- The number of decimal fraction digits needed for denominator `d`
(meaningful when `d` has only the prime factors 2 and 5). -/
def decExponent (d : Nat) : Nat := max (factorExp 2 d) (factorExp 5 d)

/-- Python `str(float)` on the rational model: the exact decimal expansion
with a minimal fraction part, `.0` for integers.  (CPython prints the
shortest round-tripping decimal of the binary double and switches to
scientific notation for extreme magnitudes; on decimal rationals the
value denoted is the same.)  Only rationals whose denominator divides a
power of ten — all the decoder ever produces — are rendered. -/
def dumpPyFloat (q : ℚ) : String :=
  let k := decExponent q.den
  if q.den ∣ 10 ^ k then
    let n := (q * 10 ^ k).num.natAbs
    String.mk ((if q < 0 then ['-'] else []) ++ natDigits (n / 10 ^ k)
      ++ '.' :: (if k = 0 then ['0'] else padDigits k (n % 10 ^ k)))
  else "0"

/-- Round to the nearest integer, ties to even. -/
def roundHalfEven (q : ℚ) : Int :=
  let n := ⌊q⌋
  let r := q - n
  if r < 1 / 2 then n else if 1 / 2 < r then n + 1
  else if n % 2 = 0 then n else n + 1

/-- `'{:.5f}'.format(x)`: exactly five digits after the decimal point.
(CPython rounds the binary double half to even; on the rational model the
rounding is exact whenever the value has at most five decimal places.) -/
def format_coordinates (q : ℚ) : String :=
  let m := roundHalfEven (q * 100000)
  String.mk ((if m < 0 then ['-'] else []) ++ natDigits (m.natAbs / 100000)
    ++ '.' :: padDigits 5 (m.natAbs % 100000))

/-- `_dump_or_none(value, func)`: empty string for `None`, otherwise the
rendering function (the Python default `func=str` is passed explicitly at
each call site below). -/
def dump_or_none {α : Type} (v : Option α) (f : α → String) : String :=
  match v with
  | none => ""
  | some x => f x

/-! ## The Message record -/

/-- The `Message` class: one optional attribute per BaseStation field, in
source order.  `Message.__init__` sets every attribute to `None`. -/
structure Message where
  message_type : Option String
  transmission_type : Option Int
  session_id : Option Int
  aircraft_id : Option Int
  hexident : Option String
  flight_id : Option String
  generation_time : Option PyDatetime
  record_time : Option PyDatetime
  callsign : Option String
  altitude : Option Int
  ground_speed : Option ℚ
  track : Option ℚ
  latitude : Option ℚ
  longitude : Option ℚ
  vertical_rate : Option Int
  squawk : Option Int
  squawk_alert : Option Bool
  emergency : Option Bool
  spi : Option Bool
  on_ground : Option Bool
deriving Repr, DecidableEq

/-- `Message.__init__`: every attribute `None`. -/
def Message.init : Message :=
  ⟨none, none, none, none, none, none, none, none, none, none,
   none, none, none, none, none, none, none, none, none, none⟩

/-- `parts[i]`: the subscript raises `IndexError` past the end. -/
def getIdx (ps : List String) (i : Nat) : Except PyError String :=
  if h : i < ps.length then .ok ps[i] else .error (.indexError i)

/-- `string.strip().split(',')`. -/
def pyParts (s : String) : List String :=
  (splitChars ',' (pyStripChars s.data)).map String.mk

/-- `if parts[0]: self.message_type = parts[0].upper()` -/
def fMessageType (m : Message) (ps : List String) : Except PyError Message := do
  let p0 ← getIdx ps 0
  pure (if p0 ≠ "" then { m with message_type := some (pyUpper p0) } else m)

/-- `if parts[1]: self.transmission_type = int(parts[1])` -/
def fTransmission (m : Message) (ps : List String) : Except PyError Message := do
  let p1 ← getIdx ps 1
  if p1 ≠ "" then do
    let v ← pyInt p1
    pure { m with transmission_type := some v }
  else pure m

/-- `if parts[2] and parts[2] != '111': self.session_id = int(parts[2])` -/
def fSession (m : Message) (ps : List String) : Except PyError Message := do
  let p2 ← getIdx ps 2
  if p2 ≠ "" ∧ p2 ≠ "111" then do
    let v ← pyInt p2
    pure { m with session_id := some v }
  else pure m

/-- `if parts[3] and parts[3] != '11111': self.aircraft_id = int(parts[3])` -/
def fAircraft (m : Message) (ps : List String) : Except PyError Message := do
  let p3 ← getIdx ps 3
  if p3 ≠ "" ∧ p3 ≠ "11111" then do
    let v ← pyInt p3
    pure { m with aircraft_id := some v }
  else pure m

/-- `if parts[4]: self.hexident = parts[4].upper()` -/
def fHexident (m : Message) (ps : List String) : Except PyError Message := do
  let p4 ← getIdx ps 4
  pure (if p4 ≠ "" then { m with hexident := some (pyUpper p4) } else m)

/-- `if parts[5] and parts[5] != '111111': self.flight_id = parts[5].upper()` -/
def fFlight (m : Message) (ps : List String) : Except PyError Message := do
  let p5 ← getIdx ps 5
  pure (if p5 ≠ "" ∧ p5 ≠ "111111" then { m with flight_id := some (pyUpper p5) } else m)

/-- `if len(parts[6]) > 0 and len(parts[7]) > 0: self.generation_time =
_parse_datetime(parts[6], parts[7])` — the `and` short-circuits, so
field 7 is subscripted only when field 6 is non-empty. -/
def fGenTime (m : Message) (ps : List String) : Except PyError Message := do
  let p6 ← getIdx ps 6
  if p6 ≠ "" then do
    let p7 ← getIdx ps 7
    if p7 ≠ "" then do
      let t ← parse_datetime p6 p7
      pure { m with generation_time := some t }
    else pure m
  else pure m

/-- `if len(parts[8]) > 0 and len(parts[8]) > 0: self.record_time =
_parse_datetime(parts[8], parts[9])` — the source tests field 8 TWICE and
never looks at whether field 9 is empty; field 9 is subscripted and fed to
`_parse_datetime` whenever field 8 is non-empty. -/
def fRecTime (m : Message) (ps : List String) : Except PyError Message := do
  let p8 ← getIdx ps 8
  if p8 ≠ "" ∧ p8 ≠ "" then do
    let p9 ← getIdx ps 9
    let t ← parse_datetime p8 p9
    pure { m with record_time := some t }
  else pure m

/-- `parse_string`, fields 0–9 (message type through `record_time`), one
step per source statement. -/
def parseFront (m : Message) (ps : List String) : Except PyError Message :=
  fMessageType m ps >>= fun m => fTransmission m ps >>= fun m =>
  fSession m ps >>= fun m => fAircraft m ps >>= fun m =>
  fHexident m ps >>= fun m => fFlight m ps >>= fun m =>
  fGenTime m ps >>= fun m => fRecTime m ps

/-- `parse_string`, field 10: `len(parts) > 10 and parts[10]` is
bounds-checked and can never fail. -/
def parseCallsign (m : Message) (ps : List String) : Message :=
  if h : 10 < ps.length then
    (if ps[10] ≠ "" then { m with callsign := some (pyUpper ps[10]) } else m)
  else m

/-- `if parts[12]: self.ground_speed = float(parts[12])` -/
def fGroundSpeed (m : Message) (ps : List String) : Except PyError Message := do
  let p12 ← getIdx ps 12
  if p12 ≠ "" then do
    let v ← pyFloat p12
    pure { m with ground_speed := some v }
  else pure m

/-- `if parts[13]: self.track = float(parts[13])` -/
def fTrack (m : Message) (ps : List String) : Except PyError Message := do
  let p13 ← getIdx ps 13
  if p13 ≠ "" then do
    let v ← pyFloat p13
    pure { m with track := some v }
  else pure m

/-- `if parts[14]: self.latitude = float(parts[14])` -/
def fLatitude (m : Message) (ps : List String) : Except PyError Message := do
  let p14 ← getIdx ps 14
  if p14 ≠ "" then do
    let v ← pyFloat p14
    pure { m with latitude := some v }
  else pure m

/-- `if parts[15]: self.longitude = float(parts[15])` -/
def fLongitude (m : Message) (ps : List String) : Except PyError Message := do
  let p15 ← getIdx ps 15
  if p15 ≠ "" then do
    let v ← pyFloat p15
    pure { m with longitude := some v }
  else pure m

/-- `if parts[16]: self.vertical_rate = int(parts[16])` -/
def fVerticalRate (m : Message) (ps : List String) : Except PyError Message := do
  let p16 ← getIdx ps 16
  if p16 ≠ "" then do
    let v ← pyInt p16
    pure { m with vertical_rate := some v }
  else pure m

/-- `if parts[17]: self.squawk = int(parts[17])` -/
def fSquawk (m : Message) (ps : List String) : Except PyError Message := do
  let p17 ← getIdx ps 17
  if p17 ≠ "" then do
    let v ← pyInt p17
    pure { m with squawk := some v }
  else pure m

/-- `if parts[18]: self.squawk_alert = _parse_bool(parts[18])` — stores the
raw result of `_parse_bool`, which is `None` for text outside the
vocabulary. -/
def fSquawkAlert (m : Message) (ps : List String) : Except PyError Message := do
  let p18 ← getIdx ps 18
  pure (if p18 ≠ "" then { m with squawk_alert := parse_bool p18 } else m)

/-- `if parts[19]: self.emergency = _parse_bool(parts[19])` -/
def fEmergency (m : Message) (ps : List String) : Except PyError Message := do
  let p19 ← getIdx ps 19
  pure (if p19 ≠ "" then { m with emergency := parse_bool p19 } else m)

/-- `if parts[20]: self.spi = _parse_bool(parts[20])` -/
def fSpi (m : Message) (ps : List String) : Except PyError Message := do
  let p20 ← getIdx ps 20
  pure (if p20 ≠ "" then { m with spi := parse_bool p20 } else m)

/-- `if parts[21]: self.on_ground = _parse_bool(parts[21])` -/
def fOnGround (m : Message) (ps : List String) : Except PyError Message := do
  let p21 ← getIdx ps 21
  pure (if p21 ≠ "" then { m with on_ground := parse_bool p21 } else m)

/-- `parse_string`, fields 12–21 (the full-length continuation after the
rtl1090 workaround check), one step per source statement. -/
def parseTail12 (m : Message) (ps : List String) : Except PyError Message :=
  fGroundSpeed m ps >>= fun m => fTrack m ps >>= fun m =>
  fLatitude m ps >>= fun m => fLongitude m ps >>= fun m =>
  fVerticalRate m ps >>= fun m => fSquawk m ps >>= fun m =>
  fSquawkAlert m ps >>= fun m => fEmergency m ps >>= fun m =>
  fSpi m ps >>= fun m => fOnGround m ps

/-- `if parts[11]: self.altitude = int(parts[11])` -/
def fAltitude (m : Message) (ps : List String) : Except PyError Message := do
  let p11 ← getIdx ps 11
  if p11 ≠ "" then do
    let v ← pyInt p11
    pure { m with altitude := some v }
  else pure m

/-- `parse_string`, the `if self.message_type == 'MSG'` block: altitude from
field 11, then the rtl1090 workaround (`transmission_type == 7` and exactly
21 fields: decode `parts[-1]` as `on_ground` and return early), otherwise
the full continuation. -/
def parseMsgTail (m : Message) (ps : List String) : Except PyError Message := do
  let m ← fAltitude m ps
  if m.transmission_type = some 7 ∧ ps.length = 21 then do
    let plast ← getIdx ps (ps.length - 1)
    pure (if plast ≠ "" then { m with on_ground := parse_bool plast } else m)
  else parseTail12 m ps

/-- `Message.parse_string(self, string)`: strip, split on commas, then the
field-by-field assignments above. -/
def Message.parse_string (m : Message) (s : String) : Except PyError Message := do
  let ps := pyParts s
  let m ← parseFront m ps
  let m := parseCallsign m ps
  if m.message_type = some "MSG" then parseMsgTail m ps else pure m

/-- `Message.from_string`: decode a line into a fresh record. -/
def Message.from_string (s : String) : Except PyError Message :=
  Message.parse_string Message.init s

/-- The 20 comma-joined fields of `Message.to_string`, in source order. -/
def Message.fields (m : Message) : List String :=
  [dump_or_none m.message_type id,
   dump_or_none m.transmission_type (fun z => String.mk (intRepr z)),
   dump_or_none m.session_id (fun z => String.mk (intRepr z)),
   dump_or_none m.aircraft_id (fun z => String.mk (intRepr z)),
   dump_or_none m.hexident id,
   dump_or_none m.flight_id id,
   dump_or_none m.generation_time dump_datetime,
   dump_or_none m.record_time dump_datetime,
   dump_or_none m.callsign id,
   dump_or_none m.altitude (fun z => String.mk (intRepr z)),
   dump_or_none m.ground_speed dumpPyFloat,
   dump_or_none m.track dumpPyFloat,
   dump_or_none m.latitude format_coordinates,
   dump_or_none m.longitude format_coordinates,
   dump_or_none m.vertical_rate (fun z => String.mk (intRepr z)),
   dump_or_none m.squawk (fun z => String.mk (intRepr z)),
   dump_or_none m.squawk_alert dump_bool,
   dump_or_none m.emergency dump_bool,
   dump_or_none m.spi dump_bool,
   dump_or_none m.on_ground dump_bool]

/-- `sep.join(pieces)` at the character level. -/
def joinSep (sep : Char) : List (List Char) → List Char
  | [] => []
  | [t] => t
  | t :: ts => t ++ sep :: joinSep sep ts

/-- `Message.to_string`: `','.join(fields) + '\n'`. -/
def Message.to_string (m : Message) : String :=
  String.mk (joinSep ',' (m.fields.map String.data) ++ ['\n'])

/-! ## Derived definitions used in stating and proving the theorems -/

/-- The timestamps that `_dump_datetime` followed by `_parse_datetime`
reproduces exactly: a valid calendar date with a four-digit year, a valid
time of day, and a whole-millisecond microsecond count. -/
def ValidStamp (t : PyDatetime) : Prop :=
  1000 ≤ t.year ∧ t.year ≤ 9999 ∧ 1 ≤ t.month ∧ t.month ≤ 12 ∧
  1 ≤ t.day ∧ t.day ≤ daysInMonth t.year t.month ∧
  t.hour ≤ 23 ∧ t.minute ≤ 59 ∧ t.second ≤ 59 ∧
  t.microsecond ≤ 999999 ∧ t.microsecond % 1000 = 0

/-- `ValidStamp` is checkable on concrete inputs. -/
instance decValidStamp (t : PyDatetime) : Decidable (ValidStamp t) := by
  unfold ValidStamp
  infer_instance

/-- A string that survives the decoder's upper-casing and the line's
comma-splitting unchanged. -/
def StableToken (x : String) : Prop :=
  x ≠ "" ∧ pyUpper x = x ∧ ',' ∉ x.data

/-- `StableToken` is checkable on concrete inputs. -/
instance decStableToken (x : String) : Decidable (StableToken x) := by
  unfold StableToken
  infer_instance

/-- The records the full-form encoder then decoder reproduces exactly
(the amendment of claim C4): a MSG record, both timestamps present and
well formed, identifier values away from the decode-side sentinels,
string fields upper-case and comma-free, and float fields with
terminating decimal expansions (co-ordinates within five places). -/
def RoundTrippable (r : Message) : Prop :=
  r.message_type = some "MSG" ∧
  r.session_id ≠ some 111 ∧
  r.aircraft_id ≠ some 11111 ∧
  (∀ x, r.hexident = some x → StableToken x) ∧
  (∀ x, r.flight_id = some x → StableToken x ∧ x ≠ "111111") ∧
  (∀ x, r.callsign = some x → StableToken x) ∧
  (∃ t, r.generation_time = some t ∧ ValidStamp t) ∧
  (∃ t, r.record_time = some t ∧ ValidStamp t) ∧
  (∀ q, r.ground_speed = some q → q.den ∣ 10 ^ decExponent q.den) ∧
  (∀ q, r.track = some q → q.den ∣ 10 ^ decExponent q.den) ∧
  (∀ q, r.latitude = some q → q.den ∣ 10 ^ 5) ∧
  (∀ q, r.longitude = some q → q.den ∣ 10 ^ 5)

/-- Field `i` of the split line, with the empty string standing in past
the end (the decoder subscripts with a bounds proof wherever that can
matter, so the default is never observed). -/
def tok : List String → Nat → String
  | [], _ => ""
  | t :: _, 0 => t
  | _ :: ps, i + 1 => tok ps i

/-- What a successful `parseFront` run assigns (fields 0–9). -/
def frontResult (m : Message) (ps : List String) : Message :=
  { m with
    message_type := if tok ps 0 ≠ "" then some (pyUpper (tok ps 0)) else m.message_type
    transmission_type := if tok ps 1 ≠ "" then (pyInt (tok ps 1)).toOption else m.transmission_type
    session_id := if tok ps 2 ≠ "" ∧ tok ps 2 ≠ "111" then (pyInt (tok ps 2)).toOption else m.session_id
    aircraft_id := if tok ps 3 ≠ "" ∧ tok ps 3 ≠ "11111" then (pyInt (tok ps 3)).toOption else m.aircraft_id
    hexident := if tok ps 4 ≠ "" then some (pyUpper (tok ps 4)) else m.hexident
    flight_id := if tok ps 5 ≠ "" ∧ tok ps 5 ≠ "111111" then some (pyUpper (tok ps 5)) else m.flight_id
    generation_time := if tok ps 6 ≠ "" ∧ tok ps 7 ≠ "" then
      (parse_datetime (tok ps 6) (tok ps 7)).toOption else m.generation_time
    record_time := if tok ps 8 ≠ "" then
      (parse_datetime (tok ps 8) (tok ps 9)).toOption else m.record_time }

/-- What a successful `parseTail12` run assigns (fields 12–21). -/
def tail12Result (m : Message) (ps : List String) : Message :=
  { m with
    ground_speed := if tok ps 12 ≠ "" then (pyFloat (tok ps 12)).toOption else m.ground_speed
    track := if tok ps 13 ≠ "" then (pyFloat (tok ps 13)).toOption else m.track
    latitude := if tok ps 14 ≠ "" then (pyFloat (tok ps 14)).toOption else m.latitude
    longitude := if tok ps 15 ≠ "" then (pyFloat (tok ps 15)).toOption else m.longitude
    vertical_rate := if tok ps 16 ≠ "" then (pyInt (tok ps 16)).toOption else m.vertical_rate
    squawk := if tok ps 17 ≠ "" then (pyInt (tok ps 17)).toOption else m.squawk
    squawk_alert := if tok ps 18 ≠ "" then parse_bool (tok ps 18) else m.squawk_alert
    emergency := if tok ps 19 ≠ "" then parse_bool (tok ps 19) else m.emergency
    spi := if tok ps 20 ≠ "" then parse_bool (tok ps 20) else m.spi
    on_ground := if tok ps 21 ≠ "" then parse_bool (tok ps 21) else m.on_ground }

/-- Decidable equality for `Except` results (not provided by core). -/
instance instDecEqExcept {e a : Type} [DecidableEq e] [DecidableEq a] :
    DecidableEq (Except e a)
  | .ok x, .ok y =>
    if h : x = y then .isTrue (by rw [h]) else .isFalse (by simp [h])
  | .ok _, .error _ => .isFalse (by simp)
  | .error _, .ok _ => .isFalse (by simp)
  | .error x, .error y =>
    if h : x = y then .isTrue (by rw [h]) else .isFalse (by simp [h])

/-! ## Generic lemmas about the error monad and field access -/

theorem ok_bind {ε α β : Type} (a : α) (f : α → Except ε β) :
    (Except.ok a >>= f) = f a := rfl

theorem error_bind {ε α β : Type} (e : ε) (f : α → Except ε β) :
    ((Except.error e : Except ε α) >>= f) = .error e := rfl

theorem pure_eq_ok {ε α : Type} (a : α) : (pure a : Except ε α) = .ok a := rfl

theorem bind_ok_iff {ε α β : Type} {x : Except ε α} {f : α → Except ε β} {b : β} :
    (x >>= f) = .ok b ↔ ∃ a, x = .ok a ∧ f a = .ok b := by
  cases x <;> simp [ok_bind, error_bind]

theorem tok_eq_getElem : ∀ (ps : List String) (i : Nat) (h : i < ps.length), tok ps i = ps[i]
  | [], _, h => absurd h (by simp)
  | _ :: _, 0, _ => rfl
  | _ :: ps, i + 1, h => tok_eq_getElem ps i (by simpa using h)

theorem getIdx_ok_iff {ps : List String} {i : Nat} {t : String} :
    getIdx ps i = .ok t ↔ i < ps.length ∧ tok ps i = t := by
  unfold getIdx
  split
  · rename_i h
    constructor
    · intro he
      exact ⟨h, by rw [tok_eq_getElem ps i h]; exact (Except.ok.injEq _ _).mp he⟩
    · rintro ⟨-, ht⟩
      rw [tok_eq_getElem ps i h] at ht
      exact congrArg Except.ok ht
  · rename_i h
    constructor
    · intro he
      exact absurd he (by simp)
    · rintro ⟨hlt, -⟩
      exact absurd hlt h

theorem getIdx_ok_of_lt {ps : List String} {i : Nat} (h : i < ps.length) :
    getIdx ps i = .ok (tok ps i) :=
  getIdx_ok_iff.mpr ⟨h, rfl⟩

/-! ## Characterization of each decoder step on success -/

theorem fMessageType_ok {m m' : Message} {ps : List String}
    (h : fMessageType m ps = .ok m') :
    0 < ps.length ∧
      m' = if tok ps 0 ≠ "" then { m with message_type := some (pyUpper (tok ps 0)) } else m := by
  unfold fMessageType at h
  obtain ⟨p0, hg, h⟩ := bind_ok_iff.mp h
  obtain ⟨hlt, htok⟩ := getIdx_ok_iff.mp hg
  subst htok
  exact ⟨hlt, ((Except.ok.injEq _ _).mp h).symm⟩

theorem fHexident_ok {m m' : Message} {ps : List String}
    (h : fHexident m ps = .ok m') :
    4 < ps.length ∧
      m' = if tok ps 4 ≠ "" then { m with hexident := some (pyUpper (tok ps 4)) } else m := by
  unfold fHexident at h
  obtain ⟨p4, hg, h⟩ := bind_ok_iff.mp h
  obtain ⟨hlt, htok⟩ := getIdx_ok_iff.mp hg
  subst htok
  exact ⟨hlt, ((Except.ok.injEq _ _).mp h).symm⟩

theorem fFlight_ok {m m' : Message} {ps : List String}
    (h : fFlight m ps = .ok m') :
    5 < ps.length ∧
      m' = if tok ps 5 ≠ "" ∧ tok ps 5 ≠ "111111" then
        { m with flight_id := some (pyUpper (tok ps 5)) } else m := by
  unfold fFlight at h
  obtain ⟨p5, hg, h⟩ := bind_ok_iff.mp h
  obtain ⟨hlt, htok⟩ := getIdx_ok_iff.mp hg
  subst htok
  exact ⟨hlt, ((Except.ok.injEq _ _).mp h).symm⟩

theorem fTransmission_ok {m m' : Message} {ps : List String}
    (h : fTransmission m ps = .ok m') :
    1 < ps.length ∧
      (tok ps 1 = "" → m' = m) ∧
      (tok ps 1 ≠ "" →
        ∃ v, pyInt (tok ps 1) = .ok v ∧ m' = { m with transmission_type := some v }) := by
  unfold fTransmission at h
  obtain ⟨p1, hg, h⟩ := bind_ok_iff.mp h
  obtain ⟨hlt, htok⟩ := getIdx_ok_iff.mp hg
  subst htok
  refine ⟨hlt, ?_, ?_⟩
  · intro he
    rw [if_neg (by simpa using he)] at h
    exact ((Except.ok.injEq _ _).mp h).symm
  · intro hne
    rw [if_pos hne] at h
    obtain ⟨v, hv, h⟩ := bind_ok_iff.mp h
    exact ⟨v, hv, ((Except.ok.injEq _ _).mp h).symm⟩

theorem fSession_ok {m m' : Message} {ps : List String}
    (h : fSession m ps = .ok m') :
    2 < ps.length ∧
      (tok ps 2 = "" ∨ tok ps 2 = "111" → m' = m) ∧
      (tok ps 2 ≠ "" → tok ps 2 ≠ "111" →
        ∃ v, pyInt (tok ps 2) = .ok v ∧ m' = { m with session_id := some v }) := by
  unfold fSession at h
  obtain ⟨p2, hg, h⟩ := bind_ok_iff.mp h
  obtain ⟨hlt, htok⟩ := getIdx_ok_iff.mp hg
  subst htok
  refine ⟨hlt, ?_, ?_⟩
  · intro he
    rw [if_neg (by tauto)] at h
    exact ((Except.ok.injEq _ _).mp h).symm
  · intro h1 h2
    rw [if_pos ⟨h1, h2⟩] at h
    obtain ⟨v, hv, h⟩ := bind_ok_iff.mp h
    exact ⟨v, hv, ((Except.ok.injEq _ _).mp h).symm⟩

theorem fAircraft_ok {m m' : Message} {ps : List String}
    (h : fAircraft m ps = .ok m') :
    3 < ps.length ∧
      (tok ps 3 = "" ∨ tok ps 3 = "11111" → m' = m) ∧
      (tok ps 3 ≠ "" → tok ps 3 ≠ "11111" →
        ∃ v, pyInt (tok ps 3) = .ok v ∧ m' = { m with aircraft_id := some v }) := by
  unfold fAircraft at h
  obtain ⟨p3, hg, h⟩ := bind_ok_iff.mp h
  obtain ⟨hlt, htok⟩ := getIdx_ok_iff.mp hg
  subst htok
  refine ⟨hlt, ?_, ?_⟩
  · intro he
    rw [if_neg (by tauto)] at h
    exact ((Except.ok.injEq _ _).mp h).symm
  · intro h1 h2
    rw [if_pos ⟨h1, h2⟩] at h
    obtain ⟨v, hv, h⟩ := bind_ok_iff.mp h
    exact ⟨v, hv, ((Except.ok.injEq _ _).mp h).symm⟩

theorem fGenTime_ok {m m' : Message} {ps : List String}
    (h : fGenTime m ps = .ok m') :
    6 < ps.length ∧
      (tok ps 6 = "" → m' = m) ∧
      (tok ps 6 ≠ "" → 7 < ps.length ∧
        (tok ps 7 = "" → m' = m) ∧
        (tok ps 7 ≠ "" → ∃ t, parse_datetime (tok ps 6) (tok ps 7) = .ok t ∧
          m' = { m with generation_time := some t })) := by
  unfold fGenTime at h
  obtain ⟨p6, hg, h⟩ := bind_ok_iff.mp h
  obtain ⟨hlt, htok⟩ := getIdx_ok_iff.mp hg
  subst htok
  refine ⟨hlt, ?_, ?_⟩
  · intro he
    rw [if_neg (by simpa using he)] at h
    exact ((Except.ok.injEq _ _).mp h).symm
  · intro hne
    rw [if_pos hne] at h
    obtain ⟨p7, hg7, h⟩ := bind_ok_iff.mp h
    obtain ⟨hlt7, htok7⟩ := getIdx_ok_iff.mp hg7
    subst htok7
    refine ⟨hlt7, ?_, ?_⟩
    · intro he7
      rw [if_neg (by simpa using he7)] at h
      exact ((Except.ok.injEq _ _).mp h).symm
    · intro hne7
      rw [if_pos hne7] at h
      obtain ⟨t, ht, h⟩ := bind_ok_iff.mp h
      exact ⟨t, ht, ((Except.ok.injEq _ _).mp h).symm⟩

theorem fRecTime_ok {m m' : Message} {ps : List String}
    (h : fRecTime m ps = .ok m') :
    8 < ps.length ∧
      (tok ps 8 = "" → m' = m) ∧
      (tok ps 8 ≠ "" → 9 < ps.length ∧
        ∃ t, parse_datetime (tok ps 8) (tok ps 9) = .ok t ∧
          m' = { m with record_time := some t }) := by
  unfold fRecTime at h
  obtain ⟨p8, hg, h⟩ := bind_ok_iff.mp h
  obtain ⟨hlt, htok⟩ := getIdx_ok_iff.mp hg
  subst htok
  refine ⟨hlt, ?_, ?_⟩
  · intro he
    rw [if_neg (by simp [he])] at h
    exact ((Except.ok.injEq _ _).mp h).symm
  · intro hne
    rw [if_pos ⟨hne, hne⟩] at h
    obtain ⟨p9, hg9, h⟩ := bind_ok_iff.mp h
    obtain ⟨hlt9, htok9⟩ := getIdx_ok_iff.mp hg9
    subst htok9
    obtain ⟨t, ht, h⟩ := bind_ok_iff.mp h
    exact ⟨hlt9, t, ht, ((Except.ok.injEq _ _).mp h).symm⟩

theorem fAltitude_ok {m m' : Message} {ps : List String}
    (h : fAltitude m ps = .ok m') :
    11 < ps.length ∧
      (tok ps 11 = "" → m' = m) ∧
      (tok ps 11 ≠ "" →
        ∃ v, pyInt (tok ps 11) = .ok v ∧ m' = { m with altitude := some v }) := by
  unfold fAltitude at h
  obtain ⟨p11, hg, h⟩ := bind_ok_iff.mp h
  obtain ⟨hlt, htok⟩ := getIdx_ok_iff.mp hg
  subst htok
  refine ⟨hlt, ?_, ?_⟩
  · intro he
    rw [if_neg (by simpa using he)] at h
    exact ((Except.ok.injEq _ _).mp h).symm
  · intro hne
    rw [if_pos hne] at h
    obtain ⟨v, hv, h⟩ := bind_ok_iff.mp h
    exact ⟨v, hv, ((Except.ok.injEq _ _).mp h).symm⟩

theorem fGroundSpeed_ok {m m' : Message} {ps : List String}
    (h : fGroundSpeed m ps = .ok m') :
    12 < ps.length ∧
      (tok ps 12 = "" → m' = m) ∧
      (tok ps 12 ≠ "" →
        ∃ v, pyFloat (tok ps 12) = .ok v ∧ m' = { m with ground_speed := some v }) := by
  unfold fGroundSpeed at h
  obtain ⟨p, hg, h⟩ := bind_ok_iff.mp h
  obtain ⟨hlt, htok⟩ := getIdx_ok_iff.mp hg
  subst htok
  refine ⟨hlt, ?_, ?_⟩
  · intro he
    rw [if_neg (by simpa using he)] at h
    exact ((Except.ok.injEq _ _).mp h).symm
  · intro hne
    rw [if_pos hne] at h
    obtain ⟨v, hv, h⟩ := bind_ok_iff.mp h
    exact ⟨v, hv, ((Except.ok.injEq _ _).mp h).symm⟩

theorem fTrack_ok {m m' : Message} {ps : List String}
    (h : fTrack m ps = .ok m') :
    13 < ps.length ∧
      (tok ps 13 = "" → m' = m) ∧
      (tok ps 13 ≠ "" →
        ∃ v, pyFloat (tok ps 13) = .ok v ∧ m' = { m with track := some v }) := by
  unfold fTrack at h
  obtain ⟨p, hg, h⟩ := bind_ok_iff.mp h
  obtain ⟨hlt, htok⟩ := getIdx_ok_iff.mp hg
  subst htok
  refine ⟨hlt, ?_, ?_⟩
  · intro he
    rw [if_neg (by simpa using he)] at h
    exact ((Except.ok.injEq _ _).mp h).symm
  · intro hne
    rw [if_pos hne] at h
    obtain ⟨v, hv, h⟩ := bind_ok_iff.mp h
    exact ⟨v, hv, ((Except.ok.injEq _ _).mp h).symm⟩

theorem fLatitude_ok {m m' : Message} {ps : List String}
    (h : fLatitude m ps = .ok m') :
    14 < ps.length ∧
      (tok ps 14 = "" → m' = m) ∧
      (tok ps 14 ≠ "" →
        ∃ v, pyFloat (tok ps 14) = .ok v ∧ m' = { m with latitude := some v }) := by
  unfold fLatitude at h
  obtain ⟨p, hg, h⟩ := bind_ok_iff.mp h
  obtain ⟨hlt, htok⟩ := getIdx_ok_iff.mp hg
  subst htok
  refine ⟨hlt, ?_, ?_⟩
  · intro he
    rw [if_neg (by simpa using he)] at h
    exact ((Except.ok.injEq _ _).mp h).symm
  · intro hne
    rw [if_pos hne] at h
    obtain ⟨v, hv, h⟩ := bind_ok_iff.mp h
    exact ⟨v, hv, ((Except.ok.injEq _ _).mp h).symm⟩

theorem fLongitude_ok {m m' : Message} {ps : List String}
    (h : fLongitude m ps = .ok m') :
    15 < ps.length ∧
      (tok ps 15 = "" → m' = m) ∧
      (tok ps 15 ≠ "" →
        ∃ v, pyFloat (tok ps 15) = .ok v ∧ m' = { m with longitude := some v }) := by
  unfold fLongitude at h
  obtain ⟨p, hg, h⟩ := bind_ok_iff.mp h
  obtain ⟨hlt, htok⟩ := getIdx_ok_iff.mp hg
  subst htok
  refine ⟨hlt, ?_, ?_⟩
  · intro he
    rw [if_neg (by simpa using he)] at h
    exact ((Except.ok.injEq _ _).mp h).symm
  · intro hne
    rw [if_pos hne] at h
    obtain ⟨v, hv, h⟩ := bind_ok_iff.mp h
    exact ⟨v, hv, ((Except.ok.injEq _ _).mp h).symm⟩

theorem fVerticalRate_ok {m m' : Message} {ps : List String}
    (h : fVerticalRate m ps = .ok m') :
    16 < ps.length ∧
      (tok ps 16 = "" → m' = m) ∧
      (tok ps 16 ≠ "" →
        ∃ v, pyInt (tok ps 16) = .ok v ∧ m' = { m with vertical_rate := some v }) := by
  unfold fVerticalRate at h
  obtain ⟨p, hg, h⟩ := bind_ok_iff.mp h
  obtain ⟨hlt, htok⟩ := getIdx_ok_iff.mp hg
  subst htok
  refine ⟨hlt, ?_, ?_⟩
  · intro he
    rw [if_neg (by simpa using he)] at h
    exact ((Except.ok.injEq _ _).mp h).symm
  · intro hne
    rw [if_pos hne] at h
    obtain ⟨v, hv, h⟩ := bind_ok_iff.mp h
    exact ⟨v, hv, ((Except.ok.injEq _ _).mp h).symm⟩

theorem fSquawk_ok {m m' : Message} {ps : List String}
    (h : fSquawk m ps = .ok m') :
    17 < ps.length ∧
      (tok ps 17 = "" → m' = m) ∧
      (tok ps 17 ≠ "" →
        ∃ v, pyInt (tok ps 17) = .ok v ∧ m' = { m with squawk := some v }) := by
  unfold fSquawk at h
  obtain ⟨p, hg, h⟩ := bind_ok_iff.mp h
  obtain ⟨hlt, htok⟩ := getIdx_ok_iff.mp hg
  subst htok
  refine ⟨hlt, ?_, ?_⟩
  · intro he
    rw [if_neg (by simpa using he)] at h
    exact ((Except.ok.injEq _ _).mp h).symm
  · intro hne
    rw [if_pos hne] at h
    obtain ⟨v, hv, h⟩ := bind_ok_iff.mp h
    exact ⟨v, hv, ((Except.ok.injEq _ _).mp h).symm⟩

theorem fSquawkAlert_ok {m m' : Message} {ps : List String}
    (h : fSquawkAlert m ps = .ok m') :
    18 < ps.length ∧
      m' = if tok ps 18 ≠ "" then { m with squawk_alert := parse_bool (tok ps 18) } else m := by
  unfold fSquawkAlert at h
  obtain ⟨p, hg, h⟩ := bind_ok_iff.mp h
  obtain ⟨hlt, htok⟩ := getIdx_ok_iff.mp hg
  subst htok
  exact ⟨hlt, ((Except.ok.injEq _ _).mp h).symm⟩

theorem fEmergency_ok {m m' : Message} {ps : List String}
    (h : fEmergency m ps = .ok m') :
    19 < ps.length ∧
      m' = if tok ps 19 ≠ "" then { m with emergency := parse_bool (tok ps 19) } else m := by
  unfold fEmergency at h
  obtain ⟨p, hg, h⟩ := bind_ok_iff.mp h
  obtain ⟨hlt, htok⟩ := getIdx_ok_iff.mp hg
  subst htok
  exact ⟨hlt, ((Except.ok.injEq _ _).mp h).symm⟩

theorem fSpi_ok {m m' : Message} {ps : List String}
    (h : fSpi m ps = .ok m') :
    20 < ps.length ∧
      m' = if tok ps 20 ≠ "" then { m with spi := parse_bool (tok ps 20) } else m := by
  unfold fSpi at h
  obtain ⟨p, hg, h⟩ := bind_ok_iff.mp h
  obtain ⟨hlt, htok⟩ := getIdx_ok_iff.mp hg
  subst htok
  exact ⟨hlt, ((Except.ok.injEq _ _).mp h).symm⟩

theorem fOnGround_ok {m m' : Message} {ps : List String}
    (h : fOnGround m ps = .ok m') :
    21 < ps.length ∧
      m' = if tok ps 21 ≠ "" then { m with on_ground := parse_bool (tok ps 21) } else m := by
  unfold fOnGround at h
  obtain ⟨p, hg, h⟩ := bind_ok_iff.mp h
  obtain ⟨hlt, htok⟩ := getIdx_ok_iff.mp hg
  subst htok
  exact ⟨hlt, ((Except.ok.injEq _ _).mp h).symm⟩

/-! ## Decomposition of the composite decoder stages -/

theorem parseFront_ok {m m' : Message} {ps : List String}
    (h : parseFront m ps = .ok m') :
    ∃ m1 m2 m3 m4 m5 m6 m7,
      fMessageType m ps = .ok m1 ∧ fTransmission m1 ps = .ok m2 ∧
      fSession m2 ps = .ok m3 ∧ fAircraft m3 ps = .ok m4 ∧
      fHexident m4 ps = .ok m5 ∧ fFlight m5 ps = .ok m6 ∧
      fGenTime m6 ps = .ok m7 ∧ fRecTime m7 ps = .ok m' := by
  unfold parseFront at h
  obtain ⟨m1, h1, h⟩ := bind_ok_iff.mp h
  obtain ⟨m2, h2, h⟩ := bind_ok_iff.mp h
  obtain ⟨m3, h3, h⟩ := bind_ok_iff.mp h
  obtain ⟨m4, h4, h⟩ := bind_ok_iff.mp h
  obtain ⟨m5, h5, h⟩ := bind_ok_iff.mp h
  obtain ⟨m6, h6, h⟩ := bind_ok_iff.mp h
  obtain ⟨m7, h7, h⟩ := bind_ok_iff.mp h
  exact ⟨m1, m2, m3, m4, m5, m6, m7, h1, h2, h3, h4, h5, h6, h7, h⟩

theorem parseTail12_ok {m m' : Message} {ps : List String}
    (h : parseTail12 m ps = .ok m') :
    ∃ m1 m2 m3 m4 m5 m6 m7 m8 m9,
      fGroundSpeed m ps = .ok m1 ∧ fTrack m1 ps = .ok m2 ∧
      fLatitude m2 ps = .ok m3 ∧ fLongitude m3 ps = .ok m4 ∧
      fVerticalRate m4 ps = .ok m5 ∧ fSquawk m5 ps = .ok m6 ∧
      fSquawkAlert m6 ps = .ok m7 ∧ fEmergency m7 ps = .ok m8 ∧
      fSpi m8 ps = .ok m9 ∧ fOnGround m9 ps = .ok m' := by
  unfold parseTail12 at h
  obtain ⟨m1, h1, h⟩ := bind_ok_iff.mp h
  obtain ⟨m2, h2, h⟩ := bind_ok_iff.mp h
  obtain ⟨m3, h3, h⟩ := bind_ok_iff.mp h
  obtain ⟨m4, h4, h⟩ := bind_ok_iff.mp h
  obtain ⟨m5, h5, h⟩ := bind_ok_iff.mp h
  obtain ⟨m6, h6, h⟩ := bind_ok_iff.mp h
  obtain ⟨m7, h7, h⟩ := bind_ok_iff.mp h
  obtain ⟨m8, h8, h⟩ := bind_ok_iff.mp h
  obtain ⟨m9, h9, h⟩ := bind_ok_iff.mp h
  exact ⟨m1, m2, m3, m4, m5, m6, m7, m8, m9, h1, h2, h3, h4, h5, h6, h7, h8, h9, h⟩

theorem parseMsgTail_ok {m m' : Message} {ps : List String}
    (h : parseMsgTail m ps = .ok m') :
    ∃ ma, fAltitude m ps = .ok ma ∧
      ((ma.transmission_type = some 7 ∧ ps.length = 21) →
        ps.length - 1 < ps.length ∧
          m' = if tok ps (ps.length - 1) ≠ "" then
            { ma with on_ground := parse_bool (tok ps (ps.length - 1)) } else ma) ∧
      (¬(ma.transmission_type = some 7 ∧ ps.length = 21) → parseTail12 ma ps = .ok m') := by
  unfold parseMsgTail at h
  obtain ⟨ma, ha, h⟩ := bind_ok_iff.mp h
  refine ⟨ma, ha, ?_, ?_⟩
  · intro hc
    rw [if_pos hc] at h
    obtain ⟨pl, hg, h⟩ := bind_ok_iff.mp h
    obtain ⟨hlt, htok⟩ := getIdx_ok_iff.mp hg
    subst htok
    exact ⟨hlt, ((Except.ok.injEq _ _).mp h).symm⟩
  · intro hc
    rwa [if_neg hc] at h

/-! ## Equational characterization of the decoder stages

`frontResult`/`tail12Result` express, as a single record expression, what
the corresponding run assigns when it succeeds; the `_ok_eq` lemmas prove
the runs equal to them (plus the length and parse-success facts a
successful run guarantees). -/

theorem fMessageType_ok_eq {m m' : Message} {ps : List String}
    (h : fMessageType m ps = .ok m') :
    m' = { m with message_type :=
      (if tok ps 0 ≠ "" then some (pyUpper (tok ps 0)) else m.message_type) } := by
  obtain ⟨-, rfl⟩ := fMessageType_ok h
  split <;> (cases m; rfl)

theorem fHexident_ok_eq {m m' : Message} {ps : List String}
    (h : fHexident m ps = .ok m') :
    m' = { m with hexident :=
      (if tok ps 4 ≠ "" then some (pyUpper (tok ps 4)) else m.hexident) } := by
  obtain ⟨-, rfl⟩ := fHexident_ok h
  split <;> (cases m; rfl)

theorem fFlight_ok_eq {m m' : Message} {ps : List String}
    (h : fFlight m ps = .ok m') :
    m' = { m with flight_id :=
      (if tok ps 5 ≠ "" ∧ tok ps 5 ≠ "111111" then some (pyUpper (tok ps 5)) else m.flight_id) } := by
  obtain ⟨-, rfl⟩ := fFlight_ok h
  split <;> (cases m; rfl)

theorem fTransmission_ok_eq {m m' : Message} {ps : List String}
    (h : fTransmission m ps = .ok m') :
    (tok ps 1 ≠ "" → (pyInt (tok ps 1)).isOk) ∧
    m' = { m with transmission_type :=
      (if tok ps 1 ≠ "" then (pyInt (tok ps 1)).toOption else m.transmission_type) } := by
  obtain ⟨-, hkeep, hset⟩ := fTransmission_ok h
  by_cases hc : tok ps 1 = ""
  · simp only [hc]
    exact ⟨by simp, by rw [hkeep hc]; simp⟩
  · obtain ⟨v, hv, rfl⟩ := hset hc
    exact ⟨fun _ => by simp [hv, Except.isOk, Except.toBool], by simp [hc, hv, Except.toOption]⟩

theorem fSession_ok_eq {m m' : Message} {ps : List String}
    (h : fSession m ps = .ok m') :
    (tok ps 2 ≠ "" ∧ tok ps 2 ≠ "111" → (pyInt (tok ps 2)).isOk) ∧
    m' = { m with session_id :=
      (if tok ps 2 ≠ "" ∧ tok ps 2 ≠ "111" then (pyInt (tok ps 2)).toOption else m.session_id) } := by
  obtain ⟨-, hkeep, hset⟩ := fSession_ok h
  by_cases hc : tok ps 2 ≠ "" ∧ tok ps 2 ≠ "111"
  · obtain ⟨v, hv, rfl⟩ := hset hc.1 hc.2
    exact ⟨fun _ => by simp [hv, Except.isOk, Except.toBool], by simp [hc, hv, Except.toOption]⟩
  · have hk : m' = m := hkeep (by tauto)
    subst hk
    exact ⟨fun hcc => absurd hcc hc, by simp [hc]⟩

theorem fAircraft_ok_eq {m m' : Message} {ps : List String}
    (h : fAircraft m ps = .ok m') :
    (tok ps 3 ≠ "" ∧ tok ps 3 ≠ "11111" → (pyInt (tok ps 3)).isOk) ∧
    m' = { m with aircraft_id :=
      (if tok ps 3 ≠ "" ∧ tok ps 3 ≠ "11111" then (pyInt (tok ps 3)).toOption else m.aircraft_id) } := by
  obtain ⟨-, hkeep, hset⟩ := fAircraft_ok h
  by_cases hc : tok ps 3 ≠ "" ∧ tok ps 3 ≠ "11111"
  · obtain ⟨v, hv, rfl⟩ := hset hc.1 hc.2
    exact ⟨fun _ => by simp [hv, Except.isOk, Except.toBool], by simp [hc, hv, Except.toOption]⟩
  · have hk : m' = m := hkeep (by tauto)
    subst hk
    exact ⟨fun hcc => absurd hcc hc, by simp [hc]⟩

theorem fGenTime_ok_eq {m m' : Message} {ps : List String}
    (h : fGenTime m ps = .ok m') :
    (tok ps 6 ≠ "" → 7 < ps.length ∧
      (tok ps 7 ≠ "" → (parse_datetime (tok ps 6) (tok ps 7)).isOk)) ∧
    m' = { m with generation_time :=
      (if tok ps 6 ≠ "" ∧ tok ps 7 ≠ "" then
        (parse_datetime (tok ps 6) (tok ps 7)).toOption else m.generation_time) } := by
  obtain ⟨-, hkeep, hset⟩ := fGenTime_ok h
  by_cases hc6 : tok ps 6 = ""
  · have hk := hkeep hc6
    subst hk
    exact ⟨fun hcc => absurd hc6 hcc, by simp [hc6]⟩
  · obtain ⟨hlt7, hkeep7, hset7⟩ := hset hc6
    by_cases hc7 : tok ps 7 = ""
    · have hk := hkeep7 hc7
      subst hk
      exact ⟨fun _ => ⟨hlt7, fun hcc => absurd hc7 hcc⟩, by simp [hc7]⟩
    · obtain ⟨t, ht, rfl⟩ := hset7 hc7
      refine ⟨fun _ => ⟨hlt7, fun _ => by simp [ht, Except.isOk, Except.toBool]⟩, ?_⟩
      simp [hc6, hc7, ht, Except.toOption]

theorem fRecTime_ok_eq {m m' : Message} {ps : List String}
    (h : fRecTime m ps = .ok m') :
    (tok ps 8 ≠ "" → 9 < ps.length ∧ (parse_datetime (tok ps 8) (tok ps 9)).isOk) ∧
    m' = { m with record_time :=
      (if tok ps 8 ≠ "" then
        (parse_datetime (tok ps 8) (tok ps 9)).toOption else m.record_time) } := by
  obtain ⟨-, hkeep, hset⟩ := fRecTime_ok h
  by_cases hc : tok ps 8 = ""
  · have hk := hkeep hc
    subst hk
    exact ⟨fun hcc => absurd hc hcc, by simp [hc]⟩
  · obtain ⟨hlt9, t, ht, rfl⟩ := hset hc
    exact ⟨fun _ => ⟨hlt9, by simp [ht, Except.isOk, Except.toBool]⟩,
      by simp [hc, ht, Except.toOption]⟩

theorem fAltitude_ok_eq {m m' : Message} {ps : List String}
    (h : fAltitude m ps = .ok m') :
    11 < ps.length ∧ (tok ps 11 ≠ "" → (pyInt (tok ps 11)).isOk) ∧
    m' = { m with altitude :=
      (if tok ps 11 ≠ "" then (pyInt (tok ps 11)).toOption else m.altitude) } := by
  obtain ⟨hlt, hkeep, hset⟩ := fAltitude_ok h
  refine ⟨hlt, ?_, ?_⟩
  · intro hne
    obtain ⟨v, hv, -⟩ := hset hne
    simp [hv, Except.isOk, Except.toBool]
  · by_cases hc : tok ps 11 = ""
    · rw [hkeep hc]; simp [hc]
    · obtain ⟨v, hv, rfl⟩ := hset hc
      simp [hc, hv, Except.toOption]

theorem fGroundSpeed_ok_eq {m m' : Message} {ps : List String}
    (h : fGroundSpeed m ps = .ok m') :
    (tok ps 12 ≠ "" → (pyFloat (tok ps 12)).isOk) ∧
    m' = { m with ground_speed :=
      (if tok ps 12 ≠ "" then (pyFloat (tok ps 12)).toOption else m.ground_speed) } := by
  obtain ⟨-, hkeep, hset⟩ := fGroundSpeed_ok h
  by_cases hc : tok ps 12 = ""
  · exact ⟨fun hcc => absurd hc hcc, by rw [hkeep hc]; simp [hc]⟩
  · obtain ⟨v, hv, rfl⟩ := hset hc
    exact ⟨fun _ => by simp [hv, Except.isOk, Except.toBool],
      by simp [hc, hv, Except.toOption]⟩

theorem fTrack_ok_eq {m m' : Message} {ps : List String}
    (h : fTrack m ps = .ok m') :
    (tok ps 13 ≠ "" → (pyFloat (tok ps 13)).isOk) ∧
    m' = { m with track :=
      (if tok ps 13 ≠ "" then (pyFloat (tok ps 13)).toOption else m.track) } := by
  obtain ⟨-, hkeep, hset⟩ := fTrack_ok h
  by_cases hc : tok ps 13 = ""
  · exact ⟨fun hcc => absurd hc hcc, by rw [hkeep hc]; simp [hc]⟩
  · obtain ⟨v, hv, rfl⟩ := hset hc
    exact ⟨fun _ => by simp [hv, Except.isOk, Except.toBool],
      by simp [hc, hv, Except.toOption]⟩

theorem fLatitude_ok_eq {m m' : Message} {ps : List String}
    (h : fLatitude m ps = .ok m') :
    (tok ps 14 ≠ "" → (pyFloat (tok ps 14)).isOk) ∧
    m' = { m with latitude :=
      (if tok ps 14 ≠ "" then (pyFloat (tok ps 14)).toOption else m.latitude) } := by
  obtain ⟨-, hkeep, hset⟩ := fLatitude_ok h
  by_cases hc : tok ps 14 = ""
  · exact ⟨fun hcc => absurd hc hcc, by rw [hkeep hc]; simp [hc]⟩
  · obtain ⟨v, hv, rfl⟩ := hset hc
    exact ⟨fun _ => by simp [hv, Except.isOk, Except.toBool],
      by simp [hc, hv, Except.toOption]⟩

theorem fLongitude_ok_eq {m m' : Message} {ps : List String}
    (h : fLongitude m ps = .ok m') :
    (tok ps 15 ≠ "" → (pyFloat (tok ps 15)).isOk) ∧
    m' = { m with longitude :=
      (if tok ps 15 ≠ "" then (pyFloat (tok ps 15)).toOption else m.longitude) } := by
  obtain ⟨-, hkeep, hset⟩ := fLongitude_ok h
  by_cases hc : tok ps 15 = ""
  · exact ⟨fun hcc => absurd hc hcc, by rw [hkeep hc]; simp [hc]⟩
  · obtain ⟨v, hv, rfl⟩ := hset hc
    exact ⟨fun _ => by simp [hv, Except.isOk, Except.toBool],
      by simp [hc, hv, Except.toOption]⟩

theorem fVerticalRate_ok_eq {m m' : Message} {ps : List String}
    (h : fVerticalRate m ps = .ok m') :
    (tok ps 16 ≠ "" → (pyInt (tok ps 16)).isOk) ∧
    m' = { m with vertical_rate :=
      (if tok ps 16 ≠ "" then (pyInt (tok ps 16)).toOption else m.vertical_rate) } := by
  obtain ⟨-, hkeep, hset⟩ := fVerticalRate_ok h
  by_cases hc : tok ps 16 = ""
  · exact ⟨fun hcc => absurd hc hcc, by rw [hkeep hc]; simp [hc]⟩
  · obtain ⟨v, hv, rfl⟩ := hset hc
    exact ⟨fun _ => by simp [hv, Except.isOk, Except.toBool],
      by simp [hc, hv, Except.toOption]⟩

theorem fSquawk_ok_eq {m m' : Message} {ps : List String}
    (h : fSquawk m ps = .ok m') :
    (tok ps 17 ≠ "" → (pyInt (tok ps 17)).isOk) ∧
    m' = { m with squawk :=
      (if tok ps 17 ≠ "" then (pyInt (tok ps 17)).toOption else m.squawk) } := by
  obtain ⟨-, hkeep, hset⟩ := fSquawk_ok h
  by_cases hc : tok ps 17 = ""
  · exact ⟨fun hcc => absurd hc hcc, by rw [hkeep hc]; simp [hc]⟩
  · obtain ⟨v, hv, rfl⟩ := hset hc
    exact ⟨fun _ => by simp [hv, Except.isOk, Except.toBool],
      by simp [hc, hv, Except.toOption]⟩

theorem fSquawkAlert_ok_eq {m m' : Message} {ps : List String}
    (h : fSquawkAlert m ps = .ok m') :
    m' = { m with squawk_alert :=
      (if tok ps 18 ≠ "" then parse_bool (tok ps 18) else m.squawk_alert) } := by
  obtain ⟨-, rfl⟩ := fSquawkAlert_ok h
  split <;> simp_all

theorem fEmergency_ok_eq {m m' : Message} {ps : List String}
    (h : fEmergency m ps = .ok m') :
    m' = { m with emergency :=
      (if tok ps 19 ≠ "" then parse_bool (tok ps 19) else m.emergency) } := by
  obtain ⟨-, rfl⟩ := fEmergency_ok h
  split <;> simp_all

theorem fSpi_ok_eq {m m' : Message} {ps : List String}
    (h : fSpi m ps = .ok m') :
    m' = { m with spi :=
      (if tok ps 20 ≠ "" then parse_bool (tok ps 20) else m.spi) } := by
  obtain ⟨-, rfl⟩ := fSpi_ok h
  split <;> simp_all

theorem fOnGround_ok_eq {m m' : Message} {ps : List String}
    (h : fOnGround m ps = .ok m') :
    21 < ps.length ∧
    m' = { m with on_ground :=
      (if tok ps 21 ≠ "" then parse_bool (tok ps 21) else m.on_ground) } := by
  obtain ⟨hlt, rfl⟩ := fOnGround_ok h
  exact ⟨hlt, by split <;> simp_all⟩

/-- `parseCallsign` is total; what it assigns, as a record expression. -/
theorem parseCallsign_eq (m : Message) (ps : List String) :
    parseCallsign m ps = { m with callsign :=
      (if 10 < ps.length ∧ tok ps 10 ≠ "" then some (pyUpper (tok ps 10)) else m.callsign) } := by
  unfold parseCallsign
  split
  · rename_i h10
    have htok := tok_eq_getElem ps 10 h10
    split
    · rename_i hne
      rw [if_pos ⟨h10, by rw [htok]; exact hne⟩, htok]
    · rename_i hne
      rw [if_neg (by rw [htok]; tauto)]
  · rename_i h10
    rw [if_neg (by tauto)]

/-- Master characterization of a successful `parseFront` run. -/
theorem parseFront_ok_eq {m m' : Message} {ps : List String}
    (h : parseFront m ps = .ok m') :
    8 < ps.length ∧
    (tok ps 1 ≠ "" → (pyInt (tok ps 1)).isOk) ∧
    (tok ps 2 ≠ "" ∧ tok ps 2 ≠ "111" → (pyInt (tok ps 2)).isOk) ∧
    (tok ps 3 ≠ "" ∧ tok ps 3 ≠ "11111" → (pyInt (tok ps 3)).isOk) ∧
    (tok ps 6 ≠ "" → 7 < ps.length ∧
      (tok ps 7 ≠ "" → (parse_datetime (tok ps 6) (tok ps 7)).isOk)) ∧
    (tok ps 8 ≠ "" → 9 < ps.length ∧ (parse_datetime (tok ps 8) (tok ps 9)).isOk) ∧
    m' = frontResult m ps := by
  obtain ⟨m1, m2, m3, m4, m5, m6, m7, h1, h2, h3, h4, h5, h6, h7, h8⟩ := parseFront_ok h
  have hlen := (fRecTime_ok h8).1
  have e1 := fMessageType_ok_eq h1
  subst e1
  obtain ⟨s2, e2⟩ := fTransmission_ok_eq h2
  subst e2
  obtain ⟨s3, e3⟩ := fSession_ok_eq h3
  subst e3
  obtain ⟨s4, e4⟩ := fAircraft_ok_eq h4
  subst e4
  have e5 := fHexident_ok_eq h5
  subst e5
  have e6 := fFlight_ok_eq h6
  subst e6
  obtain ⟨s7, e7⟩ := fGenTime_ok_eq h7
  subst e7
  obtain ⟨s8, e8⟩ := fRecTime_ok_eq h8
  subst e8
  refine ⟨hlen, by simpa using s2, by simpa using s3, by simpa using s4,
    by simpa using s7, by simpa using s8, ?_⟩
  simp [frontResult]

/-- Master characterization of a successful `parseTail12` run. -/
theorem parseTail12_ok_eq {m m' : Message} {ps : List String}
    (h : parseTail12 m ps = .ok m') :
    21 < ps.length ∧
    (tok ps 12 ≠ "" → (pyFloat (tok ps 12)).isOk) ∧
    (tok ps 13 ≠ "" → (pyFloat (tok ps 13)).isOk) ∧
    (tok ps 14 ≠ "" → (pyFloat (tok ps 14)).isOk) ∧
    (tok ps 15 ≠ "" → (pyFloat (tok ps 15)).isOk) ∧
    (tok ps 16 ≠ "" → (pyInt (tok ps 16)).isOk) ∧
    (tok ps 17 ≠ "" → (pyInt (tok ps 17)).isOk) ∧
    m' = tail12Result m ps := by
  obtain ⟨m1, m2, m3, m4, m5, m6, m7, m8, m9, h1, h2, h3, h4, h5, h6, h7, h8, h9, h10⟩ :=
    parseTail12_ok h
  obtain ⟨hlen, e10pre⟩ := fOnGround_ok_eq h10
  obtain ⟨s1, e1⟩ := fGroundSpeed_ok_eq h1
  subst e1
  obtain ⟨s2, e2⟩ := fTrack_ok_eq h2
  subst e2
  obtain ⟨s3, e3⟩ := fLatitude_ok_eq h3
  subst e3
  obtain ⟨s4, e4⟩ := fLongitude_ok_eq h4
  subst e4
  obtain ⟨s5, e5⟩ := fVerticalRate_ok_eq h5
  subst e5
  obtain ⟨s6, e6⟩ := fSquawk_ok_eq h6
  subst e6
  have e7 := fSquawkAlert_ok_eq h7
  subst e7
  have e8 := fEmergency_ok_eq h8
  subst e8
  have e9 := fSpi_ok_eq h9
  subst e9
  have e10 := (fOnGround_ok_eq h10).2
  subst e10
  refine ⟨hlen, by simpa using s1, by simpa using s2, by simpa using s3,
    by simpa using s4, by simpa using s5, by simpa using s6, ?_⟩
  simp [tail12Result]

/-- Master characterization of a successful `parseMsgTail` run. -/
theorem parseMsgTail_ok_eq {m m' : Message} {ps : List String}
    (h : parseMsgTail m ps = .ok m') :
    11 < ps.length ∧ (tok ps 11 ≠ "" → (pyInt (tok ps 11)).isOk) ∧
    ((m.transmission_type = some 7 ∧ ps.length = 21) →
      m' = { m with
        altitude := (if tok ps 11 ≠ "" then (pyInt (tok ps 11)).toOption else m.altitude)
        on_ground := (if tok ps 20 ≠ "" then parse_bool (tok ps 20) else m.on_ground) }) ∧
    (¬(m.transmission_type = some 7 ∧ ps.length = 21) →
      21 < ps.length ∧
      (tok ps 12 ≠ "" → (pyFloat (tok ps 12)).isOk) ∧
      (tok ps 13 ≠ "" → (pyFloat (tok ps 13)).isOk) ∧
      (tok ps 14 ≠ "" → (pyFloat (tok ps 14)).isOk) ∧
      (tok ps 15 ≠ "" → (pyFloat (tok ps 15)).isOk) ∧
      (tok ps 16 ≠ "" → (pyInt (tok ps 16)).isOk) ∧
      (tok ps 17 ≠ "" → (pyInt (tok ps 17)).isOk) ∧
      m' = tail12Result { m with altitude :=
        (if tok ps 11 ≠ "" then (pyInt (tok ps 11)).toOption else m.altitude) } ps) := by
  obtain ⟨ma, ha, hshort, hfull⟩ := parseMsgTail_ok h
  obtain ⟨hlt, hok11, ea⟩ := fAltitude_ok_eq ha
  have hatt : ma.transmission_type = m.transmission_type := by rw [ea]
  refine ⟨hlt, hok11, ?_, ?_⟩
  · intro hc
    obtain ⟨-, hm'⟩ := hshort ⟨by rw [hatt]; exact hc.1, hc.2⟩
    have h20 : ps.length - 1 = 20 := by omega
    rw [h20] at hm'
    rw [hm', ea]
    split <;> simp
  · intro hc
    have hc' : ¬(ma.transmission_type = some 7 ∧ ps.length = 21) := by
      rw [hatt]; exact hc
    have ht12 := parseTail12_ok_eq (hfull hc')
    rw [ea] at ht12
    exact ht12

theorem parse_string_ok {m0 m' : Message} {s : String}
    (h : Message.parse_string m0 s = .ok m') :
    ∃ mf, parseFront m0 (pyParts s) = .ok mf ∧
      ((parseCallsign mf (pyParts s)).message_type = some "MSG" →
        parseMsgTail (parseCallsign mf (pyParts s)) (pyParts s) = .ok m') ∧
      ((parseCallsign mf (pyParts s)).message_type ≠ some "MSG" →
        m' = parseCallsign mf (pyParts s)) := by
  unfold Message.parse_string at h
  obtain ⟨mf, hf, h⟩ := bind_ok_iff.mp h
  refine ⟨mf, hf, ?_, ?_⟩
  · intro hc
    rwa [if_pos hc] at h
  · intro hc
    rw [if_neg hc] at h
    exact ((Except.ok.injEq _ _).mp h).symm

/-- Reduce `parse_string` once the front stage's result is known. -/
theorem parse_string_run {m0 mf : Message} {s : String}
    (hf : parseFront m0 (pyParts s) = .ok mf) :
    Message.parse_string m0 s =
      (if (parseCallsign mf (pyParts s)).message_type = some "MSG"
       then parseMsgTail (parseCallsign mf (pyParts s)) (pyParts s)
       else .ok (parseCallsign mf (pyParts s))) := by
  have hdef : Message.parse_string m0 s = parseFront m0 (pyParts s) >>= fun m =>
      (if (parseCallsign m (pyParts s)).message_type = some "MSG"
       then parseMsgTail (parseCallsign m (pyParts s)) (pyParts s)
       else pure (parseCallsign m (pyParts s))) := rfl
  rw [hdef, hf, ok_bind, pure_eq_ok]

theorem isOk_exists {ε α : Type} {x : Except ε α} (h : x.isOk) : ∃ a, x = .ok a := by
  cases x with
  | error e => simp [Except.isOk, Except.toBool] at h
  | ok a => exact ⟨a, rfl⟩

theorem toOption_ok {ε α : Type} (a : α) : (Except.ok a : Except ε α).toOption = some a := rfl

/-! Projection lemmas for the stage-result formulas, so proofs never have
to rewrite inside the full record literals. -/

theorem frontResult_message_type (m : Message) (ps : List String) :
    (frontResult m ps).message_type =
      (if tok ps 0 ≠ "" then some (pyUpper (tok ps 0)) else m.message_type) := rfl

theorem frontResult_transmission_type (m : Message) (ps : List String) :
    (frontResult m ps).transmission_type =
      (if tok ps 1 ≠ "" then (pyInt (tok ps 1)).toOption else m.transmission_type) := rfl

theorem frontResult_session_id (m : Message) (ps : List String) :
    (frontResult m ps).session_id =
      (if tok ps 2 ≠ "" ∧ tok ps 2 ≠ "111" then (pyInt (tok ps 2)).toOption
       else m.session_id) := rfl

theorem frontResult_aircraft_id (m : Message) (ps : List String) :
    (frontResult m ps).aircraft_id =
      (if tok ps 3 ≠ "" ∧ tok ps 3 ≠ "11111" then (pyInt (tok ps 3)).toOption
       else m.aircraft_id) := rfl

theorem frontResult_hexident (m : Message) (ps : List String) :
    (frontResult m ps).hexident =
      (if tok ps 4 ≠ "" then some (pyUpper (tok ps 4)) else m.hexident) := rfl

theorem frontResult_flight_id (m : Message) (ps : List String) :
    (frontResult m ps).flight_id =
      (if tok ps 5 ≠ "" ∧ tok ps 5 ≠ "111111" then some (pyUpper (tok ps 5))
       else m.flight_id) := rfl

theorem frontResult_generation_time (m : Message) (ps : List String) :
    (frontResult m ps).generation_time =
      (if tok ps 6 ≠ "" ∧ tok ps 7 ≠ "" then (parse_datetime (tok ps 6) (tok ps 7)).toOption
       else m.generation_time) := rfl

theorem frontResult_record_time (m : Message) (ps : List String) :
    (frontResult m ps).record_time =
      (if tok ps 8 ≠ "" then (parse_datetime (tok ps 8) (tok ps 9)).toOption
       else m.record_time) := rfl

theorem frontResult_callsign (m : Message) (ps : List String) :
    (frontResult m ps).callsign = m.callsign := rfl

theorem frontResult_altitude (m : Message) (ps : List String) :
    (frontResult m ps).altitude = m.altitude := rfl

theorem frontResult_ground_speed (m : Message) (ps : List String) :
    (frontResult m ps).ground_speed = m.ground_speed := rfl

theorem frontResult_track (m : Message) (ps : List String) :
    (frontResult m ps).track = m.track := rfl

theorem frontResult_latitude (m : Message) (ps : List String) :
    (frontResult m ps).latitude = m.latitude := rfl

theorem frontResult_longitude (m : Message) (ps : List String) :
    (frontResult m ps).longitude = m.longitude := rfl

theorem frontResult_vertical_rate (m : Message) (ps : List String) :
    (frontResult m ps).vertical_rate = m.vertical_rate := rfl

theorem frontResult_squawk (m : Message) (ps : List String) :
    (frontResult m ps).squawk = m.squawk := rfl

theorem frontResult_squawk_alert (m : Message) (ps : List String) :
    (frontResult m ps).squawk_alert = m.squawk_alert := rfl

theorem frontResult_emergency (m : Message) (ps : List String) :
    (frontResult m ps).emergency = m.emergency := rfl

theorem frontResult_spi (m : Message) (ps : List String) :
    (frontResult m ps).spi = m.spi := rfl

theorem frontResult_on_ground (m : Message) (ps : List String) :
    (frontResult m ps).on_ground = m.on_ground := rfl

theorem tail12Result_message_type (m : Message) (ps : List String) :
    (tail12Result m ps).message_type = m.message_type := rfl

theorem tail12Result_transmission_type (m : Message) (ps : List String) :
    (tail12Result m ps).transmission_type = m.transmission_type := rfl

theorem tail12Result_session_id (m : Message) (ps : List String) :
    (tail12Result m ps).session_id = m.session_id := rfl

theorem tail12Result_aircraft_id (m : Message) (ps : List String) :
    (tail12Result m ps).aircraft_id = m.aircraft_id := rfl

theorem tail12Result_hexident (m : Message) (ps : List String) :
    (tail12Result m ps).hexident = m.hexident := rfl

theorem tail12Result_flight_id (m : Message) (ps : List String) :
    (tail12Result m ps).flight_id = m.flight_id := rfl

theorem tail12Result_generation_time (m : Message) (ps : List String) :
    (tail12Result m ps).generation_time = m.generation_time := rfl

theorem tail12Result_record_time (m : Message) (ps : List String) :
    (tail12Result m ps).record_time = m.record_time := rfl

theorem tail12Result_callsign (m : Message) (ps : List String) :
    (tail12Result m ps).callsign = m.callsign := rfl

theorem tail12Result_altitude (m : Message) (ps : List String) :
    (tail12Result m ps).altitude = m.altitude := rfl

theorem tail12Result_ground_speed (m : Message) (ps : List String) :
    (tail12Result m ps).ground_speed =
      (if tok ps 12 ≠ "" then (pyFloat (tok ps 12)).toOption else m.ground_speed) := rfl

theorem tail12Result_track (m : Message) (ps : List String) :
    (tail12Result m ps).track =
      (if tok ps 13 ≠ "" then (pyFloat (tok ps 13)).toOption else m.track) := rfl

theorem tail12Result_latitude (m : Message) (ps : List String) :
    (tail12Result m ps).latitude =
      (if tok ps 14 ≠ "" then (pyFloat (tok ps 14)).toOption else m.latitude) := rfl

theorem tail12Result_longitude (m : Message) (ps : List String) :
    (tail12Result m ps).longitude =
      (if tok ps 15 ≠ "" then (pyFloat (tok ps 15)).toOption else m.longitude) := rfl

theorem tail12Result_vertical_rate (m : Message) (ps : List String) :
    (tail12Result m ps).vertical_rate =
      (if tok ps 16 ≠ "" then (pyInt (tok ps 16)).toOption else m.vertical_rate) := rfl

theorem tail12Result_squawk (m : Message) (ps : List String) :
    (tail12Result m ps).squawk =
      (if tok ps 17 ≠ "" then (pyInt (tok ps 17)).toOption else m.squawk) := rfl

theorem tail12Result_squawk_alert (m : Message) (ps : List String) :
    (tail12Result m ps).squawk_alert =
      (if tok ps 18 ≠ "" then parse_bool (tok ps 18) else m.squawk_alert) := rfl

theorem tail12Result_emergency (m : Message) (ps : List String) :
    (tail12Result m ps).emergency =
      (if tok ps 19 ≠ "" then parse_bool (tok ps 19) else m.emergency) := rfl

theorem tail12Result_spi (m : Message) (ps : List String) :
    (tail12Result m ps).spi =
      (if tok ps 20 ≠ "" then parse_bool (tok ps 20) else m.spi) := rfl

theorem tail12Result_on_ground (m : Message) (ps : List String) :
    (tail12Result m ps).on_ground =
      (if tok ps 21 ≠ "" then parse_bool (tok ps 21) else m.on_ground) := rfl

theorem parseCallsign_message_type (m : Message) (ps : List String) :
    (parseCallsign m ps).message_type = m.message_type := by rw [parseCallsign_eq]

theorem parseCallsign_transmission_type (m : Message) (ps : List String) :
    (parseCallsign m ps).transmission_type = m.transmission_type := by rw [parseCallsign_eq]

theorem parseCallsign_session_id (m : Message) (ps : List String) :
    (parseCallsign m ps).session_id = m.session_id := by rw [parseCallsign_eq]

theorem parseCallsign_aircraft_id (m : Message) (ps : List String) :
    (parseCallsign m ps).aircraft_id = m.aircraft_id := by rw [parseCallsign_eq]

theorem parseCallsign_hexident (m : Message) (ps : List String) :
    (parseCallsign m ps).hexident = m.hexident := by rw [parseCallsign_eq]

theorem parseCallsign_flight_id (m : Message) (ps : List String) :
    (parseCallsign m ps).flight_id = m.flight_id := by rw [parseCallsign_eq]

theorem parseCallsign_generation_time (m : Message) (ps : List String) :
    (parseCallsign m ps).generation_time = m.generation_time := by rw [parseCallsign_eq]

theorem parseCallsign_record_time (m : Message) (ps : List String) :
    (parseCallsign m ps).record_time = m.record_time := by rw [parseCallsign_eq]

theorem parseCallsign_callsign (m : Message) (ps : List String) :
    (parseCallsign m ps).callsign =
      (if 10 < ps.length ∧ tok ps 10 ≠ "" then some (pyUpper (tok ps 10))
       else m.callsign) := by rw [parseCallsign_eq]

theorem parseCallsign_altitude (m : Message) (ps : List String) :
    (parseCallsign m ps).altitude = m.altitude := by rw [parseCallsign_eq]

theorem parseCallsign_ground_speed (m : Message) (ps : List String) :
    (parseCallsign m ps).ground_speed = m.ground_speed := by rw [parseCallsign_eq]

theorem parseCallsign_track (m : Message) (ps : List String) :
    (parseCallsign m ps).track = m.track := by rw [parseCallsign_eq]

theorem parseCallsign_latitude (m : Message) (ps : List String) :
    (parseCallsign m ps).latitude = m.latitude := by rw [parseCallsign_eq]

theorem parseCallsign_longitude (m : Message) (ps : List String) :
    (parseCallsign m ps).longitude = m.longitude := by rw [parseCallsign_eq]

theorem parseCallsign_vertical_rate (m : Message) (ps : List String) :
    (parseCallsign m ps).vertical_rate = m.vertical_rate := by rw [parseCallsign_eq]

theorem parseCallsign_squawk (m : Message) (ps : List String) :
    (parseCallsign m ps).squawk = m.squawk := by rw [parseCallsign_eq]

theorem parseCallsign_squawk_alert (m : Message) (ps : List String) :
    (parseCallsign m ps).squawk_alert = m.squawk_alert := by rw [parseCallsign_eq]

theorem parseCallsign_emergency (m : Message) (ps : List String) :
    (parseCallsign m ps).emergency = m.emergency := by rw [parseCallsign_eq]

theorem parseCallsign_spi (m : Message) (ps : List String) :
    (parseCallsign m ps).spi = m.spi := by rw [parseCallsign_eq]

theorem parseCallsign_on_ground (m : Message) (ps : List String) :
    (parseCallsign m ps).on_ground = m.on_ground := by rw [parseCallsign_eq]

/-! ## The claims -/

/-- Claim C1: the spec says a partially present date/time pair never fails
and leaves the timestamp absent, for both `generation_time` and
`record_time`.  The generation pair behaves that way (first two
conjuncts), and so does `record_time` when its DATE sub-field (field 8)
is the empty one (third conjunct) — but when field 8 is non-empty and
field 9 is empty, decode RAISES, because line 181 of the source tests
`parts[8]` twice instead of testing `parts[9]` and then feeds the empty
field 9 to `_parse_datetime`, whose `strptime` rejects it (fourth
conjunct).  This contradicts the decoder's own parallel treatment of the
generation pair: the claim is right and the code has a typo. -/
theorem c1_partial_timestamp_pair :
    Message.from_string "AB,,,,,,2015/05/01,,,," =
      .ok { Message.init with message_type := some "AB" } ∧
    Message.from_string "AB,,,,,,,17:06:55.370,,," =
      .ok { Message.init with message_type := some "AB" } ∧
    Message.from_string "AB,,,,,,,,,17:06:55.370," =
      .ok { Message.init with message_type := some "AB" } ∧
    Message.from_string "AB,,,,,,,,2015/05/01,," = .error (.valueError "") := by
  exact ⟨rfl, rfl, rfl, rfl⟩

/-- Claim C2, counterexample: on boolean text outside the vocabulary
(`"maybe"` in field 18) decode does NOT fail — it succeeds and stores
`None` (`_parse_bool` falls off its `if/elif` chain), so the record comes
back with `squawk_alert` absent. -/
theorem c2_counterexample :
    Message.from_string "MSG,3,,,ABC,,,,,,,,,,,,,,maybe,,,0" =
      .ok { Message.init with
        message_type := some "MSG"
        transmission_type := some 3
        hexident := some "ABC"
        squawk_alert := none
        on_ground := some false } := by
  exact rfl

/-- Claim C3, counterexample: a MSG line with 13 comma-separated fields
(not the transmission-type-7/21-field shortcut) makes decode dereference
`parts[13]`, which raises `IndexError` — the missing index is NOT treated
as an empty field. -/
theorem c3_counterexample :
    Message.from_string "MSG,3,,,,,,,,,,," = .error (.indexError 13) := by
  exact rfl

/-- Claim C10, counterexample: `parse_string` CAN reset an attribute to
absent: decoding a line whose `spi` field (index 20) holds text outside
the boolean vocabulary into a message whose `spi` was previously set
overwrites `spi` with `None`. -/
theorem c10_counterexample :
    Message.parse_string { Message.init with spi := some true }
        "MSG,3,,,ABC,,,,,,,,,,,,,,,,maybe,0" =
      .ok { Message.init with
        message_type := some "MSG"
        transmission_type := some 3
        hexident := some "ABC"
        spi := none
        on_ground := some false } := by
  exact rfl

/-- Claim C6: a non-empty field 1 that is not valid integer text makes the
decode of the whole line fail: `int(parts[1])` raises and the error
propagates, so no record — with `transmission_type` defaulted or
otherwise — is ever returned. -/
theorem c6_malformed_transmission_type {s : String}
    (hne : tok (pyParts s) 1 ≠ "")
    (hbad : (pyInt (tok (pyParts s) 1)).isOk = false) :
    ∃ e, Message.from_string s = .error e := by
  cases hres : Message.from_string s with
  | error e => exact ⟨e, rfl⟩
  | ok r =>
    obtain ⟨mf, hfront, -, -⟩ := parse_string_ok hres
    obtain ⟨-, stt, -⟩ := parseFront_ok_eq hfront
    have hok := stt hne
    rw [hbad] at hok
    exact absurd hok (by simp)

/-- Witness for C6 at the line `"MSG,abc"`. -/
theorem c6_malformed_transmission_type_witness :
    (Message.from_string "MSG,abc").isOk = false := by
  obtain ⟨e, he⟩ :=
    @c6_malformed_transmission_type "MSG,abc" (by decide) (by decide)
  rw [he]
  rfl

/-- Claim C7: when the upper-cased field 0 is not `"MSG"`, the whole
`if message_type == 'MSG'` block is skipped: decode succeeds exactly when
the front stage (fields 0–9) succeeds — trailing fields can never raise —
and every decoded record has fields 11–21 (altitude through on_ground)
absent no matter what the raw line carries there. -/
theorem c7_nonmsg_tail_absent {s : String}
    (hmsg : pyUpper (tok (pyParts s) 0) ≠ "MSG") :
    ((Message.from_string s).isOk ↔ (parseFront Message.init (pyParts s)).isOk) ∧
    ∀ r, Message.from_string s = .ok r →
      r.altitude = none ∧ r.ground_speed = none ∧ r.track = none ∧
      r.latitude = none ∧ r.longitude = none ∧ r.vertical_rate = none ∧
      r.squawk = none ∧ r.squawk_alert = none ∧ r.emergency = none ∧
      r.spi = none ∧ r.on_ground = none := by
  have hmt : ∀ mf, parseFront Message.init (pyParts s) = .ok mf →
      (parseCallsign mf (pyParts s)).message_type ≠ some "MSG" := by
    intro mf hf
    obtain ⟨-, -, -, -, -, -, e⟩ := parseFront_ok_eq hf
    rw [parseCallsign_eq]
    show mf.message_type ≠ some "MSG"
    rw [e, frontResult_message_type]
    by_cases h0 : tok (pyParts s) 0 = ""
    · rw [if_neg (not_not_intro h0)]
      simp [Message.init]
    · rw [if_pos h0]
      simpa using hmsg
  constructor
  · constructor
    · intro hok
      obtain ⟨r, hr⟩ := isOk_exists hok
      obtain ⟨mf, hfront, -, -⟩ := parse_string_ok hr
      rw [hfront]
      rfl
    · intro hok
      obtain ⟨mf, hf⟩ := isOk_exists hok
      show (Message.parse_string Message.init s).isOk = true
      rw [parse_string_run hf, if_neg (hmt mf hf)]
      rfl
  · intro r hr
    obtain ⟨mf, hfront, -, hn⟩ := parse_string_ok hr
    obtain ⟨-, -, -, -, -, -, e⟩ := parseFront_ok_eq hfront
    rw [hn (hmt mf hfront), parseCallsign_eq]
    refine ⟨?_, ?_, ?_, ?_, ?_, ?_, ?_, ?_, ?_, ?_, ?_⟩ <;>
      (show _ = (none : Option _); rw [e]) <;> rfl

/-- Witness for C7 at a non-MSG line whose fields 11–21 are junk. -/
theorem c7_nonmsg_tail_absent_witness :
    Message.from_string "ID,3,,,ABC,,,,,,,j1,j2,j3,j4,j5,j6,j7,j8,j9,j10,j11" =
      .ok { Message.init with
        message_type := some "ID"
        transmission_type := some 3
        hexident := some "ABC" } ∧
    ({ Message.init with
        message_type := some "ID"
        transmission_type := some 3
        hexident := some "ABC" } : Message).altitude = none := by
  refine ⟨rfl, ?_⟩
  exact ((@c7_nonmsg_tail_absent "ID,3,,,ABC,,,,,,,j1,j2,j3,j4,j5,j6,j7,j8,j9,j10,j11"
    (by decide)).2 _ rfl).1

/-- Claim C8: decode's sentinel handling on a fresh record: field 2 equal
to `"111"` (or empty) leaves `session_id` absent and any other non-empty
value is parsed as its integer; field 3 with sentinel `"11111"` likewise
for `aircraft_id`; field 5 with sentinel `"111111"` likewise (upper-cased,
not parsed) for `flight_id`; while field 4 (`hexident`) undergoes NO
sentinel check: any non-empty value — including `"111111"` — is stored
upper-cased. -/
theorem c8_sentinel_fields {s : String} {r : Message}
    (h : Message.from_string s = .ok r) :
    (tok (pyParts s) 2 = "" ∨ tok (pyParts s) 2 = "111" → r.session_id = none) ∧
    (tok (pyParts s) 2 ≠ "" → tok (pyParts s) 2 ≠ "111" →
      ∃ v, pyInt (tok (pyParts s) 2) = .ok v ∧ r.session_id = some v) ∧
    (tok (pyParts s) 3 = "" ∨ tok (pyParts s) 3 = "11111" → r.aircraft_id = none) ∧
    (tok (pyParts s) 3 ≠ "" → tok (pyParts s) 3 ≠ "11111" →
      ∃ v, pyInt (tok (pyParts s) 3) = .ok v ∧ r.aircraft_id = some v) ∧
    r.hexident = (if tok (pyParts s) 4 ≠ "" then some (pyUpper (tok (pyParts s) 4)) else none) ∧
    r.flight_id = (if tok (pyParts s) 5 ≠ "" ∧ tok (pyParts s) 5 ≠ "111111"
      then some (pyUpper (tok (pyParts s) 5)) else none) := by
  obtain ⟨mf, hfront, hm, hn⟩ := parse_string_ok h
  obtain ⟨-, -, ssess, sair, -, -, e⟩ := parseFront_ok_eq hfront
  have hfour : r.session_id = (parseCallsign mf (pyParts s)).session_id ∧
      r.aircraft_id = (parseCallsign mf (pyParts s)).aircraft_id ∧
      r.hexident = (parseCallsign mf (pyParts s)).hexident ∧
      r.flight_id = (parseCallsign mf (pyParts s)).flight_id := by
    by_cases hcm : (parseCallsign mf (pyParts s)).message_type = some "MSG"
    · have htail := hm hcm
      obtain ⟨-, -, hshort, hfull⟩ := parseMsgTail_ok_eq htail
      by_cases hc : (parseCallsign mf (pyParts s)).transmission_type = some 7 ∧
          (pyParts s).length = 21
      · rw [hshort hc]
        exact ⟨rfl, rfl, rfl, rfl⟩
      · obtain ⟨-, -, -, -, -, -, -, e2⟩ := hfull hc
        rw [e2]
        simp [tail12Result]
    · rw [hn hcm]
      exact ⟨rfl, rfl, rfl, rfl⟩
  obtain ⟨f1, f2, f3, f4⟩ := hfour
  rw [parseCallsign_eq] at f1 f2 f3 f4
  have g1 : r.session_id = (frontResult Message.init (pyParts s)).session_id := by
    rw [f1, ← e]
  have g2 : r.aircraft_id = (frontResult Message.init (pyParts s)).aircraft_id := by
    rw [f2, ← e]
  have g3 : r.hexident = (frontResult Message.init (pyParts s)).hexident := by
    rw [f3, ← e]
  have g4 : r.flight_id = (frontResult Message.init (pyParts s)).flight_id := by
    rw [f4, ← e]
  rw [frontResult_session_id] at g1
  rw [frontResult_aircraft_id] at g2
  rw [frontResult_hexident] at g3
  rw [frontResult_flight_id] at g4
  refine ⟨?_, ?_, ?_, ?_, ?_, ?_⟩
  · intro hor
    rw [g1, if_neg (fun hc => hor.elim hc.1 hc.2)]
    rfl
  · intro h1 h2
    obtain ⟨v, hv⟩ := isOk_exists (ssess ⟨h1, h2⟩)
    refine ⟨v, hv, ?_⟩
    rw [g1, if_pos ⟨h1, h2⟩, hv, toOption_ok]
  · intro hor
    rw [g2, if_neg (fun hc => hor.elim hc.1 hc.2)]
    rfl
  · intro h1 h2
    obtain ⟨v, hv⟩ := isOk_exists (sair ⟨h1, h2⟩)
    refine ⟨v, hv, ?_⟩
    rw [g2, if_pos ⟨h1, h2⟩, hv, toOption_ok]
  · exact g3
  · exact g4

/-- Witness for C8: all three sentinels present, hexident populated
(a non-MSG type so the trailing fields are not required). -/
theorem c8_sentinel_fields_witness :
    Message.from_string "STA,,111,11111,3C49CC,111111,,,,," =
      .ok { Message.init with
        message_type := some "STA"
        hexident := some "3C49CC" } ∧
    ({ Message.init with
        message_type := some "STA"
        hexident := some "3C49CC" } : Message).session_id = none ∧
    ({ Message.init with
        message_type := some "STA"
        hexident := some "3C49CC" } : Message).flight_id = none := by
  have hdec : Message.from_string "STA,,111,11111,3C49CC,111111,,,,," =
      .ok { Message.init with
        message_type := some "STA"
        hexident := some "3C49CC" } := rfl
  have hc := c8_sentinel_fields hdec
  exact ⟨hdec, hc.1 (Or.inr rfl), by rw [hc.2.2.2.2.2]; rfl⟩

/-- Claim C3, amended: the claim is FALSE as stated (see the
counterexample); what holds is the opposite policy.  For every MSG line
with at most 21 comma-separated fields that does not take the
transmission-type-7/21-field shortcut, decode fails: inside the MSG block
each of `parts[11]`…`parts[21]` is subscripted unconditionally (only the
emptiness test is guarded), so a missing index raises `IndexError`
instead of being treated as an empty field. -/
theorem c3_amended {s : String}
    (hmsg : pyUpper (tok (pyParts s) 0) = "MSG")
    (hlen : (pyParts s).length ≤ 21)
    (hns : ¬((pyParts s).length = 21 ∧ (pyInt (tok (pyParts s) 1)).toOption = some 7)) :
    ∃ e, Message.from_string s = .error e := by
  cases hres : Message.from_string s with
  | error e => exact ⟨e, rfl⟩
  | ok r =>
    exfalso
    obtain ⟨mf, hfront, hm, -⟩ := parse_string_ok hres
    obtain ⟨-, -, -, -, -, -, e⟩ := parseFront_ok_eq hfront
    have h0ne : tok (pyParts s) 0 ≠ "" := by
      intro h0
      rw [h0] at hmsg
      exact absurd hmsg (by decide)
    have hmt : (parseCallsign mf (pyParts s)).message_type = some "MSG" := by
      rw [parseCallsign_message_type, e, frontResult_message_type, if_pos h0ne, hmsg]
    have htail := hm hmt
    obtain ⟨-, -, hshort, hfull⟩ := parseMsgTail_ok_eq htail
    by_cases hc : (parseCallsign mf (pyParts s)).transmission_type = some 7 ∧
        (pyParts s).length = 21
    · apply hns
      refine ⟨hc.2, ?_⟩
      have htt := hc.1
      rw [parseCallsign_transmission_type, e, frontResult_transmission_type] at htt
      by_cases h1 : tok (pyParts s) 1 = ""
      · rw [if_neg (not_not_intro h1)] at htt
        exact absurd htt (by decide)
      · rw [if_pos h1] at htt
        exact htt
    · obtain ⟨hlt, -⟩ := hfull hc
      omega

set_option maxHeartbeats 2000000 in
/-- Claim C10, amended: the claim is TRUE except for its "never resets an
attribute to absent" clause (see the counterexample: a boolean token
outside the vocabulary assigns `None`).  What holds: `parse_string` only
assigns an attribute when the raw token exists, is non-empty and passes
its sentinel check, so on a successful decode into an arbitrary prior
record every attribute whose token is empty, sentinel-valued, skipped
(non-MSG tail, rtl1090 shortcut) or beyond the end of the line keeps its
previous value — decoding merges into the prior record state. -/
theorem c10_amended {m0 r : Message} {s : String}
    (h : Message.parse_string m0 s = .ok r) :
    (tok (pyParts s) 0 = "" → r.message_type = m0.message_type) ∧
    (tok (pyParts s) 1 = "" → r.transmission_type = m0.transmission_type) ∧
    (tok (pyParts s) 2 = "" ∨ tok (pyParts s) 2 = "111" → r.session_id = m0.session_id) ∧
    (tok (pyParts s) 3 = "" ∨ tok (pyParts s) 3 = "11111" → r.aircraft_id = m0.aircraft_id) ∧
    (tok (pyParts s) 4 = "" → r.hexident = m0.hexident) ∧
    (tok (pyParts s) 5 = "" ∨ tok (pyParts s) 5 = "111111" → r.flight_id = m0.flight_id) ∧
    (tok (pyParts s) 6 = "" ∨ tok (pyParts s) 7 = "" →
      r.generation_time = m0.generation_time) ∧
    (tok (pyParts s) 8 = "" → r.record_time = m0.record_time) ∧
    ((pyParts s).length ≤ 10 ∨ tok (pyParts s) 10 = "" → r.callsign = m0.callsign) ∧
    (r.message_type ≠ some "MSG" →
      r.altitude = m0.altitude ∧ r.ground_speed = m0.ground_speed ∧ r.track = m0.track ∧
      r.latitude = m0.latitude ∧ r.longitude = m0.longitude ∧
      r.vertical_rate = m0.vertical_rate ∧ r.squawk = m0.squawk ∧
      r.squawk_alert = m0.squawk_alert ∧ r.emergency = m0.emergency ∧
      r.spi = m0.spi ∧ r.on_ground = m0.on_ground) ∧
    (r.message_type = some "MSG" →
      (tok (pyParts s) 11 = "" → r.altitude = m0.altitude) ∧
      ((r.transmission_type = some 7 ∧ (pyParts s).length = 21) →
        r.ground_speed = m0.ground_speed ∧ r.track = m0.track ∧
        r.latitude = m0.latitude ∧ r.longitude = m0.longitude ∧
        r.vertical_rate = m0.vertical_rate ∧ r.squawk = m0.squawk ∧
        r.squawk_alert = m0.squawk_alert ∧ r.emergency = m0.emergency ∧
        r.spi = m0.spi ∧
        (tok (pyParts s) 20 = "" → r.on_ground = m0.on_ground)) ∧
      (¬(r.transmission_type = some 7 ∧ (pyParts s).length = 21) →
        (tok (pyParts s) 12 = "" → r.ground_speed = m0.ground_speed) ∧
        (tok (pyParts s) 13 = "" → r.track = m0.track) ∧
        (tok (pyParts s) 14 = "" → r.latitude = m0.latitude) ∧
        (tok (pyParts s) 15 = "" → r.longitude = m0.longitude) ∧
        (tok (pyParts s) 16 = "" → r.vertical_rate = m0.vertical_rate) ∧
        (tok (pyParts s) 17 = "" → r.squawk = m0.squawk) ∧
        (tok (pyParts s) 18 = "" → r.squawk_alert = m0.squawk_alert) ∧
        (tok (pyParts s) 19 = "" → r.emergency = m0.emergency) ∧
        (tok (pyParts s) 20 = "" → r.spi = m0.spi) ∧
        (tok (pyParts s) 21 = "" → r.on_ground = m0.on_ground))) := by
  obtain ⟨mf, hfront, hm, hn⟩ := parse_string_ok h
  obtain ⟨-, -, -, -, -, -, e⟩ := parseFront_ok_eq hfront
  have hF : r.message_type = mf.message_type ∧
      r.transmission_type = mf.transmission_type ∧
      r.session_id = mf.session_id ∧ r.aircraft_id = mf.aircraft_id ∧
      r.hexident = mf.hexident ∧ r.flight_id = mf.flight_id ∧
      r.generation_time = mf.generation_time ∧ r.record_time = mf.record_time ∧
      r.callsign = (parseCallsign mf (pyParts s)).callsign := by
    by_cases hcm : (parseCallsign mf (pyParts s)).message_type = some "MSG"
    · obtain ⟨-, -, hshort, hfull⟩ := parseMsgTail_ok_eq (hm hcm)
      by_cases hc : (parseCallsign mf (pyParts s)).transmission_type = some 7 ∧
          (pyParts s).length = 21
      · rw [hshort hc]
        exact ⟨parseCallsign_message_type _ _, parseCallsign_transmission_type _ _,
          parseCallsign_session_id _ _, parseCallsign_aircraft_id _ _,
          parseCallsign_hexident _ _, parseCallsign_flight_id _ _,
          parseCallsign_generation_time _ _, parseCallsign_record_time _ _, rfl⟩
      · rw [hfull hc |>.2.2.2.2.2.2.2]
        exact ⟨(tail12Result_message_type _ _).trans (parseCallsign_message_type _ _),
          (tail12Result_transmission_type _ _).trans (parseCallsign_transmission_type _ _),
          (tail12Result_session_id _ _).trans (parseCallsign_session_id _ _),
          (tail12Result_aircraft_id _ _).trans (parseCallsign_aircraft_id _ _),
          (tail12Result_hexident _ _).trans (parseCallsign_hexident _ _),
          (tail12Result_flight_id _ _).trans (parseCallsign_flight_id _ _),
          (tail12Result_generation_time _ _).trans (parseCallsign_generation_time _ _),
          (tail12Result_record_time _ _).trans (parseCallsign_record_time _ _),
          tail12Result_callsign _ _⟩
    · rw [hn hcm]
      exact ⟨parseCallsign_message_type _ _, parseCallsign_transmission_type _ _,
        parseCallsign_session_id _ _, parseCallsign_aircraft_id _ _,
        parseCallsign_hexident _ _, parseCallsign_flight_id _ _,
        parseCallsign_generation_time _ _, parseCallsign_record_time _ _, rfl⟩
  obtain ⟨hF0, hF1, hF2, hF3, hF4, hF5, hF6, hF8, hF10⟩ := hF
  refine ⟨?_, ?_, ?_, ?_, ?_, ?_, ?_, ?_, ?_, ?_, ?_⟩
  · intro h0
    rw [hF0, e, frontResult_message_type, if_neg (not_not_intro h0)]
  · intro h1
    rw [hF1, e, frontResult_transmission_type, if_neg (not_not_intro h1)]
  · intro hor
    rw [hF2, e, frontResult_session_id, if_neg (fun hc => hor.elim hc.1 hc.2)]
  · intro hor
    rw [hF3, e, frontResult_aircraft_id, if_neg (fun hc => hor.elim hc.1 hc.2)]
  · intro h4
    rw [hF4, e, frontResult_hexident, if_neg (not_not_intro h4)]
  · intro hor
    rw [hF5, e, frontResult_flight_id, if_neg (fun hc => hor.elim hc.1 hc.2)]
  · intro hor
    rw [hF6, e, frontResult_generation_time, if_neg (fun hc => hor.elim hc.1 hc.2)]
  · intro h8
    rw [hF8, e, frontResult_record_time, if_neg (not_not_intro h8)]
  · intro hor
    rw [hF10, parseCallsign_callsign,
      if_neg (fun hc => hor.elim (fun hle => absurd hc.1 (by omega)) (fun h10 => hc.2 h10)),
      e, frontResult_callsign]
  · intro hrmt
    have hcm : ¬(parseCallsign mf (pyParts s)).message_type = some "MSG" := by
      rw [parseCallsign_message_type, ← hF0]
      exact hrmt
    rw [hn hcm]
    exact ⟨(parseCallsign_altitude _ _).trans (by rw [e]; exact frontResult_altitude _ _),
      (parseCallsign_ground_speed _ _).trans (by rw [e]; exact frontResult_ground_speed _ _),
      (parseCallsign_track _ _).trans (by rw [e]; exact frontResult_track _ _),
      (parseCallsign_latitude _ _).trans (by rw [e]; exact frontResult_latitude _ _),
      (parseCallsign_longitude _ _).trans (by rw [e]; exact frontResult_longitude _ _),
      (parseCallsign_vertical_rate _ _).trans (by rw [e]; exact frontResult_vertical_rate _ _),
      (parseCallsign_squawk _ _).trans (by rw [e]; exact frontResult_squawk _ _),
      (parseCallsign_squawk_alert _ _).trans (by rw [e]; exact frontResult_squawk_alert _ _),
      (parseCallsign_emergency _ _).trans (by rw [e]; exact frontResult_emergency _ _),
      (parseCallsign_spi _ _).trans (by rw [e]; exact frontResult_spi _ _),
      (parseCallsign_on_ground _ _).trans (by rw [e]; exact frontResult_on_ground _ _)⟩
  · intro hrmt
    have hcm : (parseCallsign mf (pyParts s)).message_type = some "MSG" := by
      rw [parseCallsign_message_type, ← hF0]
      exact hrmt
    obtain ⟨-, -, hshort, hfull⟩ := parseMsgTail_ok_eq (hm hcm)
    have httmc : (parseCallsign mf (pyParts s)).transmission_type = r.transmission_type := by
      rw [parseCallsign_transmission_type, ← hF1]
    refine ⟨?_, ?_, ?_⟩
    · intro h11
      have halt : r.altitude = (parseCallsign mf (pyParts s)).altitude := by
        by_cases hc : (parseCallsign mf (pyParts s)).transmission_type = some 7 ∧
            (pyParts s).length = 21
        · rw [hshort hc]
          show (if tok (pyParts s) 11 ≠ "" then _ else _) = _
          rw [if_neg (not_not_intro h11)]
        · rw [hfull hc |>.2.2.2.2.2.2.2, tail12Result_altitude]
          show (if tok (pyParts s) 11 ≠ "" then _ else _) = _
          rw [if_neg (not_not_intro h11)]
      rw [halt, parseCallsign_altitude, e, frontResult_altitude]
    · intro hc7
      have hc : (parseCallsign mf (pyParts s)).transmission_type = some 7 ∧
          (pyParts s).length = 21 := ⟨httmc.trans hc7.1, hc7.2⟩
      rw [hshort hc]
      refine ⟨?_, ?_, ?_, ?_, ?_, ?_, ?_, ?_, ?_, ?_⟩
      · exact (parseCallsign_ground_speed _ _).trans (by rw [e]; exact frontResult_ground_speed _ _)
      · exact (parseCallsign_track _ _).trans (by rw [e]; exact frontResult_track _ _)
      · exact (parseCallsign_latitude _ _).trans (by rw [e]; exact frontResult_latitude _ _)
      · exact (parseCallsign_longitude _ _).trans (by rw [e]; exact frontResult_longitude _ _)
      · exact (parseCallsign_vertical_rate _ _).trans (by rw [e]; exact frontResult_vertical_rate _ _)
      · exact (parseCallsign_squawk _ _).trans (by rw [e]; exact frontResult_squawk _ _)
      · exact (parseCallsign_squawk_alert _ _).trans (by rw [e]; exact frontResult_squawk_alert _ _)
      · exact (parseCallsign_emergency _ _).trans (by rw [e]; exact frontResult_emergency _ _)
      · exact (parseCallsign_spi _ _).trans (by rw [e]; exact frontResult_spi _ _)
      · intro h20
        show (if tok (pyParts s) 20 ≠ "" then _ else _) = _
        rw [if_neg (not_not_intro h20)]
        exact (parseCallsign_on_ground _ _).trans (by rw [e]; exact frontResult_on_ground _ _)
    · intro hnc7
      have hc : ¬((parseCallsign mf (pyParts s)).transmission_type = some 7 ∧
          (pyParts s).length = 21) := fun hcc => hnc7 ⟨httmc.symm.trans hcc.1, hcc.2⟩
      rw [hfull hc |>.2.2.2.2.2.2.2]
      refine ⟨?_, ?_, ?_, ?_, ?_, ?_, ?_, ?_, ?_, ?_⟩ <;> intro hemp
      · rw [tail12Result_ground_speed, if_neg (not_not_intro hemp)]
        exact (parseCallsign_ground_speed _ _).trans (by rw [e]; exact frontResult_ground_speed _ _)
      · rw [tail12Result_track, if_neg (not_not_intro hemp)]
        exact (parseCallsign_track _ _).trans (by rw [e]; exact frontResult_track _ _)
      · rw [tail12Result_latitude, if_neg (not_not_intro hemp)]
        exact (parseCallsign_latitude _ _).trans (by rw [e]; exact frontResult_latitude _ _)
      · rw [tail12Result_longitude, if_neg (not_not_intro hemp)]
        exact (parseCallsign_longitude _ _).trans (by rw [e]; exact frontResult_longitude _ _)
      · rw [tail12Result_vertical_rate, if_neg (not_not_intro hemp)]
        exact (parseCallsign_vertical_rate _ _).trans (by rw [e]; exact frontResult_vertical_rate _ _)
      · rw [tail12Result_squawk, if_neg (not_not_intro hemp)]
        exact (parseCallsign_squawk _ _).trans (by rw [e]; exact frontResult_squawk _ _)
      · rw [tail12Result_squawk_alert, if_neg (not_not_intro hemp)]
        exact (parseCallsign_squawk_alert _ _).trans (by rw [e]; exact frontResult_squawk_alert _ _)
      · rw [tail12Result_emergency, if_neg (not_not_intro hemp)]
        exact (parseCallsign_emergency _ _).trans (by rw [e]; exact frontResult_emergency _ _)
      · rw [tail12Result_spi, if_neg (not_not_intro hemp)]
        exact (parseCallsign_spi _ _).trans (by rw [e]; exact frontResult_spi _ _)
      · rw [tail12Result_on_ground, if_neg (not_not_intro hemp)]
        exact (parseCallsign_on_ground _ _).trans (by rw [e]; exact frontResult_on_ground _ _)

/-- Witness for the amended C10: a line of empty and sentinel tokens
decoded into a pre-populated record changes nothing. -/
theorem c10_amended_witness :
    Message.parse_string { Message.init with session_id := some 5 } ",,111,,,,,,,,," =
      .ok { Message.init with session_id := some 5 } ∧
    ({ Message.init with session_id := some 5 } : Message).session_id = some 5 := by
  have hdec : Message.parse_string { Message.init with session_id := some 5 } ",,111,,,,,,,,," =
      .ok { Message.init with session_id := some 5 } := rfl
  refine ⟨hdec, ?_⟩
  exact ((c10_amended hdec).2.2.1 (Or.inr rfl)).trans rfl

/-- Running the MSG tail down the rtl1090 shortcut, altitude field empty. -/
theorem parseMsgTail_run_shortcut {m : Message} {ps : List String}
    (hlen : ps.length = 21) (htt : m.transmission_type = some 7)
    (h11 : tok ps 11 = "") :
    parseMsgTail m ps = .ok (if tok ps 20 ≠ ""
      then { m with on_ground := parse_bool (tok ps 20) } else m) := by
  unfold parseMsgTail fAltitude
  rw [getIdx_ok_of_lt (by omega), ok_bind, if_neg (not_not_intro h11), pure_eq_ok, ok_bind,
    if_pos ⟨htt, hlen⟩, show ps.length - 1 = 20 from by omega,
    getIdx_ok_of_lt (by omega), ok_bind, pure_eq_ok]

/-- Running the MSG tail down the rtl1090 shortcut, altitude field parsed. -/
theorem parseMsgTail_run_shortcut_alt {m : Message} {ps : List String} {v : Int}
    (hlen : ps.length = 21) (htt : m.transmission_type = some 7)
    (h11 : tok ps 11 ≠ "") (hv : pyInt (tok ps 11) = .ok v) :
    parseMsgTail m ps = .ok (if tok ps 20 ≠ ""
      then { m with altitude := some v, on_ground := parse_bool (tok ps 20) }
      else { m with altitude := some v }) := by
  unfold parseMsgTail fAltitude
  rw [getIdx_ok_of_lt (by omega), ok_bind, if_pos h11, hv, ok_bind, pure_eq_ok, ok_bind,
    if_pos (show ({ m with altitude := some v } : Message).transmission_type = some 7 ∧
      ps.length = 21 from ⟨htt, hlen⟩),
    show ps.length - 1 = 20 from by omega, getIdx_ok_of_lt (by omega), ok_bind, pure_eq_ok]

/-- Claim C5: a MSG line with `transmission_type = 7` and exactly 21
fields takes the rtl1090 shortcut: decode succeeds no matter what fields
12–19 hold (they are never read), `altitude` is still decoded from field
11 when non-empty, `on_ground` is decoded (via `_parse_bool`) from the
last field (index 20) when non-empty, and ground_speed, track, latitude,
longitude, vertical_rate, squawk, squawk_alert, emergency and spi are all
left absent. -/
theorem c5_rtl1090_shortcut {s : String} {mf : Message}
    (a0 a1 a2 a3 a4 a5 a6 a7 a8 a9 a10 a11 a12 a13 a14 a15 a16 a17 a18 a19 a20 : String)
    (hps : pyParts s = [a0, a1, a2, a3, a4, a5, a6, a7, a8, a9, a10,
      a11, a12, a13, a14, a15, a16, a17, a18, a19, a20])
    (hfront : parseFront Message.init (pyParts s) = .ok mf)
    (hmsg : pyUpper a0 = "MSG")
    (h1ne : a1 ≠ "") (h7 : pyInt a1 = .ok 7)
    (h11 : a11 = "" ∨ ∃ v, pyInt a11 = .ok v) :
    ∃ r, Message.from_string s = .ok r ∧
      r.altitude = (if a11 ≠ "" then (pyInt a11).toOption else none) ∧
      r.on_ground = (if a20 ≠ "" then parse_bool a20 else none) ∧
      r.ground_speed = none ∧ r.track = none ∧ r.latitude = none ∧
      r.longitude = none ∧ r.vertical_rate = none ∧ r.squawk = none ∧
      r.squawk_alert = none ∧ r.emergency = none ∧ r.spi = none := by
  obtain ⟨-, -, -, -, -, -, e⟩ := parseFront_ok_eq hfront
  have htok0 : tok (pyParts s) 0 = a0 := by rw [hps]; rfl
  have htok1 : tok (pyParts s) 1 = a1 := by rw [hps]; rfl
  have htok11 : tok (pyParts s) 11 = a11 := by rw [hps]; rfl
  have htok20 : tok (pyParts s) 20 = a20 := by rw [hps]; rfl
  have hlen : (pyParts s).length = 21 := by rw [hps]; rfl
  have h0ne : a0 ≠ "" := by
    intro h0
    rw [h0] at hmsg
    exact absurd hmsg (by decide)
  have hmt : (parseCallsign mf (pyParts s)).message_type = some "MSG" := by
    rw [parseCallsign_message_type, e, frontResult_message_type, htok0, if_pos h0ne, hmsg]
  have htt : (parseCallsign mf (pyParts s)).transmission_type = some 7 := by
    rw [parseCallsign_transmission_type, e, frontResult_transmission_type, htok1,
      if_pos h1ne, h7]
    rfl
  have hnone : (parseCallsign mf (pyParts s)).altitude = none ∧
      (parseCallsign mf (pyParts s)).ground_speed = none ∧
      (parseCallsign mf (pyParts s)).track = none ∧
      (parseCallsign mf (pyParts s)).latitude = none ∧
      (parseCallsign mf (pyParts s)).longitude = none ∧
      (parseCallsign mf (pyParts s)).vertical_rate = none ∧
      (parseCallsign mf (pyParts s)).squawk = none ∧
      (parseCallsign mf (pyParts s)).squawk_alert = none ∧
      (parseCallsign mf (pyParts s)).emergency = none ∧
      (parseCallsign mf (pyParts s)).spi = none ∧
      (parseCallsign mf (pyParts s)).on_ground = none :=
    ⟨(parseCallsign_altitude _ _).trans (by rw [e]; exact frontResult_altitude _ _),
     (parseCallsign_ground_speed _ _).trans (by rw [e]; exact frontResult_ground_speed _ _),
     (parseCallsign_track _ _).trans (by rw [e]; exact frontResult_track _ _),
     (parseCallsign_latitude _ _).trans (by rw [e]; exact frontResult_latitude _ _),
     (parseCallsign_longitude _ _).trans (by rw [e]; exact frontResult_longitude _ _),
     (parseCallsign_vertical_rate _ _).trans (by rw [e]; exact frontResult_vertical_rate _ _),
     (parseCallsign_squawk _ _).trans (by rw [e]; exact frontResult_squawk _ _),
     (parseCallsign_squawk_alert _ _).trans (by rw [e]; exact frontResult_squawk_alert _ _),
     (parseCallsign_emergency _ _).trans (by rw [e]; exact frontResult_emergency _ _),
     (parseCallsign_spi _ _).trans (by rw [e]; exact frontResult_spi _ _),
     (parseCallsign_on_ground _ _).trans (by rw [e]; exact frontResult_on_ground _ _)⟩
  obtain ⟨hA, hGS, hTR, hLA, hLO, hVR, hSQ, hSA, hEM, hSP, hOG⟩ := hnone
  have hrun : Message.from_string s =
      parseMsgTail (parseCallsign mf (pyParts s)) (pyParts s) := by
    have h := parse_string_run hfront
    rw [if_pos hmt] at h
    exact h
  rcases h11 with h11e | ⟨v, hv⟩
  · have hm := parseMsgTail_run_shortcut hlen htt (htok11.trans h11e)
    rw [htok20] at hm
    refine ⟨_, hrun.trans hm, ?_, ?_, ?_, ?_, ?_, ?_, ?_, ?_, ?_, ?_, ?_⟩ <;>
      by_cases h20 : a20 = "" <;>
      simp [h20, h11e, hA, hGS, hTR, hLA, hLO, hVR, hSQ, hSA, hEM, hSP, hOG]
  · have h11ne : a11 ≠ "" := fun hc => by
      rw [hc] at hv
      have : pyInt "" = (.error (.valueError "") : Except PyError Int) := rfl
      rw [this] at hv
      exact Except.noConfusion hv
    have hm := parseMsgTail_run_shortcut_alt hlen htt
      (htok11.trans_ne h11ne) (by rw [htok11]; exact hv)
    rw [htok20] at hm
    refine ⟨_, hrun.trans hm, ?_, ?_, ?_, ?_, ?_, ?_, ?_, ?_, ?_, ?_, ?_⟩ <;>
      by_cases h20 : a20 = "" <;>
      simp [h20, h11ne, hv, hA, hGS, hTR, hLA, hLO, hVR, hSQ, hSA, hEM, hSP, hOG,
        Except.toOption]
  
/-- Witness for C5: a 21-field transmission-type-7 line with junk in
fields 12–19 decodes, with altitude and on_ground populated and the
position/speed/status fields absent. -/
theorem c5_rtl1090_shortcut_witness :
    (Message.from_string "MSG,7,,,ABC,,,,,,,24400,x1,x2,x3,x4,x5,x6,x7,x8,1").isOk = true ∧
    Message.from_string "MSG,7,,,ABC,,,,,,,24400,x1,x2,x3,x4,x5,x6,x7,x8,1" =
      .ok { Message.init with
        message_type := some "MSG"
        transmission_type := some 7
        hexident := some "ABC"
        altitude := some 24400
        on_ground := some true } := by
  constructor
  · obtain ⟨r, hr, -⟩ := @c5_rtl1090_shortcut
      "MSG,7,,,ABC,,,,,,,24400,x1,x2,x3,x4,x5,x6,x7,x8,1"
      { Message.init with
        message_type := some "MSG"
        transmission_type := some 7
        hexident := some "ABC" }
      "MSG" "7" "" "" "ABC" "" "" "" "" "" "" "24400" "x1" "x2" "x3" "x4" "x5" "x6" "x7" "x8" "1"
      rfl rfl (by decide) (by decide) rfl (Or.inr ⟨24400, rfl⟩)
    rw [hr]
    rfl
  · rfl

/-- Claim C2, amended: the boolean vocabulary maps exactly as claimed
(case-insensitive true-texts to True, false-texts to False), but text
outside the vocabulary does NOT fail the decode of the line: `_parse_bool`
falls off its `if/elif` chain and returns `None`, decode succeeds and the
boolean field is stored absent.  Stated for all four boolean fields of a
full-form MSG line. -/
theorem c2_bool_vocabulary {s : String} (b18 b19 b20 b21 : String)
    (hps : pyParts s = ["MSG", "3", "", "", "ABC", "", "", "", "", "", "",
      "", "", "", "", "", "", "", b18, b19, b20, b21]) :
    (∀ t : String, pyLower t = "true" ∨ pyLower t = "y" ∨ pyLower t = "yes"
        ∨ pyLower t = "on" ∨ pyLower t = "1" → parse_bool t = some true) ∧
    (∀ t : String, pyLower t = "false" ∨ pyLower t = "n" ∨ pyLower t = "no"
        ∨ pyLower t = "off" ∨ pyLower t = "0" → parse_bool t = some false) ∧
    (∀ t : String,
      ¬(pyLower t = "true" ∨ pyLower t = "y" ∨ pyLower t = "yes"
        ∨ pyLower t = "on" ∨ pyLower t = "1") →
      ¬(pyLower t = "false" ∨ pyLower t = "n" ∨ pyLower t = "no"
        ∨ pyLower t = "off" ∨ pyLower t = "0") → parse_bool t = none) ∧
    ∃ r, Message.from_string s = .ok r ∧
      r.squawk_alert = (if b18 ≠ "" then parse_bool b18 else none) ∧
      r.emergency = (if b19 ≠ "" then parse_bool b19 else none) ∧
      r.spi = (if b20 ≠ "" then parse_bool b20 else none) ∧
      r.on_ground = (if b21 ≠ "" then parse_bool b21 else none) := by
  refine ⟨?_, ?_, ?_, ?_⟩
  · intro t h
    unfold parse_bool
    rw [if_pos h]
  · intro t h
    have hne : ¬(pyLower t = "true" ∨ pyLower t = "y" ∨ pyLower t = "yes"
        ∨ pyLower t = "on" ∨ pyLower t = "1") := by
      rcases h with h | h | h | h | h <;> rw [h] <;> decide
    unfold parse_bool
    rw [if_neg hne, if_pos h]
  · intro t h1 h2
    unfold parse_bool
    rw [if_neg h1, if_neg h2]
  · have hfront : parseFront Message.init (pyParts s) =
        .ok { Message.init with
          message_type := some "MSG"
          transmission_type := some 3
          hexident := some "ABC" } := by
      rw [hps]
      rfl
    have hrun := parse_string_run hfront
    have hcs : parseCallsign
        { Message.init with
          message_type := some "MSG"
          transmission_type := some 3
          hexident := some "ABC" } (pyParts s) =
        { Message.init with
          message_type := some "MSG"
          transmission_type := some 3
          hexident := some "ABC" } := by
      rw [hps]
      rfl
    rw [hcs, if_pos rfl, hps] at hrun
    have htail : parseMsgTail
        { Message.init with
          message_type := some "MSG"
          transmission_type := some 3
          hexident := some "ABC" }
        ["MSG", "3", "", "", "ABC", "", "", "", "", "", "",
         "", "", "", "", "", "", "", b18, b19, b20, b21] = .ok
        (let m0 : Message :=
          { Message.init with
            message_type := some "MSG"
            transmission_type := some 3
            hexident := some "ABC" }
         let m1 : Message := if b18 ≠ "" then { m0 with squawk_alert := parse_bool b18 } else m0
         let m2 : Message := if b19 ≠ "" then { m1 with emergency := parse_bool b19 } else m1
         let m3 : Message := if b20 ≠ "" then { m2 with spi := parse_bool b20 } else m2
         if b21 ≠ "" then { m3 with on_ground := parse_bool b21 } else m3) := rfl
    refine ⟨_, hrun.trans htail, ?_, ?_, ?_, ?_⟩ <;>
      by_cases h18 : b18 = "" <;> by_cases h19 : b19 = "" <;>
      by_cases h20 : b20 = "" <;> by_cases h21 : b21 = "" <;>
      simp [h18, h19, h20, h21, Message.init]

/-- Witness for the amended C2: `"Y"` decodes true, `"no"` decodes false,
`"maybe"` decodes to an absent boolean without failing the line. -/
theorem c2_bool_vocabulary_witness :
    parse_bool "Y" = some true ∧ parse_bool "no" = some false ∧
    parse_bool "maybe" = none ∧
    (Message.from_string "MSG,3,,,ABC,,,,,,,,,,,,,,maybe,Y,no,1").isOk = true := by
  obtain ⟨hT, hF, hN, r, hr, -⟩ := @c2_bool_vocabulary
    "MSG,3,,,ABC,,,,,,,,,,,,,,maybe,Y,no,1" "maybe" "Y" "no" "1" rfl
  exact ⟨hT "Y" (by decide), hF "no" (by decide), hN "maybe" (by decide) (by decide),
    by rw [hr]; rfl⟩

theorem isDigit_ofNat {d : Nat} (h : d < 10) : (Char.ofNat (48 + d)).isDigit = true := by
  interval_cases d <;> decide

theorem padDigits_length : ∀ (k m : Nat), (padDigits k m).length = k
  | 0, _ => rfl
  | k + 1, m => by
    unfold padDigits
    rw [List.length_append, padDigits_length k (m / 10)]
    rfl

theorem padDigits_all_digits : ∀ (k m : Nat), (padDigits k m).all Char.isDigit = true
  | 0, _ => rfl
  | k + 1, m => by
    unfold padDigits
    rw [List.all_append, padDigits_all_digits k (m / 10)]
    simp [isDigit_ofNat (Nat.mod_lt m (by omega))]

theorem natDigits_all_digits (n : Nat) : (natDigits n).all Char.isDigit = true := by
  induction n using Nat.strong_induction_on with
  | _ n ih =>
    unfold natDigits
    split
    · rename_i h
      simp [isDigit_ofNat h]
    · rename_i h
      have hd : n / 10 < n := Nat.div_lt_self (by omega) (by omega)
      rw [List.all_append, ih _ hd]
      simp [isDigit_ofNat (Nat.mod_lt n (by omega))]

theorem dot_not_mem_of_digits {ds : List Char} (h : ds.all Char.isDigit = true) :
    '.' ∉ ds := by
  intro hmem
  have := List.all_eq_true.mp h '.' hmem
  exact absurd this (by decide)

/-- Claim C9: `to_string` renders exactly 20 comma-joined logical fields in
the fixed source order, followed by a single newline; an absent field
renders as the empty string (`_dump_or_none` never re-introduces a
sentinel), booleans render as `"1"`/`"0"`, and latitude/longitude render
with exactly five digits after the decimal point. -/
theorem c9_encode_shape (m : Message) :
    (Message.fields m).length = 20 ∧
    m.to_string = String.mk (joinSep ',' ((Message.fields m).map String.data) ++ ['\n']) ∧
    Message.fields m =
      [dump_or_none m.message_type id,
       dump_or_none m.transmission_type (fun z => String.mk (intRepr z)),
       dump_or_none m.session_id (fun z => String.mk (intRepr z)),
       dump_or_none m.aircraft_id (fun z => String.mk (intRepr z)),
       dump_or_none m.hexident id,
       dump_or_none m.flight_id id,
       dump_or_none m.generation_time dump_datetime,
       dump_or_none m.record_time dump_datetime,
       dump_or_none m.callsign id,
       dump_or_none m.altitude (fun z => String.mk (intRepr z)),
       dump_or_none m.ground_speed dumpPyFloat,
       dump_or_none m.track dumpPyFloat,
       dump_or_none m.latitude format_coordinates,
       dump_or_none m.longitude format_coordinates,
       dump_or_none m.vertical_rate (fun z => String.mk (intRepr z)),
       dump_or_none m.squawk (fun z => String.mk (intRepr z)),
       dump_or_none m.squawk_alert dump_bool,
       dump_or_none m.emergency dump_bool,
       dump_or_none m.spi dump_bool,
       dump_or_none m.on_ground dump_bool] ∧
    (∀ (α : Type) (f : α → String), dump_or_none (none : Option α) f = "") ∧
    dump_bool true = "1" ∧ dump_bool false = "0" ∧
    (∀ q : ℚ, ∃ pre ds : List Char,
      (format_coordinates q).data = pre ++ '.' :: ds ∧
      ds.length = 5 ∧ ds.all Char.isDigit = true ∧ '.' ∉ pre ∧ '.' ∉ ds) := by
  refine ⟨rfl, rfl, rfl, fun α f => rfl, rfl, rfl, ?_⟩
  intro q
  refine ⟨(if roundHalfEven (q * 100000) < 0 then ['-'] else []) ++
    natDigits ((roundHalfEven (q * 100000)).natAbs / 100000),
    padDigits 5 ((roundHalfEven (q * 100000)).natAbs % 100000), ?_, ?_, ?_, ?_, ?_⟩
  · show (format_coordinates q).data = _
    unfold format_coordinates
    simp only [List.append_assoc]
  · exact padDigits_length 5 _
  · exact padDigits_all_digits 5 _
  · intro hmem
    rcases List.mem_append.mp hmem with hm | hm
    · split at hm <;> simp at hm
    · exact absurd hm (dot_not_mem_of_digits (natDigits_all_digits _))
  · exact dot_not_mem_of_digits (padDigits_all_digits 5 _)

/-! ## Decimal rendering inverts decimal parsing -/

theorem toNat_digitChar {d : Nat} (h : d < 10) : (Char.ofNat (48 + d)).toNat = 48 + d := by
  interval_cases d <;> decide

theorem digit_ne_of_isDigit {c : Char} (h : c.isDigit = true) :
    c ≠ '-' ∧ c ≠ '+' ∧ c ≠ 'e' ∧ c ≠ 'E' ∧ c ≠ '.' ∧ c ≠ '/' ∧ c ≠ ':' ∧ c ≠ ',' := by
  refine ⟨?_, ?_, ?_, ?_, ?_, ?_, ?_, ?_⟩ <;> (intro heq; subst heq; exact absurd h (by decide))

theorem not_space_of_digit {c : Char} (h : c.isDigit = true) : isPySpace c = false := by
  unfold isPySpace
  have h1 : c ≠ ' ' := fun heq => by subst heq; exact absurd h (by decide)
  have h2 : c ≠ '\t' := fun heq => by subst heq; exact absurd h (by decide)
  have h3 : c ≠ '\n' := fun heq => by subst heq; exact absurd h (by decide)
  have h4 : c ≠ '\r' := fun heq => by subst heq; exact absurd h (by decide)
  have h5 : c ≠ '\x0b' := fun heq => by subst heq; exact absurd h (by decide)
  have h6 : c ≠ '\x0c' := fun heq => by subst heq; exact absurd h (by decide)
  simp [h1, h2, h3, h4, h5, h6]

theorem digitsVal_foldl (b : List Char) :
    ∀ init, b.foldl (fun a c => 10 * a + (c.toNat - 48)) init =
      init * 10 ^ b.length + digitsVal b := by
  induction b with
  | nil => intro init; simp [digitsVal]
  | cons c cs ih =>
    intro init
    show cs.foldl _ (10 * init + (c.toNat - 48)) = _
    rw [ih (10 * init + (c.toNat - 48))]
    have h2 : digitsVal (c :: cs) = (c.toNat - 48) * 10 ^ cs.length + digitsVal cs := by
      show cs.foldl _ (10 * 0 + (c.toNat - 48)) = _
      rw [ih (10 * 0 + (c.toNat - 48))]
      ring
    rw [h2, List.length_cons]
    ring

theorem digitsVal_append (a b : List Char) :
    digitsVal (a ++ b) = digitsVal a * 10 ^ b.length + digitsVal b := by
  unfold digitsVal
  rw [List.foldl_append]
  exact digitsVal_foldl b _

theorem digitsVal_natDigits (n : Nat) : digitsVal (natDigits n) = n := by
  induction n using Nat.strong_induction_on with
  | _ n ih =>
    unfold natDigits
    split
    · rename_i h
      show digitsVal [Char.ofNat (48 + n)] = n
      unfold digitsVal
      simp [toNat_digitChar h]
    · rename_i h
      have hd : n / 10 < n := Nat.div_lt_self (by omega) (by omega)
      rw [digitsVal_append, ih _ hd]
      have hm : digitsVal [Char.ofNat (48 + n % 10)] = n % 10 := by
        unfold digitsVal
        simp [toNat_digitChar (Nat.mod_lt n (by omega))]
      rw [hm]
      simp
      omega

theorem digitsVal_padDigits : ∀ (k m : Nat), digitsVal (padDigits k m) = m % 10 ^ k
  | 0, m => by simp [padDigits, digitsVal, Nat.mod_one]
  | k + 1, m => by
    unfold padDigits
    rw [digitsVal_append, digitsVal_padDigits k (m / 10)]
    have hm : digitsVal [Char.ofNat (48 + m % 10)] = m % 10 := by
      unfold digitsVal
      simp [toNat_digitChar (Nat.mod_lt m (by omega))]
    rw [hm]
    have key : m % 10 ^ (k + 1) = m % 10 + 10 * (m / 10 % 10 ^ k) := by
      rw [pow_succ']
      exact Nat.mod_mul
    rw [key]
    simp only [List.length_singleton, pow_one]
    ring

theorem natDigits_ne_nil (n : Nat) : natDigits n ≠ [] := by
  unfold natDigits
  split
  · exact List.cons_ne_nil _ _
  · exact fun hc => absurd hc (List.append_ne_nil_of_right_ne_nil _ (List.cons_ne_nil _ _))

theorem padDigits_ne_nil (k m : Nat) (hk : 0 < k) : padDigits k m ≠ [] := by
  cases k with
  | zero => omega
  | succ k =>
    unfold padDigits
    exact List.append_ne_nil_of_right_ne_nil _ (List.cons_ne_nil _ _)

theorem parseNat_natDigits (n : Nat) : parseNatChars (natDigits n) = some n := by
  unfold parseNatChars
  rw [if_pos ⟨natDigits_ne_nil n, natDigits_all_digits n⟩, digitsVal_natDigits]

theorem parseNat_padDigits (k m : Nat) (hk : 0 < k) (hm : m < 10 ^ k) :
    parseNatChars (padDigits k m) = some m := by
  unfold parseNatChars
  rw [if_pos ⟨padDigits_ne_nil k m hk, padDigits_all_digits k m⟩, digitsVal_padDigits,
    Nat.mod_eq_of_lt hm]

theorem dropWhile_eq_self_of_all {p : Char → Bool} {cs : List Char}
    (h : ∀ c ∈ cs, p c = false) : cs.dropWhile p = cs := by
  cases cs with
  | nil => rfl
  | cons c rest =>
    rw [List.dropWhile_cons, if_neg]
    rw [h c (List.mem_cons_self c rest)]
    exact Bool.false_ne_true

theorem pyStrip_noop {cs : List Char} (h : ∀ c ∈ cs, isPySpace c = false) :
    pyStripChars cs = cs := by
  unfold pyStripChars
  rw [dropWhile_eq_self_of_all h,
    dropWhile_eq_self_of_all (fun c hc => h c (List.mem_reverse.mp hc)),
    List.reverse_reverse]

theorem pyInt_digits (ds : List Char) (hne : ds ≠ []) (hd : ds.all Char.isDigit = true) :
    pyInt (String.mk ds) = .ok (digitsVal ds : Int) := by
  unfold pyInt
  have hstrip : pyStripChars (String.mk ds).data = ds :=
    pyStrip_noop (fun c hc => not_space_of_digit (List.all_eq_true.mp hd c hc))
  rw [hstrip]
  split
  · rename_i x rest
    rw [List.all_cons, show ('-' : Char).isDigit = false from rfl, Bool.false_and] at hd
    exact absurd hd Bool.false_ne_true
  · rename_i x rest
    rw [List.all_cons, show ('+' : Char).isDigit = false from rfl, Bool.false_and] at hd
    exact absurd hd Bool.false_ne_true
  · unfold parseNatChars
    rw [if_pos ⟨hne, hd⟩]

theorem pyInt_neg_digits (ds : List Char) (hne : ds ≠ []) (hd : ds.all Char.isDigit = true) :
    pyInt (String.mk ('-' :: ds)) = .ok (-(digitsVal ds : Int)) := by
  unfold pyInt
  have hstrip : pyStripChars (String.mk ('-' :: ds)).data = '-' :: ds := by
    apply pyStrip_noop
    intro c hc
    rcases List.mem_cons.mp hc with rfl | hmem
    · decide
    · exact not_space_of_digit (List.all_eq_true.mp hd c hmem)
  rw [hstrip]
  split
  · rename_i x rest heq
    injection heq with h1 h2
    subst h2
    unfold parseNatChars
    rw [if_pos ⟨hne, hd⟩]
  · rename_i x rest heq
    injection heq with h1 h2
    exact absurd h1 (by decide)
  · rename_i x h1 h2
    exact absurd (h1 ds rfl) id

theorem pyInt_intRepr (z : Int) : pyInt (String.mk (intRepr z)) = .ok z := by
  by_cases hz : z < 0
  · have hrep : intRepr z = '-' :: natDigits z.natAbs := by
      unfold intRepr
      rw [if_pos hz]
    rw [hrep, pyInt_neg_digits _ (natDigits_ne_nil _) (natDigits_all_digits _),
      digitsVal_natDigits]
    congr 1
    omega
  · have hrep : intRepr z = natDigits z.natAbs := by
      unfold intRepr
      rw [if_neg hz]
    rw [hrep, pyInt_digits _ (natDigits_ne_nil _) (natDigits_all_digits _),
      digitsVal_natDigits]
    congr 1
    omega

theorem splitFirst_none {p : Char → Bool} :
    ∀ {cs : List Char}, (∀ c ∈ cs, p c = false) → splitFirst p cs = none
  | [], _ => rfl
  | c :: rest, h => by
    unfold splitFirst
    rw [if_neg (by rw [h c (List.mem_cons_self c rest)]; exact Bool.false_ne_true),
      splitFirst_none (fun x hx => h x (List.mem_cons.mpr (Or.inr hx)))]

theorem splitFirst_append {p : Char → Bool} :
    ∀ (a : List Char) {c : Char} (b : List Char),
      (∀ x ∈ a, p x = false) → p c = true →
      splitFirst p (a ++ c :: b) = some (a, b)
  | [], c, b, _, hc => by
    rw [List.nil_append]
    simp only [splitFirst]
    rw [if_pos hc]
  | x :: a, c, b, ha, hc => by
    rw [List.cons_append]
    simp only [splitFirst]
    rw [if_neg (by rw [ha x (List.mem_cons_self x a)]; exact Bool.false_ne_true),
      splitFirst_append a b (fun y hy => ha y (List.mem_cons.mpr (Or.inr hy))) hc]

theorem parseSign_not_sign {cs : List Char}
    (h1 : ∀ rest, cs ≠ '-' :: rest) (h2 : ∀ rest, cs ≠ '+' :: rest) :
    parseSign cs = (false, cs) := by
  unfold parseSign
  split
  · rename_i rest
    exact absurd rfl (h1 rest)
  · rename_i rest
    exact absurd rfl (h2 rest)
  · rfl

theorem parseMantissa_decimal (a b k : Nat) (hb : b < 10 ^ k) :
    parseMantissa (natDigits a ++ '.' :: padDigits k b) =
      some ((a : ℚ) + (b : ℚ) / 10 ^ k) := by
  unfold parseMantissa
  rw [splitFirst_append (natDigits a) (padDigits k b) ?hnd (by simp)]
  case hnd =>
    intro x hx
    have hdig := List.all_eq_true.mp (natDigits_all_digits a) x hx
    have hne := (digit_ne_of_isDigit hdig).2.2.2.2.1
    simp [hne]
  simp only []
  rw [if_pos ⟨natDigits_all_digits a, padDigits_all_digits k b, Or.inl (natDigits_ne_nil a)⟩,
    digitsVal_natDigits, digitsVal_padDigits, padDigits_length, Nat.mod_eq_of_lt hb]

theorem splitFirst_eE_decimal (a b k : Nat) :
    splitFirst (fun c => c = 'e' || c = 'E') (natDigits a ++ '.' :: padDigits k b) = none := by
  apply splitFirst_none
  intro c hc
  rcases List.mem_append.mp hc with hm | hm
  · have hdig := List.all_eq_true.mp (natDigits_all_digits a) c hm
    obtain ⟨-, -, h3, h4, -⟩ := digit_ne_of_isDigit hdig
    simp [h3, h4]
  · rcases List.mem_cons.mp hm with rfl | hm2
    · decide
    · have hdig := List.all_eq_true.mp (padDigits_all_digits k b) c hm2
      obtain ⟨-, -, h3, h4, -⟩ := digit_ne_of_isDigit hdig
      simp [h3, h4]

theorem parseFloatCore_noE {cs rest : List Char} {neg : Bool} {q : ℚ}
    (hsign : parseSign cs = (neg, rest))
    (hsplit : splitFirst (fun c => c = 'e' || c = 'E') rest = none)
    (hmant : parseMantissa rest = some q) :
    parseFloatCore cs = some (if neg then -q else q) := by
  simp only [parseFloatCore, hsign, hsplit, hmant]
  rfl

theorem pyFloat_ok_of {s : String} {q : ℚ}
    (h : parseFloatCore (pyStripChars s.data) = some q) : pyFloat s = .ok q := by
  simp only [pyFloat, h]

theorem pyFloat_decimal (neg : Bool) (a b k : Nat) (hb : b < 10 ^ k) :
    pyFloat (String.mk ((if neg then ['-'] else []) ++ natDigits a ++ '.' :: padDigits k b)) =
      .ok ((if neg then (-1 : ℚ) else 1) * ((a : ℚ) + (b : ℚ) / 10 ^ k)) := by
  have hchars : ∀ c ∈ natDigits a ++ '.' :: padDigits k b, isPySpace c = false := by
    intro c hc
    rcases List.mem_append.mp hc with hm | hm
    · exact not_space_of_digit (List.all_eq_true.mp (natDigits_all_digits a) c hm)
    · rcases List.mem_cons.mp hm with rfl | hm2
      · decide
      · exact not_space_of_digit (List.all_eq_true.mp (padDigits_all_digits k b) c hm2)
  have hmant := parseMantissa_decimal a b k hb
  have hsplitE := splitFirst_eE_decimal a b k
  cases neg with
  | true =>
    have hstrip : pyStripChars (String.mk ((if true then ['-'] else []) ++
        natDigits a ++ '.' :: padDigits k b)).data =
        '-' :: (natDigits a ++ '.' :: padDigits k b) := by
      show pyStripChars ('-' :: (natDigits a ++ '.' :: padDigits k b)) = _
      apply pyStrip_noop
      intro c hc
      rcases List.mem_cons.mp hc with rfl | hm
      · decide
      · exact hchars c hm
    have hsign : parseSign ('-' :: (natDigits a ++ '.' :: padDigits k b)) =
        (true, natDigits a ++ '.' :: padDigits k b) := rfl
    have hcore := parseFloatCore_noE hsign hsplitE hmant
    have hcore2 : parseFloatCore (pyStripChars (String.mk ((if true then ['-'] else []) ++
        natDigits a ++ '.' :: padDigits k b)).data) =
        some (if true then -((a : ℚ) + (b : ℚ) / 10 ^ k) else (a : ℚ) + (b : ℚ) / 10 ^ k) := by
      rw [hstrip]
      exact hcore
    rw [pyFloat_ok_of hcore2]
    congr 1
    simp
  | false =>
    have hstrip : pyStripChars (String.mk ((if false then ['-'] else []) ++
        natDigits a ++ '.' :: padDigits k b)).data =
        natDigits a ++ '.' :: padDigits k b := by
      show pyStripChars (natDigits a ++ '.' :: padDigits k b) = _
      exact pyStrip_noop hchars
    obtain ⟨d, t, hdt⟩ := List.exists_cons_of_ne_nil (natDigits_ne_nil a)
    have hddig : d.isDigit = true := by
      apply List.all_eq_true.mp (natDigits_all_digits a) d
      rw [hdt]
      exact List.mem_cons_self d t
    have hsign : parseSign (natDigits a ++ '.' :: padDigits k b) =
        (false, natDigits a ++ '.' :: padDigits k b) := by
      apply parseSign_not_sign
      · intro rest heq
        rw [hdt, List.cons_append] at heq
        injection heq with hh
        exact absurd hh (digit_ne_of_isDigit hddig).1
      · intro rest heq
        rw [hdt, List.cons_append] at heq
        injection heq with hh
        exact absurd hh (digit_ne_of_isDigit hddig).2.1
    have hcore := parseFloatCore_noE hsign hsplitE hmant
    have hcore2 : parseFloatCore (pyStripChars (String.mk ((if false then ['-'] else []) ++
        natDigits a ++ '.' :: padDigits k b)).data) =
        some (if false then -((a : ℚ) + (b : ℚ) / 10 ^ k) else (a : ℚ) + (b : ℚ) / 10 ^ k) := by
      rw [show (String.mk ((if false then ['-'] else []) ++
        natDigits a ++ '.' :: padDigits k b)).data =
        natDigits a ++ '.' :: padDigits k b from rfl]
      rw [pyStrip_noop hchars]
      exact hcore
    rw [pyFloat_ok_of hcore2]
    congr 1
    simp

theorem rat_mul_pow_eq_intCast (q : ℚ) (k c : Nat) (hc : 10 ^ k = q.den * c) :
    q * 10 ^ k = ((q.num * c : ℤ) : ℚ) := by
  have hcQ : ((10 : ℚ)) ^ k = (q.den : ℚ) * (c : ℚ) := by exact_mod_cast hc
  rw [hcQ]
  push_cast
  rw [← mul_assoc, Rat.mul_den_eq_num]

theorem roundHalfEven_intCast (z : ℤ) : roundHalfEven ((z : ℤ) : ℚ) = z := by
  norm_num [roundHalfEven]

theorem pyFloat_signed_digits (N : ℤ) (k : Nat) :
    pyFloat (String.mk ((if N < 0 then ['-'] else []) ++ natDigits (N.natAbs / 10 ^ k)
      ++ '.' :: padDigits k (N.natAbs % 10 ^ k))) = .ok ((N : ℚ) / 10 ^ k) := by
  have h10 : ((10 : ℚ)) ^ k ≠ 0 := by positivity
  have hb : N.natAbs % 10 ^ k < 10 ^ k := Nat.mod_lt _ (pow_pos (by norm_num) k)
  have key : ((N.natAbs / 10 ^ k : ℕ) : ℚ) + ((N.natAbs % 10 ^ k : ℕ) : ℚ) / 10 ^ k
      = ((N.natAbs : ℕ) : ℚ) / 10 ^ k := by
    rw [eq_div_iff h10, add_mul, div_mul_cancel₀ _ h10]
    exact_mod_cast Nat.div_add_mod' N.natAbs (10 ^ k)
  by_cases hlt : N < 0
  · rw [if_pos hlt]
    have h2 : pyFloat (String.mk (['-'] ++ natDigits (N.natAbs / 10 ^ k)
        ++ '.' :: padDigits k (N.natAbs % 10 ^ k))) =
        .ok ((-1 : ℚ) * (((N.natAbs / 10 ^ k : ℕ) : ℚ)
          + ((N.natAbs % 10 ^ k : ℕ) : ℚ) / 10 ^ k)) :=
      pyFloat_decimal true (N.natAbs / 10 ^ k) (N.natAbs % 10 ^ k) k hb
    have hN : ((N.natAbs : ℕ) : ℚ) = -(N : ℚ) := by
      rw [Int.cast_natAbs, abs_of_neg hlt]
      push_cast
      ring
    rw [h2, key, hN]
    congr 1
    ring
  · rw [if_neg hlt]
    have h2 : pyFloat (String.mk (([] : List Char) ++ natDigits (N.natAbs / 10 ^ k)
        ++ '.' :: padDigits k (N.natAbs % 10 ^ k))) =
        .ok ((1 : ℚ) * (((N.natAbs / 10 ^ k : ℕ) : ℚ)
          + ((N.natAbs % 10 ^ k : ℕ) : ℚ) / 10 ^ k)) :=
      pyFloat_decimal false (N.natAbs / 10 ^ k) (N.natAbs % 10 ^ k) k hb
    have hN : ((N.natAbs : ℕ) : ℚ) = (N : ℚ) := by
      rw [Int.cast_natAbs, abs_of_nonneg (not_lt.mp hlt)]
    rw [h2, key, hN, one_mul]

theorem pyFloat_dumpPyFloat (q : ℚ) (hden : q.den ∣ 10 ^ decExponent q.den) :
    pyFloat (dumpPyFloat q) = .ok q := by
  simp only [dumpPyFloat]
  rw [if_pos hden]
  obtain ⟨c, hc⟩ := hden
  revert hc
  generalize decExponent q.den = k
  intro hc
  have hpow : (0 : ℕ) < 10 ^ k := pow_pos (by norm_num) k
  have hcpos : 0 < c := by
    rcases Nat.eq_zero_or_pos c with h0 | h
    · subst h0
      rw [Nat.mul_zero] at hc
      omega
    · exact h
  have hmul : q * 10 ^ k = ((q.num * c : ℤ) : ℚ) := rat_mul_pow_eq_intCast q k c hc
  have hnum2 : (q * 10 ^ k).num = q.num * c := by rw [hmul, Rat.num_intCast]
  rw [hnum2]
  have hsign : q < 0 ↔ q.num * (c : ℤ) < 0 := by
    have hcz : (0 : ℤ) < (c : ℤ) := by exact_mod_cast hcpos
    constructor
    · intro h
      exact mul_neg_of_neg_of_pos (Rat.num_neg.mpr h) hcz
    · intro h
      by_contra hn
      push_neg at hn
      have hq0 : 0 ≤ q.num := Rat.num_nonneg.mpr hn
      nlinarith
  by_cases hk0 : k = 0
  · subst hk0
    rw [if_pos rfl, pow_zero, Nat.div_one]
    rw [pow_zero, mul_one] at hmul
    by_cases hqn : q < 0
    · rw [if_pos hqn]
      have h2 : pyFloat (String.mk (['-'] ++ natDigits (q.num * (c : ℤ)).natAbs
          ++ '.' :: ['0'])) =
          .ok ((-1 : ℚ) * ((((q.num * (c : ℤ)).natAbs : ℕ) : ℚ)
            + ((0 : ℕ) : ℚ) / 10 ^ 1)) :=
        pyFloat_decimal true (q.num * (c : ℤ)).natAbs 0 1 (by norm_num)
      have hNeg : q.num * (c : ℤ) < 0 := hsign.mp hqn
      have hNQ : (((q.num * (c : ℤ)).natAbs : ℕ) : ℚ) = -((q.num * (c : ℤ) : ℤ) : ℚ) := by
        rw [Int.cast_natAbs, abs_of_neg hNeg]
        push_cast
        ring
      rw [h2, hNQ, ← hmul]
      congr 1
      norm_num
    · rw [if_neg hqn]
      have h2 : pyFloat (String.mk (([] : List Char) ++ natDigits (q.num * (c : ℤ)).natAbs
          ++ '.' :: ['0'])) =
          .ok ((1 : ℚ) * ((((q.num * (c : ℤ)).natAbs : ℕ) : ℚ)
            + ((0 : ℕ) : ℚ) / 10 ^ 1)) :=
        pyFloat_decimal false (q.num * (c : ℤ)).natAbs 0 1 (by norm_num)
      have hN0 : ¬ q.num * (c : ℤ) < 0 := fun h => hqn (hsign.mpr h)
      have hNQ : (((q.num * (c : ℤ)).natAbs : ℕ) : ℚ) = ((q.num * (c : ℤ) : ℤ) : ℚ) := by
        rw [Int.cast_natAbs, abs_of_nonneg (not_lt.mp hN0)]
      rw [h2, hNQ, ← hmul]
      congr 1
      norm_num
  · rw [if_neg hk0]
    have hite : (if q < 0 then ['-'] else ([] : List Char)) =
        (if q.num * (c : ℤ) < 0 then ['-'] else []) := if_congr hsign rfl rfl
    rw [hite, pyFloat_signed_digits (q.num * (c : ℤ)) k]
    have hq : q = ((q.num * (c : ℤ) : ℤ) : ℚ) / 10 ^ k := by
      rw [← hmul, mul_div_cancel_right₀ _ (by positivity : ((10 : ℚ)) ^ k ≠ 0)]
    rw [← hq]

theorem pyFloat_format_coordinates (q : ℚ) (hden : q.den ∣ 100000) :
    pyFloat (format_coordinates q) = .ok q := by
  obtain ⟨c, hc⟩ := hden
  have hc5 : (10 : ℕ) ^ 5 = q.den * c := by
    rw [← hc]
    norm_num
  have hmul : q * 10 ^ 5 = ((q.num * c : ℤ) : ℚ) := rat_mul_pow_eq_intCast q 5 c hc5
  have hmul2 : q * 100000 = ((q.num * c : ℤ) : ℚ) := by
    rw [show ((100000 : ℚ)) = 10 ^ 5 from by norm_num]
    exact hmul
  have hround : roundHalfEven (q * 100000) = q.num * c := by
    rw [hmul2, roundHalfEven_intCast]
  simp only [format_coordinates]
  rw [hround, show (100000 : ℕ) = 10 ^ 5 from by norm_num,
    pyFloat_signed_digits (q.num * (c : ℤ)) 5]
  have hq : q = ((q.num * (c : ℤ) : ℤ) : ℚ) / 10 ^ 5 := by
    rw [← hmul, mul_div_cancel_right₀ _ (by positivity : ((10 : ℚ)) ^ 5 ≠ 0)]
  rw [← hq]

theorem splitCharsAux_append_nosep (sep : Char) :
    ∀ (a l acc : List Char), (∀ c ∈ a, c ≠ sep) →
      splitCharsAux sep (a ++ l) acc = splitCharsAux sep l (a.reverse ++ acc)
  | [], l, acc, _ => by simp
  | x :: a, l, acc, ha => by
    rw [List.cons_append]
    simp only [splitCharsAux]
    rw [if_neg (ha x (List.mem_cons_self x a)),
      splitCharsAux_append_nosep sep a l (x :: acc)
        (fun c hc => ha c (List.mem_cons.mpr (Or.inr hc)))]
    congr 1
    simp

theorem splitChars_sep_cons (sep : Char) (a l : List Char) (ha : ∀ c ∈ a, c ≠ sep) :
    splitChars sep (a ++ sep :: l) = a :: splitChars sep l := by
  unfold splitChars
  rw [splitCharsAux_append_nosep sep a (sep :: l) [] ha]
  simp only [splitCharsAux]
  simp

theorem splitChars_nosep (sep : Char) (a : List Char) (ha : ∀ c ∈ a, c ≠ sep) :
    splitChars sep a = [a] := by
  unfold splitChars
  have h := splitCharsAux_append_nosep sep a [] [] ha
  rw [List.append_nil] at h
  rw [h]
  simp [splitCharsAux]

theorem natDigits_length_four (n : Nat) (h1 : 1000 ≤ n) (h2 : n ≤ 9999) :
    (natDigits n).length = 4 := by
  unfold natDigits
  rw [dif_neg (by omega : ¬ n < 10)]
  unfold natDigits
  rw [dif_neg (by omega : ¬ n / 10 < 10)]
  unfold natDigits
  rw [dif_neg (by omega : ¬ n / 10 / 10 < 10)]
  unfold natDigits
  rw [dif_pos (by omega : n / 10 / 10 / 10 < 10)]
  simp

theorem daysInMonth_le (y m : Nat) : daysInMonth y m ≤ 31 := by
  unfold daysInMonth
  split_ifs <;> norm_num

theorem strptimeDate_dump (y m d : Nat) (h1 : 1000 ≤ y) (h2 : y ≤ 9999)
    (h3 : 1 ≤ m) (h4 : m ≤ 12) (h5 : 1 ≤ d) (h6 : d ≤ daysInMonth y m) :
    strptimeDate (String.mk (natDigits y ++ '/' :: padDigits 2 m ++ '/' :: padDigits 2 d)) =
      .ok (y, m, d) := by
  have hnosl : ∀ (x : List Char), x.all Char.isDigit = true → ∀ c ∈ x, c ≠ '/' :=
    fun x hx c hc => (digit_ne_of_isDigit (List.all_eq_true.mp hx c hc)).2.2.2.2.2.1
  have hsplit : splitChars '/' (natDigits y ++ '/' :: padDigits 2 m ++ '/' :: padDigits 2 d)
      = [natDigits y, padDigits 2 m, padDigits 2 d] := by
    rw [List.append_assoc, List.cons_append,
      splitChars_sep_cons '/' (natDigits y) _ (hnosl _ (natDigits_all_digits y)),
      splitChars_sep_cons '/' (padDigits 2 m) _ (hnosl _ (padDigits_all_digits 2 m)),
      splitChars_nosep '/' (padDigits 2 d) (hnosl _ (padDigits_all_digits 2 d))]
  unfold strptimeDate
  rw [show (String.mk (natDigits y ++ '/' :: padDigits 2 m ++ '/' :: padDigits 2 d)).data
    = natDigits y ++ '/' :: padDigits 2 m ++ '/' :: padDigits 2 d from rfl, hsplit]
  simp only []
  rw [parseNat_natDigits y, parseNat_padDigits 2 m (by norm_num) (by norm_num; omega),
    parseNat_padDigits 2 d (by norm_num)
      (by norm_num; have := daysInMonth_le y m; omega)]
  simp only []
  rw [if_pos ⟨natDigits_length_four y h1 h2, by omega, by simp [padDigits_length], h3, h4,
    by simp [padDigits_length], h5, h6⟩]

theorem strptimeTime_dump (h mi se : Nat) (hh : h ≤ 23) (hm : mi ≤ 59) (hs : se ≤ 59) :
    strptimeTime (String.mk (padDigits 2 h ++ ':' :: padDigits 2 mi ++ ':' :: padDigits 2 se)) =
      .ok (h, mi, se) := by
  have hnoc : ∀ (x : List Char), x.all Char.isDigit = true → ∀ c ∈ x, c ≠ ':' :=
    fun x hx c hc => (digit_ne_of_isDigit (List.all_eq_true.mp hx c hc)).2.2.2.2.2.2.1
  have hsplit : splitChars ':' (padDigits 2 h ++ ':' :: padDigits 2 mi ++ ':' :: padDigits 2 se)
      = [padDigits 2 h, padDigits 2 mi, padDigits 2 se] := by
    rw [List.append_assoc, List.cons_append,
      splitChars_sep_cons ':' (padDigits 2 h) _ (hnoc _ (padDigits_all_digits 2 h)),
      splitChars_sep_cons ':' (padDigits 2 mi) _ (hnoc _ (padDigits_all_digits 2 mi)),
      splitChars_nosep ':' (padDigits 2 se) (hnoc _ (padDigits_all_digits 2 se))]
  unfold strptimeTime
  rw [show (String.mk (padDigits 2 h ++ ':' :: padDigits 2 mi ++ ':' :: padDigits 2 se)).data
    = padDigits 2 h ++ ':' :: padDigits 2 mi ++ ':' :: padDigits 2 se from rfl, hsplit]
  simp only []
  rw [parseNat_padDigits 2 h (by norm_num) (by norm_num; omega),
    parseNat_padDigits 2 mi (by norm_num) (by norm_num; omega),
    parseNat_padDigits 2 se (by norm_num) (by norm_num; omega)]
  simp only []
  rw [if_pos ⟨by simp [padDigits_length], hh, by simp [padDigits_length], hm,
    by simp [padDigits_length], hs⟩]

theorem rpartitionChar_last (sep : Char) (A B : List Char)
    (_hA : ∀ c ∈ A, c ≠ sep) (hB : ∀ c ∈ B, c ≠ sep) :
    rpartitionChar sep (A ++ sep :: B) = some (A, B) := by
  unfold rpartitionChar
  have hrev : (A ++ sep :: B).reverse = B.reverse ++ sep :: A.reverse := by
    simp
  have hsplit : splitFirst (fun c => decide (c = sep)) (B.reverse ++ sep :: A.reverse) =
      some (B.reverse, A.reverse) :=
    splitFirst_append B.reverse A.reverse
      (fun c hc => by simp [hB c (List.mem_reverse.mp hc)])
      (by simp)
  rw [hrev, hsplit]
  simp

theorem pyRPartitionDot_last (A B : List Char)
    (hA : ∀ c ∈ A, c ≠ '.') (hB : ∀ c ∈ B, c ≠ '.') :
    pyRPartitionDot (A ++ '.' :: B) = (A, ".", B) := by
  unfold pyRPartitionDot
  rw [rpartitionChar_last '.' A B hA hB]

theorem pyFloat_dot_digits (k b : Nat) (hk : 0 < k) (hb : b < 10 ^ k) :
    pyFloat (String.mk ('.' :: padDigits k b)) = .ok ((b : ℚ) / 10 ^ k) := by
  have hchars : ∀ c ∈ ('.' :: padDigits k b), isPySpace c = false := by
    intro c hc
    rcases List.mem_cons.mp hc with rfl | hm
    · decide
    · exact not_space_of_digit (List.all_eq_true.mp (padDigits_all_digits k b) c hm)
  have hsign : parseSign ('.' :: padDigits k b) = (false, '.' :: padDigits k b) := by
    apply parseSign_not_sign
    · intro rest heq
      injection heq with hh
      exact absurd hh (by decide)
    · intro rest heq
      injection heq with hh
      exact absurd hh (by decide)
  have hsplitE : splitFirst (fun c => c = 'e' || c = 'E') ('.' :: padDigits k b) = none := by
    apply splitFirst_none
    intro c hc
    rcases List.mem_cons.mp hc with rfl | hm
    · decide
    · have hdig := List.all_eq_true.mp (padDigits_all_digits k b) c hm
      obtain ⟨-, -, h3, h4, -⟩ := digit_ne_of_isDigit hdig
      simp [h3, h4]
  have hdot : splitFirst (fun c => decide (c = '.')) ('.' :: padDigits k b) =
      some ([], padDigits k b) := by
    have h : splitFirst (fun c => decide (c = '.')) ([] ++ '.' :: padDigits k b) =
        some ([], padDigits k b) :=
      splitFirst_append [] (padDigits k b) (fun x hx => absurd hx (List.not_mem_nil x)) rfl
    rwa [List.nil_append] at h
  have hmant : parseMantissa ('.' :: padDigits k b) = some ((b : ℚ) / 10 ^ k) := by
    unfold parseMantissa
    rw [hdot]
    simp only []
    rw [if_pos ⟨rfl, padDigits_all_digits k b, Or.inr (padDigits_ne_nil k b hk)⟩,
      digitsVal_padDigits, padDigits_length, Nat.mod_eq_of_lt hb]
    norm_num [digitsVal]
  have hcore := parseFloatCore_noE hsign hsplitE hmant
  exact pyFloat_ok_of (by
    rw [show (String.mk ('.' :: padDigits k b)).data = '.' :: padDigits k b from rfl,
      pyStrip_noop hchars]
    exact hcore)

theorem pyTrunc_natCast (n : Nat) : pyTrunc ((n : ℕ) : ℚ) = n := by
  unfold pyTrunc
  rw [if_pos (by positivity)]
  exact Int.floor_natCast n

theorem parse_datetime_dump (t : PyDatetime) (hv : ValidStamp t) :
    parse_datetime (String.mk (dumpDate t)) (String.mk (dumpTime t)) = .ok t := by
  obtain ⟨h1, h2, h3, h4, h5, h6, h7, h8, h9, h10, h11⟩ := hv
  have hdate : strptimeDate (String.mk (dumpDate t)) = .ok (t.year, t.month, t.day) := by
    unfold dumpDate
    exact strptimeDate_dump t.year t.month t.day h1 h2 h3 h4 h5 h6
  have hno_dot_time : ∀ c ∈ padDigits 2 t.hour ++ ':' :: padDigits 2 t.minute
      ++ ':' :: padDigits 2 t.second, c ≠ '.' := by
    intro c hc
    rcases List.mem_append.mp hc with hm | hm
    · rcases List.mem_append.mp hm with hm2 | hm2
      · exact (digit_ne_of_isDigit
          (List.all_eq_true.mp (padDigits_all_digits 2 t.hour) c hm2)).2.2.2.2.1
      · rcases List.mem_cons.mp hm2 with rfl | hm3
        · decide
        · exact (digit_ne_of_isDigit
            (List.all_eq_true.mp (padDigits_all_digits 2 t.minute) c hm3)).2.2.2.2.1
    · rcases List.mem_cons.mp hm with rfl | hm3
      · decide
      · exact (digit_ne_of_isDigit
          (List.all_eq_true.mp (padDigits_all_digits 2 t.second) c hm3)).2.2.2.2.1
  have hpart : pyRPartitionDot (dumpTime t) =
      (padDigits 2 t.hour ++ ':' :: padDigits 2 t.minute ++ ':' :: padDigits 2 t.second,
        ".", padDigits 3 (t.microsecond / 1000)) := by
    unfold dumpTime
    exact pyRPartitionDot_last _ _ hno_dot_time (fun c hc =>
      (digit_ne_of_isDigit (List.all_eq_true.mp
        (padDigits_all_digits 3 (t.microsecond / 1000)) c hc)).2.2.2.2.1)
  have htime : strptimeTime (String.mk (padDigits 2 t.hour ++ ':' :: padDigits 2 t.minute
      ++ ':' :: padDigits 2 t.second)) = .ok (t.hour, t.minute, t.second) :=
    strptimeTime_dump t.hour t.minute t.second h7 h8 h9
  have hq3 : t.microsecond / 1000 < 10 ^ 3 := by
    norm_num
    omega
  have happ : ("." ++ String.mk (padDigits 3 (t.microsecond / 1000)) : String) =
      String.mk ('.' :: padDigits 3 (t.microsecond / 1000)) := rfl
  have hfloat : pyFloat ("." ++ String.mk (padDigits 3 (t.microsecond / 1000))) =
      .ok (((t.microsecond / 1000 : ℕ) : ℚ) / 10 ^ 3) := by
    rw [happ]
    exact pyFloat_dot_digits 3 (t.microsecond / 1000) (by norm_num) hq3
  have hnatQ : ((t.microsecond / 1000 : ℕ) : ℚ) * 1000 = ((t.microsecond : ℕ) : ℚ) := by
    exact_mod_cast Nat.div_mul_cancel (Nat.dvd_of_mod_eq_zero h11)
  have hmulQ : (((t.microsecond / 1000 : ℕ) : ℚ) / 10 ^ 3) * 1000000 =
      ((t.microsecond : ℕ) : ℚ) := by
    rw [div_mul_eq_mul_div, div_eq_iff (by norm_num : ((10 : ℚ)) ^ 3 ≠ 0), ← hnatQ]
    ring
  have htr : pyTrunc ((((t.microsecond / 1000 : ℕ) : ℚ) / 10 ^ 3) * 1000000) =
      (t.microsecond : ℤ) := by
    rw [hmulQ]
    exact pyTrunc_natCast t.microsecond
  simp only [parse_datetime, hdate, ok_bind, hpart, htime, hfloat, htr]
  rw [if_pos ⟨by positivity, by exact_mod_cast h10⟩]
  show Except.ok (⟨t.year, t.month, t.day, t.hour, t.minute, t.second,
    ((t.microsecond : ℤ)).toNat⟩ : PyDatetime) = Except.ok t
  rw [Int.toNat_natCast]

theorem no_comma_of_digits {cs : List Char} (h : cs.all Char.isDigit = true) :
    ∀ c ∈ cs, c ≠ ',' :=
  fun c hc => (digit_ne_of_isDigit (List.all_eq_true.mp h c hc)).2.2.2.2.2.2.2

theorem no_comma_intRepr (z : Int) : ∀ c ∈ intRepr z, c ≠ ',' := by
  intro c hc
  unfold intRepr at hc
  split at hc
  · rcases List.mem_cons.mp hc with rfl | hm
    · decide
    · exact no_comma_of_digits (natDigits_all_digits _) c hm
  · exact no_comma_of_digits (natDigits_all_digits _) c hc

theorem no_comma_dump_int (v : Option Int) :
    ∀ c ∈ (dump_or_none v (fun z => String.mk (intRepr z))).data, c ≠ ',' := by
  cases v with
  | none => intro c hc; exact absurd hc (List.not_mem_nil c)
  | some z => exact no_comma_intRepr z

theorem no_comma_dump_str (v : Option String) (h : ∀ x, v = some x → ',' ∉ x.data) :
    ∀ c ∈ (dump_or_none v id).data, c ≠ ',' := by
  cases v with
  | none => intro c hc; exact absurd hc (List.not_mem_nil c)
  | some x =>
    intro c hc heq
    subst heq
    exact h x rfl hc

theorem no_comma_dump_bool (v : Option Bool) :
    ∀ c ∈ (dump_or_none v dump_bool).data, c ≠ ',' := by
  cases v with
  | none => intro c hc; exact absurd hc (List.not_mem_nil c)
  | some b => cases b <;> decide

theorem no_comma_dumpDate (t : PyDatetime) : ∀ c ∈ dumpDate t, c ≠ ',' := by
  intro c hc
  unfold dumpDate at hc
  rcases List.mem_append.mp hc with hm | hm
  · rcases List.mem_append.mp hm with hm2 | hm2
    · exact no_comma_of_digits (natDigits_all_digits _) c hm2
    · rcases List.mem_cons.mp hm2 with rfl | hm3
      · decide
      · exact no_comma_of_digits (padDigits_all_digits _ _) c hm3
  · rcases List.mem_cons.mp hm with rfl | hm3
    · decide
    · exact no_comma_of_digits (padDigits_all_digits _ _) c hm3

theorem no_comma_dumpTime (t : PyDatetime) : ∀ c ∈ dumpTime t, c ≠ ',' := by
  intro c hc
  unfold dumpTime at hc
  rcases List.mem_append.mp hc with hm | hm
  · rcases List.mem_append.mp hm with hm2 | hm2
    · rcases List.mem_append.mp hm2 with hm3 | hm3
      · exact no_comma_of_digits (padDigits_all_digits _ _) c hm3
      · rcases List.mem_cons.mp hm3 with rfl | hm4
        · decide
        · exact no_comma_of_digits (padDigits_all_digits _ _) c hm4
    · rcases List.mem_cons.mp hm2 with rfl | hm4
      · decide
      · exact no_comma_of_digits (padDigits_all_digits _ _) c hm4
  · rcases List.mem_cons.mp hm with rfl | hm4
    · decide
    · exact no_comma_of_digits (padDigits_all_digits _ _) c hm4

theorem no_comma_dumpPyFloat (q : ℚ) : ∀ c ∈ (dumpPyFloat q).data, c ≠ ',' := by
  intro c hc
  simp only [dumpPyFloat] at hc
  split at hc
  · have hc2 : c ∈ (if q < 0 then ['-'] else [])
        ++ natDigits ((q * 10 ^ decExponent q.den).num.natAbs / 10 ^ decExponent q.den)
        ++ '.' :: (if decExponent q.den = 0 then ['0']
          else padDigits (decExponent q.den)
            ((q * 10 ^ decExponent q.den).num.natAbs % 10 ^ decExponent q.den)) := hc
    rcases List.mem_append.mp hc2 with hm | hm
    · rcases List.mem_append.mp hm with hm2 | hm2
      · split at hm2
        · rw [List.mem_singleton] at hm2
          subst hm2
          decide
        · exact absurd hm2 (List.not_mem_nil c)
      · exact no_comma_of_digits (natDigits_all_digits _) c hm2
    · rcases List.mem_cons.mp hm with rfl | hm3
      · decide
      · split at hm3
        · rw [List.mem_singleton] at hm3
          subst hm3
          decide
        · exact no_comma_of_digits (padDigits_all_digits _ _) c hm3
  · have h0 : ("0" : String).data = ['0'] := rfl
    rw [h0, List.mem_singleton] at hc
    subst hc
    decide

theorem no_comma_format_coordinates (q : ℚ) :
    ∀ c ∈ (format_coordinates q).data, c ≠ ',' := by
  intro c hc
  simp only [format_coordinates] at hc
  have hc2 : c ∈ (if roundHalfEven (q * 100000) < 0 then ['-'] else [])
      ++ natDigits ((roundHalfEven (q * 100000)).natAbs / 100000)
      ++ '.' :: padDigits 5 ((roundHalfEven (q * 100000)).natAbs % 100000) := hc
  rcases List.mem_append.mp hc2 with hm | hm
  · rcases List.mem_append.mp hm with hm2 | hm2
    · split at hm2
      · rw [List.mem_singleton] at hm2
        subst hm2
        decide
      · exact absurd hm2 (List.not_mem_nil c)
    · exact no_comma_of_digits (natDigits_all_digits _) c hm2
  · rcases List.mem_cons.mp hm with rfl | hm3
    · decide
    · exact no_comma_of_digits (padDigits_all_digits _ _) c hm3

theorem no_comma_dump_float (v : Option ℚ) :
    ∀ c ∈ (dump_or_none v dumpPyFloat).data, c ≠ ',' := by
  cases v with
  | none => intro c hc; exact absurd hc (List.not_mem_nil c)
  | some q => exact no_comma_dumpPyFloat q

theorem no_comma_dump_coord (v : Option ℚ) :
    ∀ c ∈ (dump_or_none v format_coordinates).data, c ≠ ',' := by
  cases v with
  | none => intro c hc; exact absurd hc (List.not_mem_nil c)
  | some q => exact no_comma_format_coordinates q

theorem joinSep_cons_ne (sep : Char) (t : List Char) (ts : List (List Char))
    (h : ts ≠ []) : joinSep sep (t :: ts) = t ++ sep :: joinSep sep ts := by
  cases ts with
  | nil => exact absurd rfl h
  | cons t2 ts => rfl

theorem joinSep_append_last (sep : Char) :
    ∀ (l : List (List Char)) (t : List Char), l ≠ [] →
      joinSep sep (l ++ [t]) = joinSep sep l ++ sep :: t
  | [], _, h => absurd rfl h
  | [x], t, _ => by
    simp only [List.cons_append, List.nil_append, joinSep]
  | x :: y :: l, t, _ => by
    rw [List.cons_append, joinSep_cons_ne sep x ((y :: l) ++ [t]) (by simp),
      joinSep_cons_ne sep x (y :: l) (List.cons_ne_nil _ _),
      joinSep_append_last sep (y :: l) t (List.cons_ne_nil _ _)]
    simp [List.append_assoc]

theorem pyStripChars_append_newline {X : List Char} {d e : Char}
    (hhead : X.head? = some d) (hd : isPySpace d = false)
    (hlast : X.getLast? = some e) (he : isPySpace e = false) :
    pyStripChars (X ++ ['\n']) = X := by
  obtain ⟨Y, hX⟩ : ∃ Y, X = d :: Y := by
    cases X with
    | nil => exact absurd hhead (by simp)
    | cons a Y =>
      rw [List.head?_cons] at hhead
      injection hhead with h
      exact ⟨Y, by rw [h]⟩
  obtain ⟨Z, hZ⟩ : ∃ Z, X.reverse = e :: Z := by
    have hh : X.reverse.head? = some e := by
      rw [List.head?_reverse]
      exact hlast
    cases hrevX : X.reverse with
    | nil => rw [hrevX] at hh; exact absurd hh (by simp)
    | cons a Z =>
      rw [hrevX, List.head?_cons] at hh
      injection hh with h
      exact ⟨Z, by rw [h]⟩
  unfold pyStripChars
  have h1 : (X ++ ['\n']).dropWhile isPySpace = X ++ ['\n'] := by
    rw [hX, List.cons_append, List.dropWhile_cons,
      if_neg (by rw [hd]; exact Bool.false_ne_true)]
  have h2 : (X ++ ['\n']).reverse = '\n' :: X.reverse := by simp
  rw [h1, h2, List.dropWhile_cons,
    if_pos (show isPySpace '\n' = true from rfl), hZ, List.dropWhile_cons,
    if_neg (by rw [he]; exact Bool.false_ne_true), ← hZ, List.reverse_reverse]

theorem pyParts_join20
    (t1 t2 t3 t4 t5 t8 t9 t10 t11 t12 t13 t14 t15 t16 t17 t18 t19 : String)
    (dg1 dg2 dr1 dr2 : List Char)
    (k1 : ∀ c ∈ t1.data, c ≠ ',') (k2 : ∀ c ∈ t2.data, c ≠ ',')
    (k3 : ∀ c ∈ t3.data, c ≠ ',') (k4 : ∀ c ∈ t4.data, c ≠ ',')
    (k5 : ∀ c ∈ t5.data, c ≠ ',') (k8 : ∀ c ∈ t8.data, c ≠ ',')
    (k9 : ∀ c ∈ t9.data, c ≠ ',') (k10 : ∀ c ∈ t10.data, c ≠ ',')
    (k11 : ∀ c ∈ t11.data, c ≠ ',') (k12 : ∀ c ∈ t12.data, c ≠ ',')
    (k13 : ∀ c ∈ t13.data, c ≠ ',') (k14 : ∀ c ∈ t14.data, c ≠ ',')
    (k15 : ∀ c ∈ t15.data, c ≠ ',') (k16 : ∀ c ∈ t16.data, c ≠ ',')
    (k17 : ∀ c ∈ t17.data, c ≠ ',') (k18 : ∀ c ∈ t18.data, c ≠ ',')
    (kg1 : ∀ c ∈ dg1, c ≠ ',') (kg2 : ∀ c ∈ dg2, c ≠ ',')
    (kr1 : ∀ c ∈ dr1, c ≠ ',') (kr2 : ∀ c ∈ dr2, c ≠ ',')
    (h19 : t19 = "" ∨ t19 = "0" ∨ t19 = "1") :
    pyParts (String.mk (joinSep ','
      [("MSG" : String).data, t1.data, t2.data, t3.data, t4.data, t5.data,
       dg1 ++ ',' :: dg2, dr1 ++ ',' :: dr2, t8.data, t9.data, t10.data, t11.data,
       t12.data, t13.data, t14.data, t15.data, t16.data, t17.data, t18.data, t19.data]
      ++ ['\n'])) =
      ["MSG", t1, t2, t3, t4, t5, String.mk dg1, String.mk dg2, String.mk dr1,
       String.mk dr2, t8, t9, t10, t11, t12, t13, t14, t15, t16, t17, t18, t19] := by
  have k0 : ∀ c ∈ ("MSG" : String).data, c ≠ ',' := by decide
  have k19 : ∀ c ∈ t19.data, c ≠ ',' := by
    rcases h19 with rfl | rfl | rfl <;> decide
  have hhead : (joinSep ','
      [("MSG" : String).data, t1.data, t2.data, t3.data, t4.data, t5.data,
       dg1 ++ ',' :: dg2, dr1 ++ ',' :: dr2, t8.data, t9.data, t10.data, t11.data,
       t12.data, t13.data, t14.data, t15.data, t16.data, t17.data, t18.data,
       t19.data]).head? = some 'M' := rfl
  have hsplitLast : joinSep ','
      [("MSG" : String).data, t1.data, t2.data, t3.data, t4.data, t5.data,
       dg1 ++ ',' :: dg2, dr1 ++ ',' :: dr2, t8.data, t9.data, t10.data, t11.data,
       t12.data, t13.data, t14.data, t15.data, t16.data, t17.data, t18.data, t19.data]
      = joinSep ','
      [("MSG" : String).data, t1.data, t2.data, t3.data, t4.data, t5.data,
       dg1 ++ ',' :: dg2, dr1 ++ ',' :: dr2, t8.data, t9.data, t10.data, t11.data,
       t12.data, t13.data, t14.data, t15.data, t16.data, t17.data, t18.data]
      ++ ',' :: t19.data := by
    rw [show ([("MSG" : String).data, t1.data, t2.data, t3.data, t4.data, t5.data,
       dg1 ++ ',' :: dg2, dr1 ++ ',' :: dr2, t8.data, t9.data, t10.data, t11.data,
       t12.data, t13.data, t14.data, t15.data, t16.data, t17.data, t18.data, t19.data]
      : List (List Char)) =
      [("MSG" : String).data, t1.data, t2.data, t3.data, t4.data, t5.data,
       dg1 ++ ',' :: dg2, dr1 ++ ',' :: dr2, t8.data, t9.data, t10.data, t11.data,
       t12.data, t13.data, t14.data, t15.data, t16.data, t17.data, t18.data]
      ++ [t19.data] from rfl,
      joinSep_append_last ',' _ t19.data (List.cons_ne_nil _ _)]
  have hlast : ∃ e, (joinSep ','
      [("MSG" : String).data, t1.data, t2.data, t3.data, t4.data, t5.data,
       dg1 ++ ',' :: dg2, dr1 ++ ',' :: dr2, t8.data, t9.data, t10.data, t11.data,
       t12.data, t13.data, t14.data, t15.data, t16.data, t17.data, t18.data,
       t19.data]).getLast? = some e ∧ isPySpace e = false := by
    rw [hsplitLast]
    rcases h19 with rfl | rfl | rfl
    · refine ⟨',', ?_, rfl⟩
      rw [show (',' :: ("" : String).data) = [','] from rfl]
      exact List.getLast?_concat _
    · refine ⟨'0', ?_, rfl⟩
      rw [show (',' :: ("0" : String).data) = [','] ++ ['0'] from rfl,
        ← List.append_assoc]
      exact List.getLast?_concat _
    · refine ⟨'1', ?_, rfl⟩
      rw [show (',' :: ("1" : String).data) = [','] ++ ['1'] from rfl,
        ← List.append_assoc]
      exact List.getLast?_concat _
  obtain ⟨e, he, hes⟩ := hlast
  unfold pyParts
  rw [show (String.mk (joinSep ','
      [("MSG" : String).data, t1.data, t2.data, t3.data, t4.data, t5.data,
       dg1 ++ ',' :: dg2, dr1 ++ ',' :: dr2, t8.data, t9.data, t10.data, t11.data,
       t12.data, t13.data, t14.data, t15.data, t16.data, t17.data, t18.data, t19.data]
      ++ ['\n'])).data = joinSep ','
      [("MSG" : String).data, t1.data, t2.data, t3.data, t4.data, t5.data,
       dg1 ++ ',' :: dg2, dr1 ++ ',' :: dr2, t8.data, t9.data, t10.data, t11.data,
       t12.data, t13.data, t14.data, t15.data, t16.data, t17.data, t18.data, t19.data]
      ++ ['\n'] from rfl]
  rw [pyStripChars_append_newline hhead rfl he hes]
  rw [show joinSep ','
      [("MSG" : String).data, t1.data, t2.data, t3.data, t4.data, t5.data,
       dg1 ++ ',' :: dg2, dr1 ++ ',' :: dr2, t8.data, t9.data, t10.data, t11.data,
       t12.data, t13.data, t14.data, t15.data, t16.data, t17.data, t18.data, t19.data]
      = ("MSG" : String).data ++ ',' :: (t1.data ++ ',' :: (t2.data ++ ',' :: (t3.data
      ++ ',' :: (t4.data ++ ',' :: (t5.data ++ ',' :: ((dg1 ++ ',' :: dg2)
      ++ ',' :: ((dr1 ++ ',' :: dr2) ++ ',' :: (t8.data ++ ',' :: (t9.data
      ++ ',' :: (t10.data ++ ',' :: (t11.data ++ ',' :: (t12.data ++ ',' :: (t13.data
      ++ ',' :: (t14.data ++ ',' :: (t15.data ++ ',' :: (t16.data ++ ',' :: (t17.data
      ++ ',' :: (t18.data ++ ',' :: t19.data)))))))))))))))))) from rfl]
  rw [splitChars_sep_cons ',' ("MSG" : String).data _ k0,
    splitChars_sep_cons ',' t1.data _ k1,
    splitChars_sep_cons ',' t2.data _ k2,
    splitChars_sep_cons ',' t3.data _ k3,
    splitChars_sep_cons ',' t4.data _ k4,
    splitChars_sep_cons ',' t5.data _ k5,
    List.append_assoc, List.cons_append,
    splitChars_sep_cons ',' dg1 _ kg1,
    splitChars_sep_cons ',' dg2 _ kg2,
    List.append_assoc, List.cons_append,
    splitChars_sep_cons ',' dr1 _ kr1,
    splitChars_sep_cons ',' dr2 _ kr2,
    splitChars_sep_cons ',' t8.data _ k8,
    splitChars_sep_cons ',' t9.data _ k9,
    splitChars_sep_cons ',' t10.data _ k10,
    splitChars_sep_cons ',' t11.data _ k11,
    splitChars_sep_cons ',' t12.data _ k12,
    splitChars_sep_cons ',' t13.data _ k13,
    splitChars_sep_cons ',' t14.data _ k14,
    splitChars_sep_cons ',' t15.data _ k15,
    splitChars_sep_cons ',' t16.data _ k16,
    splitChars_sep_cons ',' t17.data _ k17,
    splitChars_sep_cons ',' t18.data _ k18,
    splitChars_nosep ',' t19.data k19]
  rfl

theorem pyParts_to_string (r : Message) (g rc : PyDatetime)
    (hmsg : r.message_type = some "MSG")
    (hg : r.generation_time = some g) (hrc : r.record_time = some rc)
    (hhex : ∀ x, r.hexident = some x → ',' ∉ x.data)
    (hfl : ∀ x, r.flight_id = some x → ',' ∉ x.data)
    (hcs : ∀ x, r.callsign = some x → ',' ∉ x.data) :
    pyParts (Message.to_string r) =
      ["MSG",
       dump_or_none r.transmission_type (fun z => String.mk (intRepr z)),
       dump_or_none r.session_id (fun z => String.mk (intRepr z)),
       dump_or_none r.aircraft_id (fun z => String.mk (intRepr z)),
       dump_or_none r.hexident id,
       dump_or_none r.flight_id id,
       String.mk (dumpDate g), String.mk (dumpTime g),
       String.mk (dumpDate rc), String.mk (dumpTime rc),
       dump_or_none r.callsign id,
       dump_or_none r.altitude (fun z => String.mk (intRepr z)),
       dump_or_none r.ground_speed dumpPyFloat,
       dump_or_none r.track dumpPyFloat,
       dump_or_none r.latitude format_coordinates,
       dump_or_none r.longitude format_coordinates,
       dump_or_none r.vertical_rate (fun z => String.mk (intRepr z)),
       dump_or_none r.squawk (fun z => String.mk (intRepr z)),
       dump_or_none r.squawk_alert dump_bool,
       dump_or_none r.emergency dump_bool,
       dump_or_none r.spi dump_bool,
       dump_or_none r.on_ground dump_bool] := by
  have hts : Message.to_string r = String.mk (joinSep ','
      [("MSG" : String).data,
       (dump_or_none r.transmission_type (fun z => String.mk (intRepr z))).data,
       (dump_or_none r.session_id (fun z => String.mk (intRepr z))).data,
       (dump_or_none r.aircraft_id (fun z => String.mk (intRepr z))).data,
       (dump_or_none r.hexident id).data,
       (dump_or_none r.flight_id id).data,
       dumpDate g ++ ',' :: dumpTime g,
       dumpDate rc ++ ',' :: dumpTime rc,
       (dump_or_none r.callsign id).data,
       (dump_or_none r.altitude (fun z => String.mk (intRepr z))).data,
       (dump_or_none r.ground_speed dumpPyFloat).data,
       (dump_or_none r.track dumpPyFloat).data,
       (dump_or_none r.latitude format_coordinates).data,
       (dump_or_none r.longitude format_coordinates).data,
       (dump_or_none r.vertical_rate (fun z => String.mk (intRepr z))).data,
       (dump_or_none r.squawk (fun z => String.mk (intRepr z))).data,
       (dump_or_none r.squawk_alert dump_bool).data,
       (dump_or_none r.emergency dump_bool).data,
       (dump_or_none r.spi dump_bool).data,
       (dump_or_none r.on_ground dump_bool).data] ++ ['\n']) := by
    unfold Message.to_string Message.fields
    rw [hmsg, hg, hrc]
    rfl
  rw [hts]
  exact pyParts_join20 _ _ _ _ _ _ _ _ _ _ _ _ _ _ _ _ _ _ _ _ _
    (no_comma_dump_int r.transmission_type)
    (no_comma_dump_int r.session_id)
    (no_comma_dump_int r.aircraft_id)
    (no_comma_dump_str r.hexident hhex)
    (no_comma_dump_str r.flight_id hfl)
    (no_comma_dump_str r.callsign hcs)
    (no_comma_dump_int r.altitude)
    (no_comma_dump_float r.ground_speed)
    (no_comma_dump_float r.track)
    (no_comma_dump_coord r.latitude)
    (no_comma_dump_coord r.longitude)
    (no_comma_dump_int r.vertical_rate)
    (no_comma_dump_int r.squawk)
    (no_comma_dump_bool r.squawk_alert)
    (no_comma_dump_bool r.emergency)
    (no_comma_dump_bool r.spi)
    (no_comma_dumpDate g)
    (no_comma_dumpTime g)
    (no_comma_dumpDate rc)
    (no_comma_dumpTime rc)
    (by
      rcases r.on_ground with _ | b
      · exact Or.inl rfl
      · cases b
        · exact Or.inr (Or.inl rfl)
        · exact Or.inr (Or.inr rfl))

theorem fMessageType_isOk (m : Message) (ps : List String) (h : 0 < ps.length) :
    ∃ m', fMessageType m ps = .ok m' :=
  ⟨_, by unfold fMessageType; rw [getIdx_ok_of_lt h, ok_bind, pure_eq_ok]⟩

theorem fTransmission_isOk (m : Message) (ps : List String) (h : 1 < ps.length)
    (hok : tok ps 1 ≠ "" → (pyInt (tok ps 1)).isOk) :
    ∃ m', fTransmission m ps = .ok m' := by
  by_cases hne : tok ps 1 = ""
  · exact ⟨m, by unfold fTransmission; rw [getIdx_ok_of_lt h, ok_bind,
      if_neg (not_not_intro hne), pure_eq_ok]⟩
  · obtain ⟨v, hv⟩ := isOk_exists (hok hne)
    exact ⟨{ m with transmission_type := some v }, by
      unfold fTransmission
      rw [getIdx_ok_of_lt h, ok_bind, if_pos hne, hv, ok_bind, pure_eq_ok]⟩

theorem fSession_isOk (m : Message) (ps : List String) (h : 2 < ps.length)
    (hok : tok ps 2 ≠ "" ∧ tok ps 2 ≠ "111" → (pyInt (tok ps 2)).isOk) :
    ∃ m', fSession m ps = .ok m' := by
  by_cases hc : tok ps 2 ≠ "" ∧ tok ps 2 ≠ "111"
  · obtain ⟨v, hv⟩ := isOk_exists (hok hc)
    exact ⟨{ m with session_id := some v }, by
      unfold fSession
      rw [getIdx_ok_of_lt h, ok_bind, if_pos hc, hv, ok_bind, pure_eq_ok]⟩
  · exact ⟨m, by unfold fSession; rw [getIdx_ok_of_lt h, ok_bind, if_neg hc, pure_eq_ok]⟩

theorem fAircraft_isOk (m : Message) (ps : List String) (h : 3 < ps.length)
    (hok : tok ps 3 ≠ "" ∧ tok ps 3 ≠ "11111" → (pyInt (tok ps 3)).isOk) :
    ∃ m', fAircraft m ps = .ok m' := by
  by_cases hc : tok ps 3 ≠ "" ∧ tok ps 3 ≠ "11111"
  · obtain ⟨v, hv⟩ := isOk_exists (hok hc)
    exact ⟨{ m with aircraft_id := some v }, by
      unfold fAircraft
      rw [getIdx_ok_of_lt h, ok_bind, if_pos hc, hv, ok_bind, pure_eq_ok]⟩
  · exact ⟨m, by unfold fAircraft; rw [getIdx_ok_of_lt h, ok_bind, if_neg hc, pure_eq_ok]⟩

theorem fHexident_isOk (m : Message) (ps : List String) (h : 4 < ps.length) :
    ∃ m', fHexident m ps = .ok m' :=
  ⟨_, by unfold fHexident; rw [getIdx_ok_of_lt h, ok_bind, pure_eq_ok]⟩

theorem fFlight_isOk (m : Message) (ps : List String) (h : 5 < ps.length) :
    ∃ m', fFlight m ps = .ok m' :=
  ⟨_, by unfold fFlight; rw [getIdx_ok_of_lt h, ok_bind, pure_eq_ok]⟩

theorem fGenTime_isOk (m : Message) (ps : List String) (h6l : 6 < ps.length)
    (h7l : 7 < ps.length)
    (hok : tok ps 6 ≠ "" → tok ps 7 ≠ "" → (parse_datetime (tok ps 6) (tok ps 7)).isOk) :
    ∃ m', fGenTime m ps = .ok m' := by
  by_cases h6 : tok ps 6 = ""
  · exact ⟨m, by unfold fGenTime; rw [getIdx_ok_of_lt h6l, ok_bind,
      if_neg (not_not_intro h6), pure_eq_ok]⟩
  · by_cases h7 : tok ps 7 = ""
    · exact ⟨m, by unfold fGenTime; rw [getIdx_ok_of_lt h6l, ok_bind, if_pos h6,
        getIdx_ok_of_lt h7l, ok_bind, if_neg (not_not_intro h7), pure_eq_ok]⟩
    · obtain ⟨t, ht⟩ := isOk_exists (hok h6 h7)
      exact ⟨{ m with generation_time := some t }, by
        unfold fGenTime
        rw [getIdx_ok_of_lt h6l, ok_bind, if_pos h6, getIdx_ok_of_lt h7l, ok_bind,
          if_pos h7, ht, ok_bind, pure_eq_ok]⟩

theorem fRecTime_isOk (m : Message) (ps : List String) (h8l : 8 < ps.length)
    (h9l : 9 < ps.length)
    (hok : tok ps 8 ≠ "" → (parse_datetime (tok ps 8) (tok ps 9)).isOk) :
    ∃ m', fRecTime m ps = .ok m' := by
  by_cases h8 : tok ps 8 = ""
  · exact ⟨m, by unfold fRecTime; rw [getIdx_ok_of_lt h8l, ok_bind,
      if_neg (show ¬(tok ps 8 ≠ "" ∧ tok ps 8 ≠ "") from fun hc => hc.1 h8), pure_eq_ok]⟩
  · obtain ⟨t, ht⟩ := isOk_exists (hok h8)
    exact ⟨{ m with record_time := some t }, by
      unfold fRecTime
      rw [getIdx_ok_of_lt h8l, ok_bind, if_pos ⟨h8, h8⟩, getIdx_ok_of_lt h9l, ok_bind,
        ht, ok_bind, pure_eq_ok]⟩

theorem fAltitude_isOk (m : Message) (ps : List String) (h : 11 < ps.length)
    (hok : tok ps 11 ≠ "" → (pyInt (tok ps 11)).isOk) :
    ∃ m', fAltitude m ps = .ok m' := by
  by_cases hne : tok ps 11 = ""
  · exact ⟨m, by unfold fAltitude; rw [getIdx_ok_of_lt h, ok_bind,
      if_neg (not_not_intro hne), pure_eq_ok]⟩
  · obtain ⟨v, hv⟩ := isOk_exists (hok hne)
    exact ⟨{ m with altitude := some v }, by
      unfold fAltitude
      rw [getIdx_ok_of_lt h, ok_bind, if_pos hne, hv, ok_bind, pure_eq_ok]⟩

theorem fGroundSpeed_isOk (m : Message) (ps : List String) (h : 12 < ps.length)
    (hok : tok ps 12 ≠ "" → (pyFloat (tok ps 12)).isOk) :
    ∃ m', fGroundSpeed m ps = .ok m' := by
  by_cases hne : tok ps 12 = ""
  · exact ⟨m, by unfold fGroundSpeed; rw [getIdx_ok_of_lt h, ok_bind,
      if_neg (not_not_intro hne), pure_eq_ok]⟩
  · obtain ⟨v, hv⟩ := isOk_exists (hok hne)
    exact ⟨{ m with ground_speed := some v }, by
      unfold fGroundSpeed
      rw [getIdx_ok_of_lt h, ok_bind, if_pos hne, hv, ok_bind, pure_eq_ok]⟩

theorem fTrack_isOk (m : Message) (ps : List String) (h : 13 < ps.length)
    (hok : tok ps 13 ≠ "" → (pyFloat (tok ps 13)).isOk) :
    ∃ m', fTrack m ps = .ok m' := by
  by_cases hne : tok ps 13 = ""
  · exact ⟨m, by unfold fTrack; rw [getIdx_ok_of_lt h, ok_bind,
      if_neg (not_not_intro hne), pure_eq_ok]⟩
  · obtain ⟨v, hv⟩ := isOk_exists (hok hne)
    exact ⟨{ m with track := some v }, by
      unfold fTrack
      rw [getIdx_ok_of_lt h, ok_bind, if_pos hne, hv, ok_bind, pure_eq_ok]⟩

theorem fLatitude_isOk (m : Message) (ps : List String) (h : 14 < ps.length)
    (hok : tok ps 14 ≠ "" → (pyFloat (tok ps 14)).isOk) :
    ∃ m', fLatitude m ps = .ok m' := by
  by_cases hne : tok ps 14 = ""
  · exact ⟨m, by unfold fLatitude; rw [getIdx_ok_of_lt h, ok_bind,
      if_neg (not_not_intro hne), pure_eq_ok]⟩
  · obtain ⟨v, hv⟩ := isOk_exists (hok hne)
    exact ⟨{ m with latitude := some v }, by
      unfold fLatitude
      rw [getIdx_ok_of_lt h, ok_bind, if_pos hne, hv, ok_bind, pure_eq_ok]⟩

theorem fLongitude_isOk (m : Message) (ps : List String) (h : 15 < ps.length)
    (hok : tok ps 15 ≠ "" → (pyFloat (tok ps 15)).isOk) :
    ∃ m', fLongitude m ps = .ok m' := by
  by_cases hne : tok ps 15 = ""
  · exact ⟨m, by unfold fLongitude; rw [getIdx_ok_of_lt h, ok_bind,
      if_neg (not_not_intro hne), pure_eq_ok]⟩
  · obtain ⟨v, hv⟩ := isOk_exists (hok hne)
    exact ⟨{ m with longitude := some v }, by
      unfold fLongitude
      rw [getIdx_ok_of_lt h, ok_bind, if_pos hne, hv, ok_bind, pure_eq_ok]⟩

theorem fVerticalRate_isOk (m : Message) (ps : List String) (h : 16 < ps.length)
    (hok : tok ps 16 ≠ "" → (pyInt (tok ps 16)).isOk) :
    ∃ m', fVerticalRate m ps = .ok m' := by
  by_cases hne : tok ps 16 = ""
  · exact ⟨m, by unfold fVerticalRate; rw [getIdx_ok_of_lt h, ok_bind,
      if_neg (not_not_intro hne), pure_eq_ok]⟩
  · obtain ⟨v, hv⟩ := isOk_exists (hok hne)
    exact ⟨{ m with vertical_rate := some v }, by
      unfold fVerticalRate
      rw [getIdx_ok_of_lt h, ok_bind, if_pos hne, hv, ok_bind, pure_eq_ok]⟩

theorem fSquawk_isOk (m : Message) (ps : List String) (h : 17 < ps.length)
    (hok : tok ps 17 ≠ "" → (pyInt (tok ps 17)).isOk) :
    ∃ m', fSquawk m ps = .ok m' := by
  by_cases hne : tok ps 17 = ""
  · exact ⟨m, by unfold fSquawk; rw [getIdx_ok_of_lt h, ok_bind,
      if_neg (not_not_intro hne), pure_eq_ok]⟩
  · obtain ⟨v, hv⟩ := isOk_exists (hok hne)
    exact ⟨{ m with squawk := some v }, by
      unfold fSquawk
      rw [getIdx_ok_of_lt h, ok_bind, if_pos hne, hv, ok_bind, pure_eq_ok]⟩

theorem fSquawkAlert_isOk (m : Message) (ps : List String) (h : 18 < ps.length) :
    ∃ m', fSquawkAlert m ps = .ok m' :=
  ⟨_, by unfold fSquawkAlert; rw [getIdx_ok_of_lt h, ok_bind, pure_eq_ok]⟩

theorem fEmergency_isOk (m : Message) (ps : List String) (h : 19 < ps.length) :
    ∃ m', fEmergency m ps = .ok m' :=
  ⟨_, by unfold fEmergency; rw [getIdx_ok_of_lt h, ok_bind, pure_eq_ok]⟩

theorem fSpi_isOk (m : Message) (ps : List String) (h : 20 < ps.length) :
    ∃ m', fSpi m ps = .ok m' :=
  ⟨_, by unfold fSpi; rw [getIdx_ok_of_lt h, ok_bind, pure_eq_ok]⟩

theorem fOnGround_isOk (m : Message) (ps : List String) (h : 21 < ps.length) :
    ∃ m', fOnGround m ps = .ok m' :=
  ⟨_, by unfold fOnGround; rw [getIdx_ok_of_lt h, ok_bind, pure_eq_ok]⟩

theorem parseFront_isOk (m : Message) (ps : List String) (hlen : 9 < ps.length)
    (h1 : tok ps 1 ≠ "" → (pyInt (tok ps 1)).isOk)
    (h2 : tok ps 2 ≠ "" ∧ tok ps 2 ≠ "111" → (pyInt (tok ps 2)).isOk)
    (h3 : tok ps 3 ≠ "" ∧ tok ps 3 ≠ "11111" → (pyInt (tok ps 3)).isOk)
    (h6 : tok ps 6 ≠ "" → tok ps 7 ≠ "" → (parse_datetime (tok ps 6) (tok ps 7)).isOk)
    (h8 : tok ps 8 ≠ "" → (parse_datetime (tok ps 8) (tok ps 9)).isOk) :
    ∃ m', parseFront m ps = .ok m' := by
  obtain ⟨m1, e1⟩ := fMessageType_isOk m ps (by omega)
  obtain ⟨m2, e2⟩ := fTransmission_isOk m1 ps (by omega) h1
  obtain ⟨m3, e3⟩ := fSession_isOk m2 ps (by omega) h2
  obtain ⟨m4, e4⟩ := fAircraft_isOk m3 ps (by omega) h3
  obtain ⟨m5, e5⟩ := fHexident_isOk m4 ps (by omega)
  obtain ⟨m6, e6⟩ := fFlight_isOk m5 ps (by omega)
  obtain ⟨m7, e7⟩ := fGenTime_isOk m6 ps (by omega) (by omega) h6
  obtain ⟨m8, e8⟩ := fRecTime_isOk m7 ps (by omega) (by omega) h8
  exact ⟨m8, by
    unfold parseFront
    rw [e1, ok_bind, e2, ok_bind, e3, ok_bind, e4, ok_bind, e5, ok_bind, e6, ok_bind,
      e7, ok_bind, e8]⟩

theorem parseTail12_isOk (m : Message) (ps : List String) (hlen : 21 < ps.length)
    (h12 : tok ps 12 ≠ "" → (pyFloat (tok ps 12)).isOk)
    (h13 : tok ps 13 ≠ "" → (pyFloat (tok ps 13)).isOk)
    (h14 : tok ps 14 ≠ "" → (pyFloat (tok ps 14)).isOk)
    (h15 : tok ps 15 ≠ "" → (pyFloat (tok ps 15)).isOk)
    (h16 : tok ps 16 ≠ "" → (pyInt (tok ps 16)).isOk)
    (h17 : tok ps 17 ≠ "" → (pyInt (tok ps 17)).isOk) :
    ∃ m', parseTail12 m ps = .ok m' := by
  obtain ⟨m1, e1⟩ := fGroundSpeed_isOk m ps (by omega) h12
  obtain ⟨m2, e2⟩ := fTrack_isOk m1 ps (by omega) h13
  obtain ⟨m3, e3⟩ := fLatitude_isOk m2 ps (by omega) h14
  obtain ⟨m4, e4⟩ := fLongitude_isOk m3 ps (by omega) h15
  obtain ⟨m5, e5⟩ := fVerticalRate_isOk m4 ps (by omega) h16
  obtain ⟨m6, e6⟩ := fSquawk_isOk m5 ps (by omega) h17
  obtain ⟨m7, e7⟩ := fSquawkAlert_isOk m6 ps (by omega)
  obtain ⟨m8, e8⟩ := fEmergency_isOk m7 ps (by omega)
  obtain ⟨m9, e9⟩ := fSpi_isOk m8 ps (by omega)
  obtain ⟨m10, e10⟩ := fOnGround_isOk m9 ps hlen
  exact ⟨m10, by
    unfold parseTail12
    rw [e1, ok_bind, e2, ok_bind, e3, ok_bind, e4, ok_bind, e5, ok_bind, e6, ok_bind,
      e7, ok_bind, e8, ok_bind, e9, ok_bind, e10]⟩

theorem parseMsgTail_isOk (m : Message) (ps : List String) (hlen : 21 < ps.length)
    (h11 : tok ps 11 ≠ "" → (pyInt (tok ps 11)).isOk)
    (h12 : tok ps 12 ≠ "" → (pyFloat (tok ps 12)).isOk)
    (h13 : tok ps 13 ≠ "" → (pyFloat (tok ps 13)).isOk)
    (h14 : tok ps 14 ≠ "" → (pyFloat (tok ps 14)).isOk)
    (h15 : tok ps 15 ≠ "" → (pyFloat (tok ps 15)).isOk)
    (h16 : tok ps 16 ≠ "" → (pyInt (tok ps 16)).isOk)
    (h17 : tok ps 17 ≠ "" → (pyInt (tok ps 17)).isOk) :
    ∃ m', parseMsgTail m ps = .ok m' := by
  obtain ⟨ma, ea⟩ := fAltitude_isOk m ps (by omega) h11
  obtain ⟨mt, et⟩ := parseTail12_isOk ma ps hlen h12 h13 h14 h15 h16 h17
  exact ⟨mt, by
    unfold parseMsgTail
    rw [ea, ok_bind, if_neg (fun hc => absurd hc.2 (by omega)), et]⟩

theorem mk_ne_empty {l : List Char} (h : l ≠ []) : String.mk l ≠ "" :=
  fun he => h (congrArg String.data he)

theorem intRepr_ne_nil (z : Int) : intRepr z ≠ [] := by
  unfold intRepr
  split
  · exact List.cons_ne_nil _ _
  · exact natDigits_ne_nil _

theorem pyInt_dump_isOk (v : Option Int) :
    dump_or_none v (fun z => String.mk (intRepr z)) ≠ "" →
    (pyInt (dump_or_none v (fun z => String.mk (intRepr z)))).isOk := by
  cases v with
  | none => exact fun h => absurd rfl h
  | some z =>
    intro h
    show (pyInt (String.mk (intRepr z))).isOk
    rw [pyInt_intRepr]
    rfl

theorem roundtrip_int_field (v : Option Int) :
    (if dump_or_none v (fun z => String.mk (intRepr z)) ≠ "" then
        (pyInt (dump_or_none v (fun z => String.mk (intRepr z)))).toOption
      else none) = v := by
  cases v with
  | none => rfl
  | some z =>
    rw [show dump_or_none (some z) (fun z => String.mk (intRepr z)) = String.mk (intRepr z)
      from rfl, if_pos (mk_ne_empty (intRepr_ne_nil z)), pyInt_intRepr, toOption_ok]

theorem intRepr_eq_of_str {z w : Int} {t : String} (ht : pyInt t = .ok w)
    (he : String.mk (intRepr z) = t) : z = w := by
  have h := pyInt_intRepr z
  rw [he, ht] at h
  exact ((Except.ok.injEq _ _).mp h).symm

theorem roundtrip_session_field (v : Option Int) (hs : v ≠ some 111) :
    (if dump_or_none v (fun z => String.mk (intRepr z)) ≠ ""
        ∧ dump_or_none v (fun z => String.mk (intRepr z)) ≠ "111" then
        (pyInt (dump_or_none v (fun z => String.mk (intRepr z)))).toOption
      else none) = v := by
  cases v with
  | none => rfl
  | some z =>
    have hz : z ≠ 111 := fun h => hs (by rw [h])
    rw [show dump_or_none (some z) (fun z => String.mk (intRepr z)) = String.mk (intRepr z)
        from rfl,
      if_pos ⟨mk_ne_empty (intRepr_ne_nil z),
        fun he => hz (intRepr_eq_of_str (show pyInt "111" = .ok 111 from rfl) he)⟩,
      pyInt_intRepr, toOption_ok]

theorem roundtrip_aircraft_field (v : Option Int) (hs : v ≠ some 11111) :
    (if dump_or_none v (fun z => String.mk (intRepr z)) ≠ ""
        ∧ dump_or_none v (fun z => String.mk (intRepr z)) ≠ "11111" then
        (pyInt (dump_or_none v (fun z => String.mk (intRepr z)))).toOption
      else none) = v := by
  cases v with
  | none => rfl
  | some z =>
    have hz : z ≠ 11111 := fun h => hs (by rw [h])
    rw [show dump_or_none (some z) (fun z => String.mk (intRepr z)) = String.mk (intRepr z)
        from rfl,
      if_pos ⟨mk_ne_empty (intRepr_ne_nil z),
        fun he => hz (intRepr_eq_of_str (show pyInt "11111" = .ok 11111 from rfl) he)⟩,
      pyInt_intRepr, toOption_ok]

theorem roundtrip_str_field (v : Option String)
    (h : ∀ x, v = some x → x ≠ "" ∧ pyUpper x = x) :
    (if dump_or_none v id ≠ "" then some (pyUpper (dump_or_none v id)) else none) = v := by
  cases v with
  | none => rfl
  | some x =>
    obtain ⟨hne, hup⟩ := h x rfl
    rw [show dump_or_none (some x) id = x from rfl, if_pos hne, hup]

theorem roundtrip_flight_field (v : Option String)
    (h : ∀ x, v = some x → (x ≠ "" ∧ pyUpper x = x) ∧ x ≠ "111111") :
    (if dump_or_none v id ≠ "" ∧ dump_or_none v id ≠ "111111" then
        some (pyUpper (dump_or_none v id)) else none) = v := by
  cases v with
  | none => rfl
  | some x =>
    obtain ⟨⟨hne, hup⟩, hs⟩ := h x rfl
    rw [show dump_or_none (some x) id = x from rfl, if_pos ⟨hne, hs⟩, hup]

theorem dumpPyFloat_ne_empty (q : ℚ) : dumpPyFloat q ≠ "" := by
  simp only [dumpPyFloat]
  split
  · exact mk_ne_empty (by simp)
  · intro h
    exact absurd h (by decide)

theorem pyFloat_dump_isOk (v : Option ℚ)
    (h : ∀ q, v = some q → q.den ∣ 10 ^ decExponent q.den) :
    dump_or_none v dumpPyFloat ≠ "" → (pyFloat (dump_or_none v dumpPyFloat)).isOk := by
  cases v with
  | none => exact fun hc => absurd rfl hc
  | some q =>
    intro hc
    show (pyFloat (dumpPyFloat q)).isOk
    rw [pyFloat_dumpPyFloat q (h q rfl)]
    rfl

theorem roundtrip_float_field (v : Option ℚ)
    (h : ∀ q, v = some q → q.den ∣ 10 ^ decExponent q.den) :
    (if dump_or_none v dumpPyFloat ≠ "" then (pyFloat (dump_or_none v dumpPyFloat)).toOption
      else none) = v := by
  cases v with
  | none => rfl
  | some q =>
    rw [show dump_or_none (some q) dumpPyFloat = dumpPyFloat q from rfl,
      if_pos (dumpPyFloat_ne_empty q), pyFloat_dumpPyFloat q (h q rfl), toOption_ok]

theorem format_coordinates_ne_empty (q : ℚ) : format_coordinates q ≠ "" := by
  simp only [format_coordinates]
  exact mk_ne_empty (by simp)

theorem pyFloat_coord_isOk (v : Option ℚ) (h : ∀ q, v = some q → q.den ∣ 10 ^ 5) :
    dump_or_none v format_coordinates ≠ "" →
    (pyFloat (dump_or_none v format_coordinates)).isOk := by
  cases v with
  | none => exact fun hc => absurd rfl hc
  | some q =>
    intro hc
    show (pyFloat (format_coordinates q)).isOk
    rw [pyFloat_format_coordinates q
      (by rw [show (100000 : ℕ) = 10 ^ 5 from by norm_num]; exact h q rfl)]
    rfl

theorem roundtrip_coord_field (v : Option ℚ) (h : ∀ q, v = some q → q.den ∣ 10 ^ 5) :
    (if dump_or_none v format_coordinates ≠ "" then
        (pyFloat (dump_or_none v format_coordinates)).toOption else none) = v := by
  cases v with
  | none => rfl
  | some q =>
    rw [show dump_or_none (some q) format_coordinates = format_coordinates q from rfl,
      if_pos (format_coordinates_ne_empty q),
      pyFloat_format_coordinates q
        (by rw [show (100000 : ℕ) = 10 ^ 5 from by norm_num]; exact h q rfl),
      toOption_ok]

theorem parse_bool_dump_bool (b : Bool) : parse_bool (dump_bool b) = some b := by
  cases b <;> decide

theorem roundtrip_bool_field (v : Option Bool) :
    (if dump_or_none v dump_bool ≠ "" then parse_bool (dump_or_none v dump_bool) else none)
      = v := by
  cases v with
  | none => rfl
  | some b =>
    rw [show dump_or_none (some b) dump_bool = dump_bool b from rfl,
      if_pos (by cases b <;> decide), parse_bool_dump_bool]

theorem dumpDate_ne_nil (t : PyDatetime) : dumpDate t ≠ [] := by
  unfold dumpDate
  simp

theorem dumpTime_ne_nil (t : PyDatetime) : dumpTime t ≠ [] := by
  unfold dumpTime
  simp

theorem message_ext {a b : Message}
    (e1 : a.message_type = b.message_type) (e2 : a.transmission_type = b.transmission_type)
    (e3 : a.session_id = b.session_id) (e4 : a.aircraft_id = b.aircraft_id)
    (e5 : a.hexident = b.hexident) (e6 : a.flight_id = b.flight_id)
    (e7 : a.generation_time = b.generation_time) (e8 : a.record_time = b.record_time)
    (e9 : a.callsign = b.callsign) (e10 : a.altitude = b.altitude)
    (e11 : a.ground_speed = b.ground_speed) (e12 : a.track = b.track)
    (e13 : a.latitude = b.latitude) (e14 : a.longitude = b.longitude)
    (e15 : a.vertical_rate = b.vertical_rate) (e16 : a.squawk = b.squawk)
    (e17 : a.squawk_alert = b.squawk_alert) (e18 : a.emergency = b.emergency)
    (e19 : a.spi = b.spi) (e20 : a.on_ground = b.on_ground) : a = b := by
  cases a
  cases b
  simp_all

set_option maxHeartbeats 1000000 in
theorem from_tokens_msg (s : String)
    (u1 u2 u3 u4 u5 u6 u7 u8 u9 u10 u11 u12 u13 u14 u15 u16 u17 u18 u19 u20 u21 : String)
    (hps : pyParts s = ["MSG", u1, u2, u3, u4, u5, u6, u7, u8, u9, u10, u11, u12, u13,
      u14, u15, u16, u17, u18, u19, u20, u21])
    (k1 : u1 ≠ "" → (pyInt u1).isOk)
    (k2 : u2 ≠ "" ∧ u2 ≠ "111" → (pyInt u2).isOk)
    (k3 : u3 ≠ "" ∧ u3 ≠ "11111" → (pyInt u3).isOk)
    (k6 : u6 ≠ "" → u7 ≠ "" → (parse_datetime u6 u7).isOk)
    (k8 : u8 ≠ "" → (parse_datetime u8 u9).isOk)
    (k11 : u11 ≠ "" → (pyInt u11).isOk)
    (k12 : u12 ≠ "" → (pyFloat u12).isOk)
    (k13 : u13 ≠ "" → (pyFloat u13).isOk)
    (k14 : u14 ≠ "" → (pyFloat u14).isOk)
    (k15 : u15 ≠ "" → (pyFloat u15).isOk)
    (k16 : u16 ≠ "" → (pyInt u16).isOk)
    (k17 : u17 ≠ "" → (pyInt u17).isOk) :
    Message.parse_string Message.init s = .ok
      { message_type := some "MSG"
        transmission_type := if u1 ≠ "" then (pyInt u1).toOption else none
        session_id := if u2 ≠ "" ∧ u2 ≠ "111" then (pyInt u2).toOption else none
        aircraft_id := if u3 ≠ "" ∧ u3 ≠ "11111" then (pyInt u3).toOption else none
        hexident := if u4 ≠ "" then some (pyUpper u4) else none
        flight_id := if u5 ≠ "" ∧ u5 ≠ "111111" then some (pyUpper u5) else none
        generation_time := if u6 ≠ "" ∧ u7 ≠ "" then (parse_datetime u6 u7).toOption else none
        record_time := if u8 ≠ "" then (parse_datetime u8 u9).toOption else none
        callsign := if u10 ≠ "" then some (pyUpper u10) else none
        altitude := if u11 ≠ "" then (pyInt u11).toOption else none
        ground_speed := if u12 ≠ "" then (pyFloat u12).toOption else none
        track := if u13 ≠ "" then (pyFloat u13).toOption else none
        latitude := if u14 ≠ "" then (pyFloat u14).toOption else none
        longitude := if u15 ≠ "" then (pyFloat u15).toOption else none
        vertical_rate := if u16 ≠ "" then (pyInt u16).toOption else none
        squawk := if u17 ≠ "" then (pyInt u17).toOption else none
        squawk_alert := if u18 ≠ "" then parse_bool u18 else none
        emergency := if u19 ≠ "" then parse_bool u19 else none
        spi := if u20 ≠ "" then parse_bool u20 else none
        on_ground := if u21 ≠ "" then parse_bool u21 else none } := by
  set PS : List String := ["MSG", u1, u2, u3, u4, u5, u6, u7, u8, u9, u10, u11, u12,
    u13, u14, u15, u16, u17, u18, u19, u20, u21] with hPS
  obtain ⟨mf, hf⟩ := parseFront_isOk Message.init PS (by rw [hPS]; simp) k1 k2 k3 k6 k8
  have hfe := (parseFront_ok_eq hf).2.2.2.2.2.2
  subst hfe
  have hrun := parse_string_run (show parseFront Message.init (pyParts s) =
    .ok (frontResult Message.init PS) from by rw [hps]; exact hf)
  rw [hps] at hrun
  have hcs_mt : (parseCallsign (frontResult Message.init PS) PS).message_type
      = some "MSG" := by
    rw [parseCallsign_message_type, frontResult_message_type,
      if_pos (show tok PS 0 ≠ "" from by
        rw [show tok PS 0 = "MSG" from by rw [hPS]; rfl]
        decide)]
    rfl
  rw [hcs_mt, if_pos rfl] at hrun
  obtain ⟨mt, ht⟩ := parseMsgTail_isOk (parseCallsign (frontResult Message.init PS) PS) PS
    (by rw [hPS]; simp) k11 k12 k13 k14 k15 k16 k17
  rw [ht] at hrun
  obtain ⟨hlen21, h12t, h13t, h14t, h15t, h16t, h17t, hmt⟩ :=
    (parseMsgTail_ok_eq ht).2.2.2
      (fun hc => absurd hc.2 (show PS.length ≠ 21 from by rw [hPS]; simp))
  rw [hrun, hmt]
  set C : Message := parseCallsign (frontResult Message.init PS) PS with hC
  set MID : Message := ({ C with altitude :=
    (if tok PS 11 ≠ "" then (pyInt (tok PS 11)).toOption else C.altitude) } : Message)
    with hMID
  have hm1 : MID.message_type = C.message_type := by rw [hMID]
  have hm2 : MID.transmission_type = C.transmission_type := by rw [hMID]
  have hm3 : MID.session_id = C.session_id := by rw [hMID]
  have hm4 : MID.aircraft_id = C.aircraft_id := by rw [hMID]
  have hm5 : MID.hexident = C.hexident := by rw [hMID]
  have hm6 : MID.flight_id = C.flight_id := by rw [hMID]
  have hm7 : MID.generation_time = C.generation_time := by rw [hMID]
  have hm8 : MID.record_time = C.record_time := by rw [hMID]
  have hm9 : MID.callsign = C.callsign := by rw [hMID]
  have hm10 : MID.altitude =
      (if tok PS 11 ≠ "" then (pyInt (tok PS 11)).toOption else C.altitude) := by rw [hMID]
  have hm11 : MID.ground_speed = C.ground_speed := by rw [hMID]
  have hm12 : MID.track = C.track := by rw [hMID]
  have hm13 : MID.latitude = C.latitude := by rw [hMID]
  have hm14 : MID.longitude = C.longitude := by rw [hMID]
  have hm15 : MID.vertical_rate = C.vertical_rate := by rw [hMID]
  have hm16 : MID.squawk = C.squawk := by rw [hMID]
  have hm17 : MID.squawk_alert = C.squawk_alert := by rw [hMID]
  have hm18 : MID.emergency = C.emergency := by rw [hMID]
  have hm19 : MID.spi = C.spi := by rw [hMID]
  have hm20 : MID.on_ground = C.on_ground := by rw [hMID]
  have hc2 : C.transmission_type = (if u1 ≠ "" then (pyInt u1).toOption else none) := by
    rw [hC, parseCallsign_transmission_type, frontResult_transmission_type]
    rfl
  have hc3 : C.session_id = (if u2 ≠ "" ∧ u2 ≠ "111" then (pyInt u2).toOption else none) := by
    rw [hC, parseCallsign_session_id, frontResult_session_id]
    rfl
  have hc4 : C.aircraft_id =
      (if u3 ≠ "" ∧ u3 ≠ "11111" then (pyInt u3).toOption else none) := by
    rw [hC, parseCallsign_aircraft_id, frontResult_aircraft_id]
    rfl
  have hc5 : C.hexident = (if u4 ≠ "" then some (pyUpper u4) else none) := by
    rw [hC, parseCallsign_hexident, frontResult_hexident]
    rfl
  have hc6 : C.flight_id =
      (if u5 ≠ "" ∧ u5 ≠ "111111" then some (pyUpper u5) else none) := by
    rw [hC, parseCallsign_flight_id, frontResult_flight_id]
    rfl
  have hc7 : C.generation_time =
      (if u6 ≠ "" ∧ u7 ≠ "" then (parse_datetime u6 u7).toOption else none) := by
    rw [hC, parseCallsign_generation_time, frontResult_generation_time]
    rfl
  have hc8 : C.record_time = (if u8 ≠ "" then (parse_datetime u8 u9).toOption else none) := by
    rw [hC, parseCallsign_record_time, frontResult_record_time]
    rfl
  have hc9 : C.callsign = (if u10 ≠ "" then some (pyUpper u10) else none) := by
    rw [hC, parseCallsign_callsign]
    by_cases h10 : u10 = ""
    · rw [if_neg (fun hcc => hcc.2 (show tok PS 10 = "" from by rw [hPS]; exact h10)),
        frontResult_callsign, if_neg (not_not_intro h10)]
      rfl
    · rw [if_pos ⟨show 10 < PS.length from by rw [hPS]; simp,
        show tok PS 10 ≠ "" from h10⟩, if_pos h10]
      rfl
  have hc10 : C.altitude = none := by
    rw [hC, parseCallsign_altitude, frontResult_altitude]
    rfl
  have hc11 : C.ground_speed = none := by
    rw [hC, parseCallsign_ground_speed, frontResult_ground_speed]
    rfl
  have hc12 : C.track = none := by
    rw [hC, parseCallsign_track, frontResult_track]
    rfl
  have hc13 : C.latitude = none := by
    rw [hC, parseCallsign_latitude, frontResult_latitude]
    rfl
  have hc14 : C.longitude = none := by
    rw [hC, parseCallsign_longitude, frontResult_longitude]
    rfl
  have hc15 : C.vertical_rate = none := by
    rw [hC, parseCallsign_vertical_rate, frontResult_vertical_rate]
    rfl
  have hc16 : C.squawk = none := by
    rw [hC, parseCallsign_squawk, frontResult_squawk]
    rfl
  have hc17 : C.squawk_alert = none := by
    rw [hC, parseCallsign_squawk_alert, frontResult_squawk_alert]
    rfl
  have hc18 : C.emergency = none := by
    rw [hC, parseCallsign_emergency, frontResult_emergency]
    rfl
  have hc19 : C.spi = none := by
    rw [hC, parseCallsign_spi, frontResult_spi]
    rfl
  have hc20 : C.on_ground = none := by
    rw [hC, parseCallsign_on_ground, frontResult_on_ground]
    rfl
  congr 1
  apply message_ext
  · rw [tail12Result_message_type, hm1, hcs_mt]
  · rw [tail12Result_transmission_type, hm2, hc2]
  · rw [tail12Result_session_id, hm3, hc3]
  · rw [tail12Result_aircraft_id, hm4, hc4]
  · rw [tail12Result_hexident, hm5, hc5]
  · rw [tail12Result_flight_id, hm6, hc6]
  · rw [tail12Result_generation_time, hm7, hc7]
  · rw [tail12Result_record_time, hm8, hc8]
  · rw [tail12Result_callsign, hm9, hc9]
  · rw [tail12Result_altitude, hm10, hc10]
    rfl
  · rw [tail12Result_ground_speed, hm11, hc11]
    rfl
  · rw [tail12Result_track, hm12, hc12]
    rfl
  · rw [tail12Result_latitude, hm13, hc13]
    rfl
  · rw [tail12Result_longitude, hm14, hc14]
    rfl
  · rw [tail12Result_vertical_rate, hm15, hc15]
    rfl
  · rw [tail12Result_squawk, hm16, hc16]
    rfl
  · rw [tail12Result_squawk_alert, hm17, hc17]
    rfl
  · rw [tail12Result_emergency, hm18, hc18]
    rfl
  · rw [tail12Result_spi, hm19, hc19]
    rfl
  · rw [tail12Result_on_ground, hm20, hc20]
    rfl

set_option maxHeartbeats 1000000 in
/-- Claim C4 (amended): the claim as stated is refuted by
`c4_counterexample` (a latitude with more than five decimal places is
rounded by `'{:.5f}'.format`, so decode-then-encode changes a non-sentinel
field).  The amended record-level statement proved here: for every
`RoundTrippable` record — a MSG record with both timestamps present and
well-formed, identifier values away from the decode-side sentinels,
upper-case comma-free string fields, and float fields with terminating
decimal expansions (co-ordinates within five places) — encoding with
`to_string` and decoding the resulting line with `from_string` reproduces
the record exactly. -/
theorem c4_amended (r : Message) (h : RoundTrippable r) :
    Message.from_string (Message.to_string r) = .ok r := by
  obtain ⟨hmsg, hsess, hair, hhex, hfl, hcs, ⟨g, hg, hvg⟩, ⟨rc, hrc, hvrc⟩,
    hgs, htrk, hlat, hlon⟩ := h
  have hps := pyParts_to_string r g rc hmsg hg hrc
    (fun x hx => (hhex x hx).2.2) (fun x hx => ((hfl x hx).1).2.2)
    (fun x hx => (hcs x hx).2.2)
  unfold Message.from_string
  rw [from_tokens_msg (Message.to_string r)
    (dump_or_none r.transmission_type (fun z => String.mk (intRepr z)))
    (dump_or_none r.session_id (fun z => String.mk (intRepr z)))
    (dump_or_none r.aircraft_id (fun z => String.mk (intRepr z)))
    (dump_or_none r.hexident id)
    (dump_or_none r.flight_id id)
    (String.mk (dumpDate g)) (String.mk (dumpTime g))
    (String.mk (dumpDate rc)) (String.mk (dumpTime rc))
    (dump_or_none r.callsign id)
    (dump_or_none r.altitude (fun z => String.mk (intRepr z)))
    (dump_or_none r.ground_speed dumpPyFloat)
    (dump_or_none r.track dumpPyFloat)
    (dump_or_none r.latitude format_coordinates)
    (dump_or_none r.longitude format_coordinates)
    (dump_or_none r.vertical_rate (fun z => String.mk (intRepr z)))
    (dump_or_none r.squawk (fun z => String.mk (intRepr z)))
    (dump_or_none r.squawk_alert dump_bool)
    (dump_or_none r.emergency dump_bool)
    (dump_or_none r.spi dump_bool)
    (dump_or_none r.on_ground dump_bool)
    hps
    (pyInt_dump_isOk r.transmission_type)
    (fun hc => pyInt_dump_isOk r.session_id hc.1)
    (fun hc => pyInt_dump_isOk r.aircraft_id hc.1)
    (fun h6 h7 => by rw [parse_datetime_dump g hvg]; rfl)
    (fun h8 => by rw [parse_datetime_dump rc hvrc]; rfl)
    (pyInt_dump_isOk r.altitude)
    (pyFloat_dump_isOk r.ground_speed hgs)
    (pyFloat_dump_isOk r.track htrk)
    (pyFloat_coord_isOk r.latitude hlat)
    (pyFloat_coord_isOk r.longitude hlon)
    (pyInt_dump_isOk r.vertical_rate)
    (pyInt_dump_isOk r.squawk)]
  congr 1
  apply message_ext
  · exact hmsg.symm
  · exact roundtrip_int_field r.transmission_type
  · exact roundtrip_session_field r.session_id hsess
  · exact roundtrip_aircraft_field r.aircraft_id hair
  · exact roundtrip_str_field r.hexident (fun x hx => ⟨(hhex x hx).1, (hhex x hx).2.1⟩)
  · exact roundtrip_flight_field r.flight_id
      (fun x hx => ⟨⟨((hfl x hx).1).1, ((hfl x hx).1).2.1⟩, (hfl x hx).2⟩)
  · show (if String.mk (dumpDate g) ≠ "" ∧ String.mk (dumpTime g) ≠ "" then
        (parse_datetime (String.mk (dumpDate g)) (String.mk (dumpTime g))).toOption
      else none) = r.generation_time
    rw [if_pos ⟨mk_ne_empty (dumpDate_ne_nil g), mk_ne_empty (dumpTime_ne_nil g)⟩,
      parse_datetime_dump g hvg, toOption_ok]
    exact hg.symm
  · show (if String.mk (dumpDate rc) ≠ "" then
        (parse_datetime (String.mk (dumpDate rc)) (String.mk (dumpTime rc))).toOption
      else none) = r.record_time
    rw [if_pos (mk_ne_empty (dumpDate_ne_nil rc)),
      parse_datetime_dump rc hvrc, toOption_ok]
    exact hrc.symm
  · exact roundtrip_str_field r.callsign (fun x hx => ⟨(hcs x hx).1, (hcs x hx).2.1⟩)
  · exact roundtrip_int_field r.altitude
  · exact roundtrip_float_field r.ground_speed hgs
  · exact roundtrip_float_field r.track htrk
  · exact roundtrip_coord_field r.latitude hlat
  · exact roundtrip_coord_field r.longitude hlon
  · exact roundtrip_int_field r.vertical_rate
  · exact roundtrip_int_field r.squawk
  · exact roundtrip_bool_field r.squawk_alert
  · exact roundtrip_bool_field r.emergency
  · exact roundtrip_bool_field r.spi
  · exact roundtrip_bool_field r.on_ground

/-- Claim C4: counterexample to the claim as stated.  The valid full-form
22-field MSG line with latitude `"1.234567"` decodes successfully, but
re-encoding renders the latitude as `"1.23457"` (the `'{:.5f}'.format`
rounding), so decode-then-encode changes a field value that is not one of
the `"111"`/`"11111"`/`"111111"` sentinel collapses. -/
theorem c4_counterexample :
    Message.from_string "MSG,3,,,,,,,,,,,,,1.234567,,,,,,," =
      .ok { Message.init with
        message_type := some "MSG"
        transmission_type := some 3
        latitude := some (1234567 / 1000000) } ∧
    Message.to_string { Message.init with
        message_type := some "MSG"
        transmission_type := some 3
        latitude := some (1234567 / 1000000) } =
      "MSG,3,,,,,,,,,,,1.23457,,,,,,,\n" ∧
    ("1.23457" : String) ≠ "1.234567" := by
  refine ⟨?_, ?_, by decide⟩
  · show Message.parse_string Message.init "MSG,3,,,,,,,,,,,,,1.234567,,,,,,," = _
    rw [from_tokens_msg "MSG,3,,,,,,,,,,,,,1.234567,,,,,,,"
      "3" "" "" "" "" "" "" "" "" "" "" "" "" "1.234567" "" "" "" "" "" "" ""
      rfl
      (fun h => rfl)
      (fun hc => absurd rfl hc.1)
      (fun hc => absurd rfl hc.1)
      (fun h6 h7 => absurd rfl h6)
      (fun h8 => absurd rfl h8)
      (fun h => absurd rfl h)
      (fun h => absurd rfl h)
      (fun h => absurd rfl h)
      (fun h => rfl)
      (fun h => absurd rfl h)
      (fun h => absurd rfl h)
      (fun h => absurd rfl h)]
    congr 1
    apply message_ext
    · rfl
    · rfl
    · rfl
    · rfl
    · rfl
    · rfl
    · rfl
    · rfl
    · rfl
    · rfl
    · rfl
    · rfl
    · show (if ("1.234567" : String) ≠ "" then (pyFloat "1.234567").toOption else none) =
        some (1234567 / 1000000 : ℚ)
      rw [if_pos (by decide),
        show pyFloat "1.234567" = .ok ((1 : ℚ) + (234567 : ℚ) / 10 ^ 6) from rfl,
        toOption_ok]
      congr 1
      norm_num
    · rfl
    · rfl
    · rfl
    · rfl
    · rfl
    · rfl
    · rfl
  · have e3 : natDigits 3 = ['3'] := by
      unfold natDigits
      rw [dif_pos (by norm_num)]
    have e1 : natDigits 1 = ['1'] := by
      unfold natDigits
      rw [dif_pos (by norm_num)]
    have hm : roundHalfEven ((1234567 / 1000000 : ℚ) * 100000) = 123457 := by
      norm_num [roundHalfEven]
    have hfc : format_coordinates (1234567 / 1000000 : ℚ) = "1.23457" := by
      simp only [format_coordinates]
      rw [hm, if_neg (by norm_num), show ((123457 : ℤ)).natAbs / 100000 = 1 from rfl, e1,
        show ((123457 : ℤ)).natAbs % 100000 = 23457 from rfl]
      rfl
    have hir : String.mk (intRepr 3) = "3" := by
      unfold intRepr
      rw [if_neg (by norm_num), show ((3 : ℤ)).natAbs = 3 from rfl, e3]
    have hfields : Message.fields { Message.init with
        message_type := some "MSG"
        transmission_type := some 3
        latitude := some (1234567 / 1000000) } =
        ["MSG", "3", "", "", "", "", "", "", "", "", "", "", "1.23457", "", "", "", "",
         "", "", ""] := by
      unfold Message.fields
      rw [show dump_or_none ({ Message.init with
          message_type := some "MSG"
          transmission_type := some 3
          latitude := some (1234567 / 1000000) } : Message).transmission_type
          (fun z => String.mk (intRepr z)) = String.mk (intRepr 3) from rfl, hir,
        show dump_or_none ({ Message.init with
          message_type := some "MSG"
          transmission_type := some 3
          latitude := some (1234567 / 1000000) } : Message).latitude format_coordinates
          = format_coordinates (1234567 / 1000000 : ℚ) from rfl, hfc]
      rfl
    unfold Message.to_string
    rw [hfields]
    rfl

/-- Witness for the amended C4: a concrete `RoundTrippable` record (a MSG
record with both timestamps present) that the encode/decode round trip
reproduces exactly. -/
theorem c4_amended_witness :
    RoundTrippable { Message.init with
      message_type := some "MSG"
      generation_time := some ⟨2015, 5, 1, 17, 6, 55, 370000⟩
      record_time := some ⟨2015, 5, 1, 17, 6, 55, 370000⟩ } ∧
    Message.from_string (Message.to_string { Message.init with
      message_type := some "MSG"
      generation_time := some ⟨2015, 5, 1, 17, 6, 55, 370000⟩
      record_time := some ⟨2015, 5, 1, 17, 6, 55, 370000⟩ }) =
      .ok { Message.init with
        message_type := some "MSG"
        generation_time := some ⟨2015, 5, 1, 17, 6, 55, 370000⟩
        record_time := some ⟨2015, 5, 1, 17, 6, 55, 370000⟩ } := by
  have hrt : RoundTrippable { Message.init with
      message_type := some "MSG"
      generation_time := some ⟨2015, 5, 1, 17, 6, 55, 370000⟩
      record_time := some ⟨2015, 5, 1, 17, 6, 55, 370000⟩ } := by
    refine ⟨rfl, ?_, ?_, ?_, ?_, ?_,
      ⟨⟨2015, 5, 1, 17, 6, 55, 370000⟩, rfl, by decide⟩,
      ⟨⟨2015, 5, 1, 17, 6, 55, 370000⟩, rfl, by decide⟩, ?_, ?_, ?_, ?_⟩
    · exact fun h => nomatch h
    · exact fun h => nomatch h
    · exact fun x hx => nomatch hx
    · exact fun x hx => nomatch hx
    · exact fun x hx => nomatch hx
    · exact fun q hq => nomatch hq
    · exact fun q hq => nomatch hq
    · exact fun q hq => nomatch hq
    · exact fun q hq => nomatch hq
  exact ⟨hrt, c4_amended _ hrt⟩

/-- Witness for the amended C3 at the 13-field MSG line. -/
theorem c3_amended_witness : (Message.from_string "MSG,3,,,,,,,,,,,").isOk = false := by
  obtain ⟨e, he⟩ :=
    @c3_amended "MSG,3,,,,,,,,,,," (by decide) (by decide) (by decide)
  rw [he]
  rfl

end Py1090

